import Mathlib

/-!
# Careerly front end: resume pipeline and chat session

A shallow embedding of the orchestration code of the Careerly React front end
(`frontend/src/App_clean.js`, `frontend/src/App.js`,
`frontend/src/components/Chatbot.js`).

Every `async` function of the source is transcribed as a value of `Prog`, a
tree of the effects the function performs in program order: state setter
calls, HTTP requests awaited with `await`, reads of `Date.now()` and
`Math.random()`, `setTimeout` registrations, and exceptions.  `try`, `catch`
and `finally` are the combinators `tryCatch` and `tryFinally`.

A small event-loop machine (`Config`, `runSync`, `deliver`, `fire`, `invoke`)
runs these programs: a handler runs synchronously up to its first pending
`await`; a later event (a response arriving, a timer firing) resumes the
stored continuation.  React state is the fold of the setter calls in the
order they are made; a handler reads the state committed when it is invoked
(the values its closure captured).

Numbers are doubles, each written as the rational it denotes: a sum, a
product and a quotient are the exact result rounded to the nearest double, a
tie going to the even one (`binary64`), so `Date.now() + Math.random()` and
the upload percentage are what the code computes.  A result that is not a
finite number is `none`; rounding does not overflow, which is what the code
does below `2 ^ 1024`.  Payloads are typed: the `detail` of an error response
is a string, a chat response has the fields the code reads.
-/

namespace Careerly

/-! ## Payloads and errors -/

/-- JSON values carried in HTTP response bodies. -/
inductive Json where
  | null
  | bool (b : Bool)
  | num (n : Int)
  | str (s : String)
  | arr (xs : List Json)
  | obj (kvs : List (String × Json))

/-- The body of an error response: `error.response.data`. -/
structure ErrData where
  detail : Option String

/-- The response attached to a failed request: `error.response`. -/
structure ErrResponse where
  data : Option ErrData

/-- The value a rejected axios call throws. -/
structure AxiosError where
  response : Option ErrResponse
  message : String

/-- The optional chain `error.response?.data?.detail`. -/
def AxiosError.detail? (error : AxiosError) : Option String :=
  (error.response.bind (fun r => r.data)).bind (fun d => d.detail)

/-- The expression `error.response?.data?.detail || error.message`: the left
operand when it is a non-empty string, the message otherwise. -/
def causeText (error : AxiosError) : String :=
  match error.detail? with
  | some d => if d = "" then error.message else d
  | none => error.message

/-- A browser `File`, as far as the code reads it: its name and MIME type. -/
structure File where
  name : String
  type : String
  deriving DecidableEq

/-- The argument axios passes to an `onUploadProgress` callback. -/
structure ProgressEvent where
  loaded : Int
  total : Int

/-! ## Numbers -/

/-- Rounding to the nearest integer, a tie going to the even one. -/
def roundHalfEven (m : ℚ) : Int :=
  if m - ⌊m⌋ < 1 / 2 then ⌊m⌋
  else if 1 / 2 < m - ⌊m⌋ then ⌊m⌋ + 1
  else if ⌊m⌋ % 2 = 0 then ⌊m⌋ else ⌊m⌋ + 1

/-- The spacing of the doubles around `x`: `2 ^ (e - 52)` for
`2 ^ e ≤ |x| < 2 ^ (e + 1)`, and `2 ^ (-1074)` for `|x| < 2 ^ (-1022)`. -/
def ulp (x : ℚ) : ℚ :=
  (2 : ℚ) ^ (max (Int.log 2 |x|) (-1022) - 52)

/-- The double nearest to `x`, a tie going to the one with an even
significand (IEEE 754 binary64, round to nearest, ties to even).  A number of
magnitude `2 ^ 1024` or more, which the code rounds to an infinity, is not
clipped. -/
def binary64 (x : ℚ) : ℚ :=
  roundHalfEven (x / ulp x) * ulp x

/-- The operator `+` on two numbers. -/
def jsAdd (x y : ℚ) : ℚ :=
  binary64 (x + y)

/-- The operator `*` on two numbers. -/
def jsMul (x y : ℚ) : ℚ :=
  binary64 (x * y)

/-- The operator `/` on two numbers, the divisor not 0. -/
def jsDiv (x y : ℚ) : ℚ :=
  binary64 (x / y)

/-- A safe integer (`Number.isSafeInteger`): of magnitude below `2 ^ 53`. -/
def SafeInteger (n : Int) : Prop :=
  |n| < 2 ^ 53

/-- A progress event that carries safe integers. -/
def SafeEvent (progressEvent : ProgressEvent) : Prop :=
  SafeInteger progressEvent.loaded ∧ SafeInteger progressEvent.total

/-! ## Programs -/

/-- The effects of an `async` function body, in program order.
`W` are the setter calls (and other fire-and-forget calls), `Q` the HTTP
requests, `A` the response bodies. -/
inductive Prog (W Q A : Type) : Type where
  /-- The body ran to its end. -/
  | done
  /-- An exception propagates. -/
  | throw (e : AxiosError)
  /-- A setter call, then the rest. -/
  | write (w : W) (k : Prog W Q A)
  /-- The expression `await axios.post(...)`: the request and the
  continuation on its outcome. -/
  | await (q : Q) (k : Except AxiosError A → Prog W Q A)
  /-- The same with an `onUploadProgress` callback in the request options. -/
  | awaitUp (q : Q) (onUploadProgress : ProgressEvent → Prog W Q A)
      (k : Except AxiosError A → Prog W Q A)
  /-- A read of `Date.now()`. -/
  | now (k : Nat → Prog W Q A)
  /-- A read of `Math.random()`. -/
  | random (k : ℚ → Prog W Q A)
  /-- The call `setTimeout(cb, delay)`, then the rest. -/
  | timer (delay : ℚ) (cb : Prog W Q A) (k : Prog W Q A)

namespace Prog

variable {W Q A : Type}

/-- Sequencing `p; q`: `q` runs when `p` ends normally. -/
def seq : Prog W Q A → Prog W Q A → Prog W Q A
  | done, q => q
  | throw e, _ => throw e
  | write w k, q => write w (seq k q)
  | await r k, q => await r (fun x => seq (k x) q)
  | awaitUp r p k, q => awaitUp r p (fun x => seq (k x) q)
  | now k, q => now (fun t => seq (k t) q)
  | random k, q => random (fun t => seq (k t) q)
  | timer d cb k, q => timer d cb (seq k q)

/-- The statement `try { p } catch (error) { h error }`. -/
def tryCatch : Prog W Q A → (AxiosError → Prog W Q A) → Prog W Q A
  | done, _ => done
  | throw e, h => h e
  | write w k, h => write w (tryCatch k h)
  | await r k, h => await r (fun x => tryCatch (k x) h)
  | awaitUp r p k, h => awaitUp r p (fun x => tryCatch (k x) h)
  | now k, h => now (fun t => tryCatch (k t) h)
  | random k, h => random (fun t => tryCatch (k t) h)
  | timer d cb k, h => timer d cb (tryCatch k h)

/-- The statement `try { p } finally { f }`: `f` runs on both exits, and an
exception of `p` propagates after it. -/
def tryFinally : Prog W Q A → Prog W Q A → Prog W Q A
  | done, f => f
  | throw e, f => seq f (throw e)
  | write w k, f => write w (tryFinally k f)
  | await r k, f => await r (fun x => tryFinally (k x) f)
  | awaitUp r p k, f => awaitUp r p (fun x => tryFinally (k x) f)
  | now k, f => now (fun t => tryFinally (k t) f)
  | random k, f => random (fun t => tryFinally (k t) f)
  | timer d cb k, f => timer d cb (tryFinally k f)

/-- The expression `await axios.post(...)` inside a `try`: the response is
handed to `k`, a rejection is thrown. -/
def post (q : Q) (k : A → Prog W Q A) : Prog W Q A :=
  await q (fun x =>
    match x with
    | .ok response => k response
    | .error e => throw e)

/-- The same with an `onUploadProgress` callback in the request options. -/
def postUp (q : Q) (onUploadProgress : ProgressEvent → Prog W Q A)
    (k : A → Prog W Q A) : Prog W Q A :=
  awaitUp q onUploadProgress (fun x =>
    match x with
    | .ok response => k response
    | .error e => throw e)

end Prog

/-! ## The event loop -/

/-- What the run of a program leaves in the log. -/
inductive Event (W Q A : Type) where
  | act (w : W)
  | issue (q : Q)
  | progress (q : Q) (ev : ProgressEvent)
  | resolve (q : Q) (r : Except AxiosError A)
  | timerSet (delay : ℚ)
  | timerFire (delay : ℚ)
  | uncaught (e : AxiosError)

/-- A request in flight: what was asked, and what runs when it resolves. -/
structure InFlight (W Q A : Type) where
  q : Q
  onUploadProgress : Option (ProgressEvent → Prog W Q A)
  k : Except AxiosError A → Prog W Q A

/-- The readings of the clock and of the random source, by read number. -/
structure Env where
  now : Nat → Nat
  random : Nat → ℚ

/-- A configuration of the event loop: the committed component state, the
requests in flight, the timers set, the number of clock and random reads made
so far, and the log. -/
structure Config (S W Q A : Type) where
  state : S
  awaiting : List (InFlight W Q A)
  timers : List (ℚ × Prog W Q A)
  nNow : Nat
  nRandom : Nat
  log : List (Event W Q A)

section Machine

variable {S W Q A : Type}

/-- The configuration of a freshly rendered component in state `s`. -/
def Config.init (s : S) : Config S W Q A :=
  { state := s, awaiting := [], timers := [], nNow := 0, nRandom := 0, log := [] }

/-- Run a program up to its end or its first pending `await`. -/
def runSync (apply : W → S → S) (env : Env) :
    Prog W Q A → Config S W Q A → Config S W Q A
  | .done, c => c
  | .throw e, c => { c with log := c.log ++ [.uncaught e] }
  | .write w k, c =>
      runSync apply env k { c with state := apply w c.state, log := c.log ++ [.act w] }
  | .await q k, c =>
      { c with awaiting := c.awaiting ++ [⟨q, none, k⟩], log := c.log ++ [.issue q] }
  | .awaitUp q p k, c =>
      { c with awaiting := c.awaiting ++ [⟨q, some p, k⟩], log := c.log ++ [.issue q] }
  | .now k, c => runSync apply env (k (env.now c.nNow)) { c with nNow := c.nNow + 1 }
  | .random k, c =>
      runSync apply env (k (env.random c.nRandom)) { c with nRandom := c.nRandom + 1 }
  | .timer d cb k, c =>
      runSync apply env k { c with timers := c.timers ++ [(d, cb)], log := c.log ++ [.timerSet d] }

/-- An event handler is invoked: it reads the committed state and runs up to
its first pending `await`. -/
def invoke (apply : W → S → S) (env : Env) (handler : S → Prog W Q A)
    (c : Config S W Q A) : Config S W Q A :=
  runSync apply env (handler c.state) c

/-- The `i`-th request in flight resolves with outcome `r`: its continuation
runs up to the next pending `await`. -/
def deliver (apply : W → S → S) (env : Env) (i : Nat) (r : Except AxiosError A)
    (c : Config S W Q A) : Config S W Q A :=
  match c.awaiting.get? i with
  | none => c
  | some p =>
      runSync apply env (p.k r)
        { c with awaiting := c.awaiting.eraseIdx i, log := c.log ++ [.resolve p.q r] }

/-- A progress event arrives for the `i`-th request in flight: its
`onUploadProgress` callback runs, and the request stays in flight. -/
def notify (apply : W → S → S) (env : Env) (i : Nat) (ev : ProgressEvent)
    (c : Config S W Q A) : Config S W Q A :=
  match c.awaiting.get? i with
  | none => c
  | some p =>
      match p.onUploadProgress with
      | none => c
      | some cb => runSync apply env (cb ev) { c with log := c.log ++ [.progress p.q ev] }

/-- The `i`-th timer fires: its callback runs. -/
def fire (apply : W → S → S) (env : Env) (i : Nat)
    (c : Config S W Q A) : Config S W Q A :=
  match c.timers.get? i with
  | none => c
  | some t =>
      runSync apply env t.2
        { c with timers := c.timers.eraseIdx i, log := c.log ++ [.timerFire t.1] }

/-- Let the requests in flight resolve one after the other, oldest first, each
with the outcome the remote service `remote` gives it; at most `fuel`
requests. -/
def settle (apply : W → S → S) (env : Env) (remote : Q → Except AxiosError A) :
    Nat → Config S W Q A → Config S W Q A
  | 0, c => c
  | fuel + 1, c =>
      match c.awaiting with
      | [] => c
      | p :: _ => settle apply env remote fuel (deliver apply env 0 (remote p.q) c)

/-- The setter calls in a log, in order. -/
def actsOf : List (Event W Q A) → List W
  | [] => []
  | .act w :: l => w :: actsOf l
  | _ :: l => actsOf l

/-- The requests issued in a log, in order. -/
def issuedOf : List (Event W Q A) → List Q
  | [] => []
  | .issue q :: l => q :: issuedOf l
  | _ :: l => issuedOf l

end Machine

/-! ## `App_clean.js`: the resume pipeline -/

namespace AppClean

/-- The `useState` cells of `App` in `App_clean.js`. -/
structure State where
  selectedFile : Option File
  uploadStatus : String
  parsedData : Option Json
  careerSuggestions : Option Json
  loading : Bool
  currentStep : Nat
  appMode : String

/-- The initial values given to `useState`. -/
def State.initial : State :=
  { selectedFile := none, uploadStatus := "", parsedData := none,
    careerSuggestions := none, loading := false, currentStep := 1, appMode := "home" }

/-- The setter calls of `App_clean.js`. -/
inductive Act where
  | setSelectedFile (f : Option File)
  | setUploadStatus (s : String)
  | setParsedData (d : Option Json)
  | setCareerSuggestions (d : Option Json)
  | setLoading (b : Bool)
  | setCurrentStep (n : Nat)
  | setAppMode (m : String)

/-- The effect of a setter call on the state. -/
def Act.apply : Act → State → State
  | .setSelectedFile f, s => { s with selectedFile := f }
  | .setUploadStatus m, s => { s with uploadStatus := m }
  | .setParsedData d, s => { s with parsedData := d }
  | .setCareerSuggestions d, s => { s with careerSuggestions := d }
  | .setLoading b, s => { s with loading := b }
  | .setCurrentStep n, s => { s with currentStep := n }
  | .setAppMode m, s => { s with appMode := m }

/-- The three `axios.post` calls of `App_clean.js`. -/
inductive Request where
  /-- `POST /upload_resume/` with the file in a multipart form. -/
  | uploadResume (file : File)
  /-- `POST /parse_resume/` with `params: { filename }`. -/
  | parseResume (filename : String)
  /-- `POST /suggest_careers/` with `params: { filename }`. -/
  | suggestCareers (filename : String)
  deriving DecidableEq

/-- The method `String.prototype.endsWith`. -/
def jsEndsWith (s suffix : String) : Bool :=
  suffix.data.isSuffixOf s.data

/-- The test of `handleFileSelect`:
`file && (file.type === 'application/pdf' || file.name.endsWith('.docx'))`. -/
def accepts : Option File → Bool
  | none => false
  | some file => file.type == "application/pdf" || jsEndsWith file.name ".docx"

/-- The handler `handleFileSelect`, given `event.target.files[0]`. -/
def handleFileSelect (file : Option File) (_s : State) : Prog Act Request Json :=
  if accepts file then
    .write (.setSelectedFile file) <|
    .write (.setUploadStatus "") <|
    .write (.setParsedData none) <|
    .write (.setCareerSuggestions none) <|
    .write (.setCurrentStep 1) .done
  else
    .write (.setUploadStatus "Please select a PDF or DOCX file") .done

/-- The function `getCareerSuggestions(filename)`. -/
def getCareerSuggestions (filename : String) : Prog Act Request Json :=
  .write (.setLoading true) <|
  Prog.tryFinally
    (Prog.tryCatch
      (Prog.post (.suggestCareers filename) fun response =>
        .write (.setCareerSuggestions (some response)) <|
        .write (.setCurrentStep 4) .done)
      (fun error =>
        .write (.setUploadStatus ("Career suggestion failed: " ++ causeText error)) .done))
    (.write (.setLoading false) .done)

/-- The function `parseResume(filename)`. -/
def parseResume (filename : String) : Prog Act Request Json :=
  .write (.setLoading true) <|
  Prog.tryFinally
    (Prog.tryCatch
      (Prog.post (.parseResume filename) fun response =>
        .write (.setParsedData (some response)) <|
        .write (.setCurrentStep 3) <|
        getCareerSuggestions filename)
      (fun error =>
        .write (.setUploadStatus ("Parsing failed: " ++ causeText error)) .done))
    (.write (.setLoading false) .done)

/-- The handler `uploadResume`, reading `selectedFile` from the state it was
rendered with. -/
def uploadResume (s : State) : Prog Act Request Json :=
  match s.selectedFile with
  | none => .done
  | some selectedFile =>
    .write (.setLoading true) <|
    Prog.tryFinally
      (Prog.tryCatch
        (Prog.post (.uploadResume selectedFile) fun _response =>
          .write (.setUploadStatus "Resume uploaded successfully!") <|
          .write (.setCurrentStep 2) <|
          parseResume selectedFile.name)
        (fun error =>
          .write (.setUploadStatus ("Upload failed: " ++ causeText error)) .done))
      (.write (.setLoading false) .done)

/-- The handler `resetApp`. -/
def resetApp (_s : State) : Prog Act Request Json :=
  .write (.setSelectedFile none) <|
  .write (.setUploadStatus "") <|
  .write (.setParsedData none) <|
  .write (.setCareerSuggestions none) <|
  .write (.setCurrentStep 1) .done

/-- The clock and random source are not read by `App_clean.js`. -/
def env : Env := { now := fun _ => 0, random := fun _ => 0 }

/-- The remote service: the outcome of each request. -/
abbrev Remote := Request → Except AxiosError Json

/-- A click on "Analyze Resume" in state `s`: `uploadResume` runs up to its
first `await`. -/
def start (s : State) : Config State Act Request Json :=
  invoke Act.apply env uploadResume (Config.init s)

/-- A whole run of the pipeline from state `s` against `remote`: the click,
then each request in flight resolves in turn, at most `fuel` of them. -/
def run (remote : Remote) (fuel : Nat) (s : State) : Config State Act Request Json :=
  settle Act.apply env remote fuel (start s)

/-- The values written to `currentStep` in a log, in order. -/
def stepWrites : List (Event Act Request Json) → List Nat
  | [] => []
  | .act (.setCurrentStep n) :: l => n :: stepWrites l
  | _ :: l => stepWrites l

/-- The network side of a log: requests issued and their resolutions. -/
inductive Net where
  | issued (q : Request)
  | ok (q : Request)
  | failed (q : Request)
  deriving DecidableEq

/-- The network events of a log, in order. -/
def netOf : List (Event Act Request Json) → List Net
  | [] => []
  | .issue q :: l => .issued q :: netOf l
  | .resolve q (.ok _) :: l => .ok q :: netOf l
  | .resolve q (.error _) :: l => .failed q :: netOf l
  | _ :: l => netOf l

end AppClean

/-! ## `App.js`: the one-call upload -/

namespace App

/-- The `useState` cells of `App` in `App.js`.  `uploadProgress` is `none`
when the stored number is not finite (`NaN` or an infinity). -/
structure State where
  mode : String
  chatOpen : Bool
  uploadedFile : Option File
  uploadProgress : Option Int
  parsedData : Option Json
  isUploading : Bool

/-- The initial values given to `useState`. -/
def State.initial : State :=
  { mode := "landing", chatOpen := false, uploadedFile := none,
    uploadProgress := some 0, parsedData := none, isUploading := false }

/-- The setter calls of `App.js`, and its call of `alert`. -/
inductive Act where
  | setMode (m : String)
  | setChatOpen (b : Bool)
  | setUploadedFile (f : Option File)
  | setUploadProgress (p : Option Int)
  | setParsedData (d : Option Json)
  | setIsUploading (b : Bool)
  | alert (msg : String)

/-- The effect of a setter call on the state; `alert` leaves it alone. -/
def Act.apply : Act → State → State
  | .setMode m, s => { s with mode := m }
  | .setChatOpen b, s => { s with chatOpen := b }
  | .setUploadedFile f, s => { s with uploadedFile := f }
  | .setUploadProgress p, s => { s with uploadProgress := p }
  | .setParsedData d, s => { s with parsedData := d }
  | .setIsUploading b, s => { s with isUploading := b }
  | .alert _, s => s

/-- The one `axios.post` call of `App.js`: `POST /upload_resume`. -/
inductive Request where
  | uploadResume (file : File)
  deriving DecidableEq

/-- The function `Math.round`: the nearest integer, a tie going up. -/
def jsRound (x : ℚ) : Int :=
  Int.floor (x + 1 / 2)

/-- The expression `Math.round((progressEvent.loaded * 100) / progressEvent.total)`:
the product and the quotient are rounded to the nearest double.  The result
is `none` when `total` is 0 and the quotient is not a finite number.  Both
fields of an event are numbers: an event without a `total` is not among the
events of `ProgressEvent`. -/
def percent (progressEvent : ProgressEvent) : Option Int :=
  if progressEvent.total = 0 then none
  else some (jsRound (jsDiv (jsMul progressEvent.loaded 100) progressEvent.total))

/-- The handler `handleFileChange`, given `e.target.files[0]`. -/
def handleFileChange (file : Option File) (_s : State) : Prog Act Request Json :=
  .write (.setUploadedFile file) .done

/-- The handler `uploadResume` of `App.js`. -/
def uploadResume (s : State) : Prog Act Request Json :=
  match s.uploadedFile with
  | none => .done
  | some uploadedFile =>
    Prog.tryFinally
      (Prog.tryCatch
        (.write (.setIsUploading true) <|
          Prog.postUp (.uploadResume uploadedFile)
            (fun progressEvent => .write (.setUploadProgress (percent progressEvent)) .done)
            fun response => .write (.setParsedData (some response)) .done)
        (fun _err => .write (.alert "Upload failed! Try again.") .done))
      (.write (.setIsUploading false) <| .write (.setUploadProgress (some 0)) .done)

/-- The clock and random source are not read by `App.js`. -/
def env : Env := { now := fun _ => 0, random := fun _ => 0 }

/-- A click on the upload button in state `s`. -/
def start (s : State) : Config State Act Request Json :=
  invoke Act.apply env uploadResume (Config.init s)

/-- A whole run of the upload: the click, the progress events `evs` while the
request is in flight, then the outcome `r` of the request. -/
def run (evs : List ProgressEvent) (r : Except AxiosError Json) (s : State) :
    Config State Act Request Json :=
  deliver Act.apply env 0 r
    (evs.foldl (fun c ev => notify Act.apply env 0 ev c) (start s))

end App

/-! ## `components/Chatbot.js`: the chat session -/

namespace Chatbot

/-- The `sender` of a message. -/
inductive Sender where
  | user
  | bot
  deriving DecidableEq

/-- The object `response.data.response` of the chat endpoints. -/
structure BotResponse where
  message : String
  stage : String
  progress : Option Nat
  suggestions : Option (List String)
  recommendations : Option Json
  action : Option String

/-- The body `response.data` of the chat endpoints. -/
structure ChatData where
  success : Bool
  response : BotResponse

/-- An entry of `messages`.  `metadata` is `none` for the default `{}` and the
whole bot response otherwise; `id` is the double `Date.now() + Math.random()`. -/
structure Message where
  id : ℚ
  sender : Sender
  text : String
  timestamp : Nat
  metadata : Option BotResponse

/-- The `useState` cells of `Chatbot`. -/
structure State where
  messages : List Message
  inputMessage : String
  isLoading : Bool
  userId : String
  currentStage : String
  progress : Nat
  suggestions : List String
  isTyping : Bool

/-- The initial values given to `useState`, for a generated `userId`. -/
def State.initial (userId : String) : State :=
  { messages := [], inputMessage := "", isLoading := false, userId := userId,
    currentStage := "greeting", progress := 0, suggestions := [], isTyping := false }

/-- The setter calls of `Chatbot.js`, its call of the `onResumeUploadRequest`
prop and its call of `console.error`. -/
inductive Act where
  | setMessages (f : List Message → List Message)
  | setInputMessage (s : String)
  | setIsLoading (b : Bool)
  | setCurrentStage (s : String)
  | setProgress (n : Nat)
  | setSuggestions (l : List String)
  | setIsTyping (b : Bool)
  | onResumeUploadRequest
  | consoleError (e : AxiosError)

/-- The effect of a setter call on the state; the two outward calls leave it
alone. -/
def Act.apply : Act → State → State
  | .setMessages f, s => { s with messages := f s.messages }
  | .setInputMessage m, s => { s with inputMessage := m }
  | .setIsLoading b, s => { s with isLoading := b }
  | .setCurrentStage m, s => { s with currentStage := m }
  | .setProgress n, s => { s with progress := n }
  | .setSuggestions l, s => { s with suggestions := l }
  | .setIsTyping b, s => { s with isTyping := b }
  | .onResumeUploadRequest, s => s
  | .consoleError _, s => s

/-- The three `axios.post` calls of `Chatbot.js`. -/
inductive Request where
  /-- `POST /chat/start?user_id=...`. -/
  | chatStart (userId : String)
  /-- `POST /chat/message` with body `{ user_id, message }`. -/
  | chatMessage (userId : String) (message : String)
  /-- `POST /chat/reset/<userId>`. -/
  | chatReset (userId : String)
  deriving DecidableEq

/-- The code points `String.prototype.trim` strips: ECMAScript white space
and line terminators. -/
def isJsSpace (c : Char) : Bool :=
  c.val.toNat ∈ [0x9, 0xA, 0xB, 0xC, 0xD, 0x20, 0xA0, 0x1680, 0x2000, 0x2001, 0x2002,
    0x2003, 0x2004, 0x2005, 0x2006, 0x2007, 0x2008, 0x2009, 0x200A, 0x2028, 0x2029,
    0x202F, 0x205F, 0x3000, 0xFEFF]

/-- The method `String.prototype.trim`. -/
def jsTrim (s : String) : String :=
  ⟨((s.data.dropWhile isJsSpace).reverse.dropWhile isJsSpace).reverse⟩

/-- The expression `botResponse.progress || 0`. -/
def progressOr0 : Option Nat → Nat
  | some n => if n = 0 then 0 else n
  | none => 0

/-- The expression `botResponse.suggestions || []`: an array is always
truthy. -/
def suggestionsOrEmpty : Option (List String) → List String
  | some l => l
  | none => []

/-- The function `addMessage(sender, text, metadata = {})`, followed by `k`. -/
def addMessage (sender : Sender) (text : String) (metadata : Option BotResponse)
    (k : Prog Act Request ChatData) : Prog Act Request ChatData :=
  .now fun t => .random fun r => .now fun stamp =>
    .write (.setMessages fun prev =>
      prev ++ [{ id := jsAdd t r, sender := sender, text := text,
                 timestamp := stamp, metadata := metadata }]) k

/-- The function `startChatSession`. -/
def startChatSession (s : State) : Prog Act Request ChatData :=
  Prog.tryFinally
    (Prog.tryCatch
      (.write (.setIsLoading true) <|
        Prog.post (.chatStart s.userId) fun data =>
          if data.success then
            let botResponse := data.response
            addMessage .bot botResponse.message none <|
            .write (.setCurrentStage botResponse.stage) <|
            .write (.setProgress (progressOr0 botResponse.progress)) <|
            .write (.setSuggestions (suggestionsOrEmpty botResponse.suggestions)) .done
          else .done)
      (fun _error => addMessage .bot "Connection error! Please try again." none .done))
    (.write (.setIsLoading false) .done)

/-- The callback `sendMessage` hands to `setTimeout` on a successful reply.
`hasCallback` says whether the `onResumeUploadRequest` prop was supplied. -/
def replyCallback (hasCallback : Bool) (botResponse : BotResponse) :
    Prog Act Request ChatData :=
  .write (.setIsTyping false) <|
  addMessage .bot botResponse.message (some botResponse) <|
  .write (.setCurrentStage botResponse.stage) <|
  .write (.setProgress (progressOr0 botResponse.progress)) <|
  .write (.setSuggestions (suggestionsOrEmpty botResponse.suggestions)) <|
  if botResponse.action = some "redirect_to_resume_upload" then
    .timer 1500 (if hasCallback then .write .onResumeUploadRequest .done else .done) .done
  else .done

/-- The function `sendMessage(message = inputMessage)`: `arg` is the argument
passed, `none` when it is called without one. -/
def sendMessage (hasCallback : Bool) (arg : Option String) (s : State) :
    Prog Act Request ChatData :=
  let message := arg.getD s.inputMessage
  if (jsTrim message).data.isEmpty || s.isLoading then .done
  else
    addMessage .user message none <|
    .write (.setInputMessage "") <|
    .write (.setIsLoading true) <|
    .write (.setIsTyping true) <|
    Prog.tryFinally
      (Prog.tryCatch
        (Prog.post (.chatMessage s.userId message) fun data =>
          if data.success then
            let botResponse := data.response
            .random fun r => .timer (1000 + r * 1000) (replyCallback hasCallback botResponse) .done
          else .done)
        (fun _error =>
          .write (.setIsTyping false) <|
          addMessage .bot "Error occurred! Please try again." none .done))
      (.write (.setIsLoading false) .done)

/-- The handler `handleSuggestionClick`. -/
def handleSuggestionClick (hasCallback : Bool) (suggestion : String) (s : State) :
    Prog Act Request ChatData :=
  sendMessage hasCallback (some suggestion) s

/-- The function `resetChat`.  Its call of `startChatSession` is not awaited;
nothing follows it in `resetChat`, so the two run in sequence. -/
def resetChat (s : State) : Prog Act Request ChatData :=
  Prog.tryCatch
    (Prog.post (.chatReset s.userId) fun _ =>
      .write (.setMessages fun _ => []) <|
      .write (.setProgress 0) <|
      .write (.setSuggestions []) <|
      .write (.setCurrentStage "greeting") <|
      startChatSession s)
    (fun error => .write (.consoleError error) .done)

/-- The sender and text of each message of a transcript. -/
def textsOf (l : List Message) : List (Sender × String) :=
  l.map fun m => (m.sender, m.text)

end Chatbot

/-! ## Statement vocabulary and scenario data -/

/-- The string `s` contains `sub` as a substring. -/
def Contains (s sub : String) : Prop :=
  sub.data <:+: s.data

instance (s sub : String) : Decidable (Contains s sub) :=
  inferInstanceAs (Decidable (sub.data <:+: s.data))

/-- The status line `status` names a stage by `label` and gives the cause of
`e`: the `detail` of the error response when it is present and non-empty, the
error's `message` otherwise. -/
def Reports (status label : String) (e : AxiosError) : Prop :=
  (∀ d, e.detail? = some d → d ≠ "" → status = label ++ d) ∧
  ((e.detail? = none ∨ e.detail? = some "") → status = label ++ e.message)

namespace AppClean

/-- The state `handleFileSelect` leaves when run in state `s` with `file`. -/
def select (file : Option File) (s : State) : State :=
  (invoke Act.apply env (handleFileSelect file) (Config.init s)).state

/-- A `.docx` file as a browser reports it. -/
def docx : File :=
  { name := "resume.docx",
    type := "application/vnd.openxmlformats-officedocument.wordprocessingml.document" }

/-- The stubbed parse response `{skills:["Python","SQL"]}`. -/
def stubParsed : Json :=
  .obj [("skills", .arr [.str "Python", .str "SQL"])]

/-- The stubbed suggest response `{suggested:[{title:"Data Analyst"}]}`. -/
def stubSuggested : Json :=
  .obj [("suggested", .arr [.obj [("title", .str "Data Analyst")]])]

/-- A remote service whose three calls succeed with the stubbed responses. -/
def stubRemote : Remote
  | .uploadResume file => .ok (.obj [("filename", .str file.name)])
  | .parseResume _ => .ok stubParsed
  | .suggestCareers _ => .ok stubSuggested

/-- An error with a message and no response attached, as a network failure
gives. -/
def plainError (message : String) : AxiosError :=
  { response := none, message := message }

/-- An error carrying a response whose body has the given `detail`. -/
def detailedError (detail message : String) : AxiosError :=
  { response := some { data := some { detail := some detail } }, message := message }

/-- A remote service whose suggest call fails with `e`. -/
def suggestFailing (e : AxiosError) : Remote
  | .suggestCareers _ => .error e
  | q => stubRemote q

/-- A remote service whose parse call fails with `e`. -/
def parseFailing (e : AxiosError) : Remote
  | .parseResume _ => .error e
  | q => stubRemote q

/-- A remote service whose upload call fails with `e`. -/
def uploadFailing (e : AxiosError) : Remote
  | .uploadResume _ => .error e
  | q => stubRemote q

end AppClean

namespace App

/-- The state `handleFileChange` leaves when run in state `s` with `file`. -/
def select (file : Option File) (s : State) : State :=
  (invoke Act.apply env (handleFileChange file) (Config.init s)).state

end App

namespace Chatbot

/-- The rest of `sendMessage` after its `await`, given the outcome of the
request: the end of the `try` block, or the `catch` block, then `finally`. -/
def sendMessageResume (hasCallback : Bool) (x : Except AxiosError ChatData) :
    Prog Act Request ChatData :=
  Prog.tryFinally
    (Prog.tryCatch
      (match x with
        | .ok data =>
          if data.success then
            let botResponse := data.response
            .random fun r => .timer (1000 + r * 1000) (replyCallback hasCallback botResponse) .done
          else .done
        | .error e => .throw e)
      (fun _error =>
        .write (.setIsTyping false) <|
        addMessage .bot "Error occurred! Please try again." none .done))
    (.write (.setIsLoading false) .done)

/-- The message `addMessage('user', text)` builds when the clock has been read
`nNow` times and the random source `nRandom` times. -/
def userMessage (env : Env) (nNow nRandom : Nat) (text : String) : Message :=
  { id := jsAdd (env.now nNow) (env.random nRandom), sender := .user, text := text,
    timestamp := env.now (nNow + 1), metadata := none }

/-- The message `addMessage('bot', r.message, r)` builds when the clock has
been read `nNow` times and the random source `nRandom` times. -/
def botMessage (env : Env) (nNow nRandom : Nat) (r : BotResponse) : Message :=
  { id := jsAdd (env.now nNow) (env.random nRandom), sender := .bot, text := r.message,
    timestamp := env.now (nNow + 1), metadata := some r }

/-- A clock that advances by a millisecond at each read, and a random source
that always draws one half. -/
def env0 : Env :=
  { now := fun n => 1700000000000 + n, random := fun _ => 1 / 2 }

/-- A chat in which the message "Hello" has been sent and its request is
still in flight. -/
def helloPending : Config State Act Request ChatData :=
  invoke Act.apply env0 (sendMessage true (some "Hello")) (Config.init (State.initial "user_1"))

/-- A chat at rest that offers two quick replies from an earlier turn. -/
def offering : Config State Act Request ChatData :=
  Config.init { State.initial "user_1" with suggestions := ["Tell me more", "Start over"] }

/-- A bot response with a recommendation, a stage, and no `progress` and no
`suggestions` field. -/
def designReply : BotResponse :=
  { message := "**Design** suits you.\nWant details?", stage := "recommendation",
    progress := none, suggestions := none,
    recommendations := some (.arr [.obj [("title", .str "UX Designer")]]),
    action := none }

end Chatbot

/-! ## `Chatbot.js`: continuations, sessions -/

namespace Chatbot

/-- The rest of `startChatSession` after its `await`, given the outcome of the
request. -/
def startChatResume (x : Except AxiosError ChatData) : Prog Act Request ChatData :=
  Prog.tryFinally
    (Prog.tryCatch
      (match x with
        | .ok data =>
          if data.success then
            let botResponse := data.response
            addMessage .bot botResponse.message none <|
            .write (.setCurrentStage botResponse.stage) <|
            .write (.setProgress (progressOr0 botResponse.progress)) <|
            .write (.setSuggestions (suggestionsOrEmpty botResponse.suggestions)) .done
          else .done
        | .error e => .throw e)
      (fun _error => addMessage .bot "Connection error! Please try again." none .done))
    (.write (.setIsLoading false) .done)

/-- The rest of `resetChat` after its `await`, given the outcome of the
request; `s` is the state `resetChat` was rendered with. -/
def resetChatResume (s : State) (x : Except AxiosError ChatData) :
    Prog Act Request ChatData :=
  Prog.tryCatch
    (match x with
      | .ok _ =>
        .write (.setMessages fun _ => []) <|
        .write (.setProgress 0) <|
        .write (.setSuggestions []) <|
        .write (.setCurrentStage "greeting") <|
        startChatSession s
      | .error e => .throw e)
    (fun error => .write (.consoleError error) .done)

/-- The inner callback of `sendMessage`, handed to `setTimeout` with 1500 ms:
`() => onResumeUploadRequest && onResumeUploadRequest()`. -/
def escalation (hasCallback : Bool) : Prog Act Request ChatData :=
  if hasCallback then .write .onResumeUploadRequest .done else .done

/-- The message `addMessage('bot', text)` builds when the clock has been read
`nNow` times and the random source `nRandom` times. -/
def noticeMessage (env : Env) (nNow nRandom : Nat) (text : String) : Message :=
  { id := jsAdd (env.now nNow) (env.random nRandom), sender := .bot, text := text,
    timestamp := env.now (nNow + 1), metadata := none }

/-- The `user_id` a request carries. -/
def Request.userId : Request → String
  | .chatStart u => u
  | .chatMessage u _ => u
  | .chatReset u => u

/-- The senders of a transcript, in order. -/
def sendersOf (l : List Message) : List Sender :=
  l.map fun m => m.sender

/-- The component right after it mounts with the generated `userId`: the
effect `useEffect(() => { startChatSession(); }, [])` has run up to its
`await`. -/
def mounted (env : Env) (userId : String) : Config State Act Request ChatData :=
  invoke Act.apply env startChatSession (Config.init (State.initial userId))

/-- Which events a family of sessions admits: in which configurations
`sendMessage` may be called, which outcomes a request may have, and whether
`resetChat` is ever called. -/
structure Policy where
  sendOk : Config State Act Request ChatData → Prop
  respOk : Except AxiosError ChatData → Prop
  resetOk : Prop

/-- The configurations a mounted chat reaches by calls of `sendMessage`
(typed text, suggestion clicks), requests resolving, timers firing and calls
of `resetChat`, in any order the policy admits. -/
inductive Reach (env : Env) (hasCallback : Bool) (userId : String) (pol : Policy) :
    Config State Act Request ChatData → Prop where
  | mount : Reach env hasCallback userId pol (mounted env userId)
  | send (arg : Option String) {c : Config State Act Request ChatData} :
      Reach env hasCallback userId pol c → pol.sendOk c →
      Reach env hasCallback userId pol (invoke Act.apply env (sendMessage hasCallback arg) c)
  | respond (i : Nat) (r : Except AxiosError ChatData)
      {c : Config State Act Request ChatData} :
      Reach env hasCallback userId pol c → pol.respOk r →
      Reach env hasCallback userId pol (deliver Act.apply env i r c)
  | tick (j : Nat) {c : Config State Act Request ChatData} :
      Reach env hasCallback userId pol c →
      Reach env hasCallback userId pol (fire Act.apply env j c)
  | reset {c : Config State Act Request ChatData} :
      Reach env hasCallback userId pol c → pol.resetOk →
      Reach env hasCallback userId pol (invoke Act.apply env resetChat c)

/-- Every event is admitted. -/
def anyPolicy : Policy :=
  { sendOk := fun _ => True, respOk := fun _ => True, resetOk := True }

/-- Every event but a call of `resetChat` is admitted. -/
def noResetPolicy : Policy :=
  { sendOk := fun _ => True, respOk := fun _ => True, resetOk := False }

end Chatbot

/-! ## More statement vocabulary and scenario data -/

namespace AppClean

/-- The state `resetApp` leaves when run in state `s`. -/
def reset (s : State) : State :=
  (invoke Act.apply env resetApp (Config.init s)).state

end AppClean

namespace Chatbot

/-- A run of calls of `addMessage`, one per item, in order. -/
def appendAll : List (Sender × String × Option BotResponse) → Prog Act Request ChatData
  | [] => .done
  | (sender, text, metadata) :: rest => addMessage sender text metadata (appendAll rest)

/-- The messages a run of calls of `addMessage` builds when the clock has been
read `nNow` times and the random source `nRandom` times before it: each call
reads the clock for the id, the random source, and the clock again for the
timestamp. -/
def stamped (env : Env) : Nat → Nat → List (Sender × String × Option BotResponse) →
    List Message
  | _, _, [] => []
  | nNow, nRandom, (sender, text, metadata) :: rest =>
    { id := jsAdd (env.now nNow) (env.random nRandom), sender := sender, text := text,
      timestamp := env.now (nNow + 1), metadata := metadata } ::
      stamped env (nNow + 2) (nRandom + 1) rest

/-- The identifiers of a transcript, in order. -/
def idsOf (l : List Message) : List ℚ :=
  l.map fun m => m.id

/-- A clock that stands still and a random source that draws three quarters
and then one quarter. -/
def tiedClock : Env :=
  { now := fun _ => 1700000000000, random := fun n => if n = 0 then 3 / 4 else 1 / 4 }

/-- How many times a log records a call of `onResumeUploadRequest`. -/
def escalationsOf : List (Event Act Request ChatData) → Nat
  | [] => 0
  | .act .onResumeUploadRequest :: l => escalationsOf l + 1
  | _ :: l => escalationsOf l

/-- A chat at rest in the middle of a conversation: one turn in the
transcript, a stage, a progress and two quick replies. -/
def midChat : Config State Act Request ChatData :=
  Config.init
    { State.initial "user_1" with
      messages := [
        { id := 1700000000000, sender := .user, text := "Hi", timestamp := 1700000000000,
          metadata := none },
        { id := 1700000001000, sender := .bot, text := "What are your skills?",
          timestamp := 1700000001000, metadata := none }],
      currentStage := "skills_inquiry", progress := 40,
      suggestions := ["Python", "Design"] }

/-- A bot response that asks for the resume upload. -/
def uploadReply : BotResponse :=
  { message := "Please upload your resume.", stage := "resume", progress := some 80,
    suggestions := some ["Upload"], recommendations := none,
    action := some "redirect_to_resume_upload" }

/-- A greeting as `/chat/start` returns it. -/
def greeting : BotResponse :=
  { message := "Hello! What interests you?", stage := "greeting", progress := none,
    suggestions := some ["Technology", "Design"], recommendations := none, action := none }

end Chatbot

/-! ## Requests a program can issue -/

/-- Every request the program issues satisfies `P`: the requests it awaits at
once, those of the continuations of its requests on any outcome, and those of
the callbacks it registers. -/
inductive Prog.Sends {W Q A : Type} (P : Q → Prop) : Prog W Q A → Prop where
  | done : Prog.Sends P .done
  | throw (e : AxiosError) : Prog.Sends P (.throw e)
  | write (w : W) {k : Prog W Q A} : Prog.Sends P k → Prog.Sends P (.write w k)
  | await {q : Q} {k : Except AxiosError A → Prog W Q A} :
      P q → (∀ x, Prog.Sends P (k x)) → Prog.Sends P (.await q k)
  | awaitUp {q : Q} {cb : ProgressEvent → Prog W Q A}
      {k : Except AxiosError A → Prog W Q A} :
      P q → (∀ ev, Prog.Sends P (cb ev)) → (∀ x, Prog.Sends P (k x)) →
      Prog.Sends P (.awaitUp q cb k)
  | now {k : Nat → Prog W Q A} : (∀ t, Prog.Sends P (k t)) → Prog.Sends P (.now k)
  | random {k : ℚ → Prog W Q A} : (∀ t, Prog.Sends P (k t)) → Prog.Sends P (.random k)
  | timer (d : ℚ) {cb k : Prog W Q A} :
      Prog.Sends P cb → Prog.Sends P k → Prog.Sends P (.timer d cb k)

/-- Every request of the configuration satisfies `P`: those already issued
according to the log, and those that the continuations in flight and the
timers set can still issue. -/
def Config.Sends {S W Q A : Type} (P : Q → Prop) (c : Config S W Q A) : Prop :=
  (∀ p ∈ c.awaiting, (∀ x, Prog.Sends P (p.k x)) ∧
    ∀ cb, p.onUploadProgress = some cb → ∀ ev, Prog.Sends P (cb ev)) ∧
  (∀ t ∈ c.timers, Prog.Sends P t.2) ∧
  (∀ q ∈ issuedOf c.log, P q)

/-! ## `Chatbot.js`: phases of a session -/

namespace Chatbot

/-- The callback of a timer `sendMessage` can have set: the delayed reply of
some response, or the delayed call of `onResumeUploadRequest`. -/
def KnownTimer (hasCallback : Bool) (p : Prog Act Request ChatData) : Prop :=
  p = escalation hasCallback ∨ ∃ r, p = replyCallback hasCallback r

/-- Every timer set is one of `sendMessage`; and either no request is in
flight, or exactly one is, of `startChatSession` or of `sendMessage`, and
`isLoading` is true. -/
def Guarded (hasCallback : Bool) (c : Config State Act Request ChatData) : Prop :=
  (∀ t ∈ c.timers, KnownTimer hasCallback t.2) ∧
  (c.awaiting = [] ∨
    ∃ q k, c.awaiting = [⟨q, none, k⟩] ∧ c.state.isLoading = true ∧
      (k = startChatResume ∨ k = sendMessageResume hasCallback))

/-- The senders of a transcript of answered turns, newest first: nothing, or
one bot message (the greeting, or the notice of a failed start), then turns
of a user message and the bot message after it. -/
inductive Turns : List Sender → Prop where
  | nil : Turns []
  | greet : Turns [.bot]
  | turn {l : List Sender} : Turns l → Turns (.bot :: .user :: l)

/-- The sessions in which `sendMessage` is not called while a typing-delay
timer is pending, no response has its `success` flag unset, and `resetChat`
is not called. -/
def orderlyPolicy (hasCallback : Bool) : Policy :=
  { sendOk := fun c => ∀ t ∈ c.timers, ∀ r, t.2 ≠ replyCallback hasCallback r,
    respOk := fun r => ∀ b, r ≠ .ok ⟨false, b⟩,
    resetOk := False }

/-- The four phases of such a session: at rest, with every turn answered;
starting, with the request of `startChatSession` in flight and an empty
transcript; sent, with the request of `sendMessage` in flight and the user
message last; typing, with the delayed reply pending and the user message
last.  Any other timer is a delayed call of `onResumeUploadRequest`. -/
def Orderly (hasCallback : Bool) (c : Config State Act Request ChatData) : Prop :=
  (c.awaiting = [] ∧ (∀ t ∈ c.timers, t.2 = escalation hasCallback) ∧
    Turns (sendersOf c.state.messages).reverse) ∨
  ((∃ u, c.awaiting = [⟨.chatStart u, none, startChatResume⟩]) ∧
    c.state.isLoading = true ∧ (∀ t ∈ c.timers, t.2 = escalation hasCallback) ∧
    c.state.messages = []) ∨
  ((∃ q, c.awaiting = [⟨q, none, sendMessageResume hasCallback⟩]) ∧
    c.state.isLoading = true ∧ (∀ t ∈ c.timers, t.2 = escalation hasCallback) ∧
    ∃ l, Turns l ∧ (sendersOf c.state.messages).reverse = .user :: l) ∨
  (c.awaiting = [] ∧
    (∃ l₁ l₂ d r, c.timers = l₁ ++ (d, replyCallback hasCallback r) :: l₂ ∧
      ∀ t ∈ l₁ ++ l₂, t.2 = escalation hasCallback) ∧
    ∃ l, Turns l ∧ (sendersOf c.state.messages).reverse = .user :: l)

/-- A mounted chat that has received its greeting. -/
def greeted : Config State Act Request ChatData :=
  deliver Act.apply env0 0 (.ok ⟨true, greeting⟩) (mounted env0 "user_1")

/-- A session with one turn: "Hi" is sent, the reply arrives, its timer
fires. -/
def oneTurn : Config State Act Request ChatData :=
  fire Act.apply env0 0
    (deliver Act.apply env0 0 (.ok ⟨true, designReply⟩)
      (invoke Act.apply env0 (sendMessage true (some "Hi")) greeted))

/-- A session with a reset: one turn, then `resetChat` whose request succeeds,
the new greeting, and "Again" sent. -/
def resetSession : Config State Act Request ChatData :=
  invoke Act.apply env0 (sendMessage true (some "Again"))
    (deliver Act.apply env0 0 (.ok ⟨true, greeting⟩)
      (deliver Act.apply env0 0 (.ok ⟨true, greeting⟩)
        (invoke Act.apply env0 resetChat oneTurn)))

/-- A session with overlapping turns: "Hi" is sent and its reply arrives;
during the typing delay "And design?" is sent; then the first timer fires,
the second reply arrives and the second timer fires. -/
def overlapping : Config State Act Request ChatData :=
  fire Act.apply env0 0
    (deliver Act.apply env0 0 (.ok ⟨true, designReply⟩)
      (fire Act.apply env0 0
        (invoke Act.apply env0 (sendMessage true (some "And design?"))
          (deliver Act.apply env0 0 (.ok ⟨true, designReply⟩)
            (invoke Act.apply env0 (sendMessage true (some "Hi")) greeted)))))

/-- A session in which `resetChat` is called while the request of "Hi" is in
flight. -/
def resetWhileSending : Config State Act Request ChatData :=
  invoke Act.apply env0 resetChat
    (invoke Act.apply env0 (sendMessage true (some "Hi")) greeted)

end Chatbot

/-! ## Files, buttons and late responses: vocabulary and scenario data -/

/-- The string `s` ends with `suffix`. -/
def EndsWith (s suffix : String) : Prop :=
  ∃ front : String, s = front ++ suffix

namespace AppClean

/-- A `.doc` file as a browser reports it. -/
def legacyDoc : File :=
  { name := "resume.doc", type := "application/msword" }

/-- A file named `.pdf` for which the browser reports no MIME type. -/
def untypedPdf : File :=
  { name := "resume.pdf", type := "" }

end AppClean

/-! ## `App.js`: the callback and the continuation of the upload -/

namespace App

/-- The `onUploadProgress` callback of `uploadResume`. -/
def onUploadProgress (progressEvent : ProgressEvent) : Prog Act Request Json :=
  .write (.setUploadProgress (percent progressEvent)) .done

/-- The rest of `uploadResume` after its `await`, given the outcome of the
request: the end of the `try` block, or the `catch` block, then `finally`. -/
def uploadResumeResume (x : Except AxiosError Json) : Prog Act Request Json :=
  Prog.tryFinally
    (Prog.tryCatch
      (match x with
        | .ok response => .write (.setParsedData (some response)) .done
        | .error e => .throw e)
      (fun _err => .write (.alert "Upload failed! Try again.") .done))
    (.write (.setIsUploading false) <| .write (.setUploadProgress (some 0)) .done)

/-- The buttons that call `setMode(m)`, and the callback given to the
chatbot. -/
def navigate (m : String) (_s : State) : Prog Act Request Json :=
  .write (.setMode m) .done

/-- The buttons that open and close the chat: `setChatOpen(b)`. -/
def chatButton (b : Bool) (_s : State) : Prog Act Request Json :=
  .write (.setChatOpen b) .done

/-- The upload button, rendered when `mode === 'resume'`:
`<button onClick={uploadResume} disabled={!uploadedFile || isUploading}>`.
A click on a disabled button, or on one that is not rendered, calls
nothing. -/
def uploadButton (s : State) : Prog Act Request Json :=
  if s.mode == "resume" && !(s.uploadedFile.isNone || s.isUploading) then uploadResume s
  else .done

/-- The file input, rendered when `mode === 'resume'`:
`<input type="file" onChange={handleFileChange} disabled={isUploading} />`. -/
def fileInput (file : Option File) (s : State) : Prog Act Request Json :=
  if s.mode == "resume" && !s.isUploading then handleFileChange file s else .done

/-- The upload request in flight, as `uploadResume` leaves it. -/
def uploadFlight (file : File) : InFlight Act Request Json :=
  { q := .uploadResume file, onUploadProgress := some onUploadProgress,
    k := uploadResumeResume }

/-- The configurations `App.js` reaches from its initial state by clicks on
the navigation and chat buttons, choices in the file input, clicks on the
upload button, progress events and resolutions of the request, in any
order. -/
inductive Reach : Config State Act Request Json → Prop where
  | init : Reach (Config.init State.initial)
  | navigate (m : String) {c : Config State Act Request Json} :
      Reach c → Reach (invoke Act.apply env (navigate m) c)
  | chat (b : Bool) {c : Config State Act Request Json} :
      Reach c → Reach (invoke Act.apply env (chatButton b) c)
  | choose (file : Option File) {c : Config State Act Request Json} :
      Reach c → Reach (invoke Act.apply env (fileInput file) c)
  | click {c : Config State Act Request Json} :
      Reach c → Reach (invoke Act.apply env uploadButton c)
  | progress (i : Nat) (ev : ProgressEvent) {c : Config State Act Request Json} :
      Reach c → Reach (notify Act.apply env i ev c)
  | respond (i : Nat) (r : Except AxiosError Json) {c : Config State Act Request Json} :
      Reach c → Reach (deliver Act.apply env i r c)

/-- The chosen file of the scenarios. -/
def chosen : State :=
  select (some AppClean.docx) State.initial

end App

/-! ## `App_clean.js`: the continuations of the pipeline, and the controls -/

/-- The truthiness of a JSON value: what `value && ...` tests. -/
def Json.truthy : Json → Bool
  | .null => false
  | .bool b => b
  | .num n => n != 0
  | .str s => s != ""
  | .arr _ => true
  | .obj _ => true

namespace AppClean

/-- The rest of the pipeline after the `await` of `uploadResume`, given the
outcome of the upload request. -/
def uploadResumeResume (selectedFile : File) (x : Except AxiosError Json) :
    Prog Act Request Json :=
  Prog.tryFinally
    (Prog.tryCatch
      (match x with
        | .ok _response =>
          .write (.setUploadStatus "Resume uploaded successfully!") <|
          .write (.setCurrentStep 2) <|
          parseResume selectedFile.name
        | .error e => .throw e)
      (fun error =>
        .write (.setUploadStatus ("Upload failed: " ++ causeText error)) .done))
    (.write (.setLoading false) .done)

/-- The rest of the pipeline after the `await` of `parseResume`, called by
`uploadResume`, given the outcome of the parse request. -/
def parseResumeResume (filename : String) (x : Except AxiosError Json) :
    Prog Act Request Json :=
  Prog.tryFinally
    (Prog.tryCatch
      (Prog.tryFinally
        (Prog.tryCatch
          (match x with
            | .ok response =>
              .write (.setParsedData (some response)) <|
              .write (.setCurrentStep 3) <|
              getCareerSuggestions filename
            | .error e => .throw e)
          (fun error =>
            .write (.setUploadStatus ("Parsing failed: " ++ causeText error)) .done))
        (.write (.setLoading false) .done))
      (fun error =>
        .write (.setUploadStatus ("Upload failed: " ++ causeText error)) .done))
    (.write (.setLoading false) .done)

/-- The rest of the pipeline after the `await` of `getCareerSuggestions`,
called by `parseResume`, given the outcome of the suggest request. -/
def getCareerSuggestionsResume (x : Except AxiosError Json) : Prog Act Request Json :=
  Prog.tryFinally
    (Prog.tryCatch
      (Prog.tryFinally
        (Prog.tryCatch
          (Prog.tryFinally
            (Prog.tryCatch
              (match x with
                | .ok response =>
                  .write (.setCareerSuggestions (some response)) <|
                  .write (.setCurrentStep 4) .done
                | .error e => .throw e)
              (fun error =>
                .write (.setUploadStatus
                  ("Career suggestion failed: " ++ causeText error)) .done))
            (.write (.setLoading false) .done))
          (fun error =>
            .write (.setUploadStatus ("Parsing failed: " ++ causeText error)) .done))
        (.write (.setLoading false) .done))
      (fun error =>
        .write (.setUploadStatus ("Upload failed: " ++ causeText error)) .done))
    (.write (.setLoading false) .done)

/-- The upload request in flight, as `uploadResume` leaves it. -/
def uploadFlight (file : File) : InFlight Act Request Json :=
  { q := .uploadResume file, onUploadProgress := none, k := uploadResumeResume file }

/-- The parse request in flight. -/
def parseFlight (filename : String) : InFlight Act Request Json :=
  { q := .parseResume filename, onUploadProgress := none, k := parseResumeResume filename }

/-- The suggest request in flight. -/
def suggestFlight (filename : String) : InFlight Act Request Json :=
  { q := .suggestCareers filename, onUploadProgress := none,
    k := getCareerSuggestionsResume }

/-- A request of the pipeline in flight: one of the three. -/
def Stage (p : InFlight Act Request Json) : Prop :=
  (∃ file, p = uploadFlight file) ∨ (∃ filename, p = parseFlight filename) ∨
    (∃ filename, p = suggestFlight filename)

/-- The buttons that call `setAppMode(m)`. -/
def navigate (m : String) (_s : State) : Prog Act Request Json :=
  .write (.setAppMode m) .done

/-- The file input, rendered when `appMode === 'resume'` and
`currentStep === 1`: `<input type="file" onChange={handleFileSelect} />`.
A control that is not rendered calls nothing. -/
def fileInput (file : Option File) (s : State) : Prog Act Request Json :=
  if s.appMode == "resume" && s.currentStep == 1 then handleFileSelect file s else .done

/-- The button "Analyze Resume", rendered when `appMode === 'resume'`,
`currentStep === 1` and `selectedFile` is set:
`<button onClick={uploadResume} disabled={loading}>`.  A click on a disabled
button calls nothing. -/
def uploadButton (s : State) : Prog Act Request Json :=
  if s.appMode == "resume" && s.currentStep == 1 && s.selectedFile.isSome && !s.loading then
    uploadResume s
  else .done

/-- The button that calls `resetApp`, rendered when `appMode === 'resume'`
and `currentStep >= 4 && careerSuggestions`. -/
def resetButton (s : State) : Prog Act Request Json :=
  if s.appMode == "resume" && decide (4 ≤ s.currentStep) &&
      s.careerSuggestions.any Json.truthy then
    resetApp s
  else .done

/-- The configurations `App_clean.js` reaches from its initial state by
clicks on the navigation buttons, choices in the file input, clicks on
"Analyze Resume" and on the reset button, and resolutions of the requests in
flight, in any order. -/
inductive Reach : Config State Act Request Json → Prop where
  | init : Reach (Config.init State.initial)
  | navigate (m : String) {c : Config State Act Request Json} :
      Reach c → Reach (invoke Act.apply env (navigate m) c)
  | choose (file : Option File) {c : Config State Act Request Json} :
      Reach c → Reach (invoke Act.apply env (fileInput file) c)
  | click {c : Config State Act Request Json} :
      Reach c → Reach (invoke Act.apply env uploadButton c)
  | reset {c : Config State Act Request Json} :
      Reach c → Reach (invoke Act.apply env resetButton c)
  | respond (i : Nat) (r : Except AxiosError Json) {c : Config State Act Request Json} :
      Reach c → Reach (deliver Act.apply env i r c)

/-- The resume page opened and `resume.docx` chosen. -/
def ready : Config State Act Request Json :=
  invoke Act.apply env (fileInput (some docx))
    (invoke Act.apply env (navigate "resume") (Config.init State.initial))

/-- The state with `resume.docx` selected and nothing else done. -/
def selected : State :=
  select (some docx) State.initial

end AppClean

namespace App

/-- The resume page opened and `resume.docx` chosen. -/
def ready : Config State Act Request Json :=
  invoke Act.apply env (fileInput (some AppClean.docx))
    (invoke Act.apply env (navigate "resume") (Config.init State.initial))

end App

/-! ## The pages: what holds of every configuration reached -/

namespace AppClean

/-- What holds of every configuration the page reaches: nothing is in flight
and `loading` is off, with no suggestions stored at step 1; or one request of
the pipeline is in flight, `loading` is on and no suggestions are stored. -/
def Phase (c : Config State Act Request Json) : Prop :=
  (c.awaiting = [] ∧ c.state.loading = false ∧
    (c.state.currentStep = 1 → c.state.careerSuggestions = none)) ∨
  (∃ p, c.awaiting = [p] ∧ Stage p ∧ c.state.loading = true ∧
    c.state.careerSuggestions = none)

end AppClean

namespace App

/-- What holds of every configuration the page reaches: nothing is in flight
and `isUploading` is off, or the upload is in flight and `isUploading` is
on. -/
def Phase (c : Config State Act Request Json) : Prop :=
  (c.awaiting = [] ∧ c.state.isUploading = false) ∨
  (∃ f, c.awaiting = [uploadFlight f] ∧ c.state.isUploading = true)

end App

/-! ## Identifiers a millisecond apart: scenario data -/

namespace Chatbot

/-- A clock that advances by a millisecond every second read, so that two
messages appended one after the other take their identifiers one millisecond
apart, and a random source that draws `1 - 2 ^ (-20)` and then 0. -/
def nextMillisecond : Env :=
  { now := fun n => 1700000000000 + n / 2,
    random := fun n => if n = 0 then 1048575 / 1048576 else 0 }

end Chatbot

/-! ## Doubles: basic facts -/

theorem roundHalfEven_floor_le (m : ℚ) : ⌊m⌋ ≤ roundHalfEven m := by
  unfold roundHalfEven
  split_ifs <;> omega

theorem roundHalfEven_le_floor_add_one (m : ℚ) : roundHalfEven m ≤ ⌊m⌋ + 1 := by
  unfold roundHalfEven
  split_ifs <;> omega

theorem roundHalfEven_intCast (k : Int) : roundHalfEven (k : ℚ) = k := by
  unfold roundHalfEven
  simp

theorem le_roundHalfEven (k : Int) (m : ℚ) (h : (k : ℚ) ≤ m) : k ≤ roundHalfEven m :=
  le_trans (Int.le_floor.mpr h) (roundHalfEven_floor_le m)

theorem roundHalfEven_le (k : Int) (m : ℚ) (h : m ≤ (k : ℚ)) : roundHalfEven m ≤ k := by
  rcases eq_or_lt_of_le h with h | h
  · rw [h, roundHalfEven_intCast]
  · have := Int.floor_lt.mpr h
    have := roundHalfEven_le_floor_add_one m
    omega

theorem roundHalfEven_mono {m n : ℚ} (h : m ≤ n) : roundHalfEven m ≤ roundHalfEven n := by
  have hf : ⌊m⌋ ≤ ⌊n⌋ := Int.floor_mono h
  rcases eq_or_lt_of_le hf with hf | hf
  · unfold roundHalfEven
    rw [← hf]
    split_ifs <;> first | omega | (exfalso; linarith)
  · have := roundHalfEven_le_floor_add_one m
    have := roundHalfEven_floor_le n
    omega

theorem roundHalfEven_eq_of_abs_lt (k : Int) (m : ℚ) (h : |m - k| < 1 / 2) :
    roundHalfEven m = k := by
  rw [abs_lt] at h
  rcases le_or_lt (k : ℚ) m with hk | hk
  · have hfl : ⌊m⌋ = k := Int.floor_eq_iff.mpr ⟨hk, by linarith⟩
    unfold roundHalfEven
    rw [hfl, if_pos (by linarith)]
  · have hfl : ⌊m⌋ = k - 1 := Int.floor_eq_iff.mpr ⟨by push_cast; linarith, by push_cast; linarith⟩
    unfold roundHalfEven
    rw [hfl, if_neg (by push_cast; linarith), if_pos (by push_cast; linarith)]
    omega

theorem roundHalfEven_sub_le (m : ℚ) : (roundHalfEven m : ℚ) ≤ m + 1 := by
  have h1 : (roundHalfEven m : ℚ) ≤ ((⌊m⌋ + 1 : Int) : ℚ) := by
    exact_mod_cast roundHalfEven_le_floor_add_one m
  have h2 := Int.floor_le m
  push_cast at h1
  linarith

theorem le_roundHalfEven_add (m : ℚ) : m - 1 ≤ (roundHalfEven m : ℚ) := by
  have h1 : ((⌊m⌋ : Int) : ℚ) ≤ (roundHalfEven m : ℚ) := by
    exact_mod_cast roundHalfEven_floor_le m
  have h2 := Int.lt_floor_add_one m
  linarith

theorem ulp_pos (x : ℚ) : 0 < ulp x :=
  zpow_pos (by norm_num) _

/-- Every integer multiple of a power of two at or above the spacing around
`x` is an integer multiple of that spacing. -/
theorem multiple_of_ulp (x : ℚ) (n j : Int)
    (hj : max (Int.log 2 |x|) (-1022) - 52 ≤ j) :
    ∃ k : Int, (n : ℚ) * (2 : ℚ) ^ j = k * ulp x := by
  obtain ⟨d, hd⟩ := Int.eq_ofNat_of_zero_le (sub_nonneg.mpr hj)
  refine ⟨n * 2 ^ d, ?_⟩
  have e : j = (d : Int) + (max (Int.log 2 |x|) (-1022) - 52) := by omega
  unfold ulp
  rw [e, zpow_add₀ (by norm_num : (2 : ℚ) ≠ 0), zpow_natCast]
  push_cast
  ring

theorem log_lt_of_abs_lt (x : ℚ) (j : Int) (hx : x ≠ 0) (h : |x| < (2 : ℚ) ^ j) :
    Int.log 2 |x| < j := by
  have hpos : 0 < |x| := abs_pos.mpr hx
  have := (Int.lt_zpow_iff_log_lt (b := 2) (by norm_num) (x := j) hpos).mp
    (by simpa using h)
  exact this

/-- The spacing around `x` is at most `2 ^ j` when `|x| < 2 ^ (j + 53)` and
`j` is at least -1074. -/
theorem exponent_le (x : ℚ) (j : Int) (hx : x ≠ 0) (hj : -1074 ≤ j)
    (h : |x| < (2 : ℚ) ^ (j + 53)) :
    max (Int.log 2 |x|) (-1022) - 52 ≤ j := by
  have := log_lt_of_abs_lt x (j + 53) hx h
  have : max (Int.log 2 |x|) (-1022) ≤ j + 52 := max_le (by omega) (by omega)
  omega

theorem binary64_zero : binary64 0 = 0 := by
  simp [binary64, roundHalfEven]

/-- A multiple of the spacing around `x` that is at most `x` is at most the
double nearest to `x`. -/
theorem le_binary64 (x a : ℚ) (k : Int) (ha : a = k * ulp x) (h : a ≤ x) :
    a ≤ binary64 x := by
  have hu := ulp_pos x
  have hk : (k : ℚ) ≤ x / ulp x := by
    rw [le_div_iff₀ hu, ← ha]
    exact h
  have := le_roundHalfEven k _ hk
  unfold binary64
  rw [ha]
  exact mul_le_mul_of_nonneg_right (by exact_mod_cast this) hu.le

theorem binary64_le (x a : ℚ) (k : Int) (ha : a = k * ulp x) (h : x ≤ a) :
    binary64 x ≤ a := by
  have hu := ulp_pos x
  have hk : x / ulp x ≤ (k : ℚ) := by
    rw [div_le_iff₀ hu, ← ha]
    exact h
  have := roundHalfEven_le k _ hk
  unfold binary64
  rw [ha]
  exact mul_le_mul_of_nonneg_right (by exact_mod_cast this) hu.le

/-- Bracketing by dyadic numbers: for `|x| < 2 ^ (j + 53)` and `j ≥ -1074`,
a multiple of `2 ^ j` below `x` is below the double nearest to `x`. -/
theorem dyadic_le_binary64 (x : ℚ) (n j : Int) (hj : -1074 ≤ j)
    (hx : |x| < (2 : ℚ) ^ (j + 53)) (h : (n : ℚ) * (2 : ℚ) ^ j ≤ x) :
    (n : ℚ) * (2 : ℚ) ^ j ≤ binary64 x := by
  rcases eq_or_ne x 0 with h0 | h0
  · rw [h0, binary64_zero]
    rw [h0] at h
    exact h
  · obtain ⟨k, hk⟩ := multiple_of_ulp x n j (exponent_le x j h0 hj hx)
    exact le_binary64 x _ k hk h

theorem binary64_le_dyadic (x : ℚ) (n j : Int) (hj : -1074 ≤ j)
    (hx : |x| < (2 : ℚ) ^ (j + 53)) (h : x ≤ (n : ℚ) * (2 : ℚ) ^ j) :
    binary64 x ≤ (n : ℚ) * (2 : ℚ) ^ j := by
  rcases eq_or_ne x 0 with h0 | h0
  · rw [h0, binary64_zero]
    rw [h0] at h
    exact h
  · obtain ⟨k, hk⟩ := multiple_of_ulp x n j (exponent_le x j h0 hj hx)
    exact binary64_le x _ k hk h

/-- Dyadic numbers with a numerator below `2 ^ 53` are doubles. -/
theorem binary64_dyadic (n j : Int) (hj : -1074 ≤ j) (hn : |(n : ℚ)| < (2 : ℚ) ^ (53 : Int)) :
    binary64 ((n : ℚ) * (2 : ℚ) ^ j) = (n : ℚ) * (2 : ℚ) ^ j := by
  have hp : (0 : ℚ) < (2 : ℚ) ^ j := zpow_pos (by norm_num) _
  have hx : |(n : ℚ) * (2 : ℚ) ^ j| < (2 : ℚ) ^ (j + 53) := by
    rw [abs_mul, abs_of_pos hp, add_comm, zpow_add₀ (by norm_num : (2 : ℚ) ≠ 0)]
    exact mul_lt_mul_of_pos_right hn hp
  exact le_antisymm (binary64_le_dyadic _ n j hj hx le_rfl)
    (dyadic_le_binary64 _ n j hj hx le_rfl)

/-- Integers of magnitude below `2 ^ 53` are doubles. -/
theorem binary64_intCast (n : Int) (hn : |(n : ℚ)| < (2 : ℚ) ^ (53 : Int)) :
    binary64 (n : ℚ) = n := by
  have := binary64_dyadic n 0 (by norm_num) hn
  simpa using this

/-- Bracketing by integers: below `2 ^ 53` in magnitude, the double nearest
to `x` lies between the integers around `x`. -/
theorem intCast_le_binary64 (x : ℚ) (n : Int) (hx : |x| < (2 : ℚ) ^ (53 : Int))
    (h : (n : ℚ) ≤ x) : (n : ℚ) ≤ binary64 x := by
  have := dyadic_le_binary64 x n 0 (by norm_num) (by simpa using hx) (by simpa using h)
  simpa using this

theorem binary64_le_intCast (x : ℚ) (n : Int) (hx : |x| < (2 : ℚ) ^ (53 : Int))
    (h : x ≤ (n : ℚ)) : binary64 x ≤ (n : ℚ) := by
  have := binary64_le_dyadic x n 0 (by norm_num) (by simpa using hx) (by simpa using h)
  simpa using this

theorem binary64_nonneg (x : ℚ) (h : 0 ≤ x) : 0 ≤ binary64 x := by
  have := le_binary64 x 0 0 (by simp) h
  exact this

theorem zpow_log_le (x : ℚ) (hx : 0 < x) : (2 : ℚ) ^ Int.log 2 x ≤ x := by
  have := Int.zpow_log_le_self (b := 2) (by norm_num) hx
  simpa using this

theorem lt_zpow_log_succ (x : ℚ) : x < (2 : ℚ) ^ (Int.log 2 x + 1) := by
  have := Int.lt_zpow_succ_log_self (b := 2) (by norm_num) x
  simpa using this

/-- Rounding to the nearest double is monotone on the non-negative numbers. -/
theorem binary64_mono (x y : ℚ) (hx : 0 ≤ x) (h : x ≤ y) : binary64 x ≤ binary64 y := by
  rcases eq_or_lt_of_le hx with h0 | h0
  · rw [← h0, binary64_zero]
    exact binary64_nonneg y (le_trans hx h)
  · have hy : 0 < y := lt_of_lt_of_le h0 h
    have hlog : Int.log 2 x ≤ Int.log 2 y := Int.log_mono_right h0 h
    rcases eq_or_lt_of_le (max_le_max_right (-1022) hlog) with he | he
    · have hu : ulp x = ulp y := by
        unfold ulp
        rw [abs_of_pos h0, abs_of_pos hy, he]
      unfold binary64
      rw [hu]
      have hp := ulp_pos y
      exact mul_le_mul_of_nonneg_right
        (by exact_mod_cast roundHalfEven_mono (div_le_div_of_nonneg_right h hp.le)) hp.le
    · have hlt : Int.log 2 x < Int.log 2 y := by
        rcases lt_or_ge (Int.log 2 x) (Int.log 2 y) with h1 | h1
        · exact h1
        · have : Int.log 2 x = Int.log 2 y := le_antisymm hlog h1
          rw [this] at he
          exact absurd he (lt_irrefl _)
      have hyb : -1022 < Int.log 2 y := by
        rcases lt_or_ge (-1022) (Int.log 2 y) with h1 | h1
        · exact h1
        · have e1 : max (Int.log 2 y) (-1022) = -1022 := max_eq_right h1
          have e2 : max (Int.log 2 x) (-1022) = -1022 := max_eq_right (le_trans hlog h1)
          rw [e1, e2] at he
          exact absurd he (lt_irrefl _)
      obtain ⟨k1, hk1⟩ := multiple_of_ulp x 1 (Int.log 2 y) (by
        rw [abs_of_pos h0]
        have : max (Int.log 2 x) (-1022) ≤ Int.log 2 y := max_le hlt.le hyb.le
        omega)
      obtain ⟨k2, hk2⟩ := multiple_of_ulp y 1 (Int.log 2 y) (by
        rw [abs_of_pos hy]
        have : max (Int.log 2 y) (-1022) ≤ Int.log 2 y := max_le le_rfl hyb.le
        omega)
      have hxP : x ≤ (1 : Int) * (2 : ℚ) ^ Int.log 2 y := by
        have h1 := lt_zpow_log_succ x
        have h2 : (2 : ℚ) ^ (Int.log 2 x + 1) ≤ (2 : ℚ) ^ Int.log 2 y :=
          zpow_le_zpow_right₀ (by norm_num) (by omega)
        push_cast
        linarith
      have hPy : (1 : Int) * (2 : ℚ) ^ Int.log 2 y ≤ y := by
        have := zpow_log_le y hy
        push_cast
        linarith
      exact le_trans (binary64_le x _ k1 hk1 hxP) (le_binary64 y _ k2 hk2 hPy)

/-- The double nearest to a number `x ≥ 1` is within `x / 2 ^ 52` of it. -/
theorem binary64_near (x : ℚ) (hx : 1 ≤ x) :
    x - x / 2 ^ 52 ≤ binary64 x ∧ binary64 x ≤ x + x / 2 ^ 52 := by
  have h0 : 0 < x := lt_of_lt_of_le one_pos hx
  have hlog : 0 ≤ Int.log 2 x := by
    have := (Int.zpow_le_iff_le_log (b := 2) (by norm_num) (x := 0) h0).mp (by simpa using hx)
    exact this
  have hu : ulp x = (2 : ℚ) ^ Int.log 2 x / 2 ^ 52 := by
    unfold ulp
    rw [abs_of_pos h0, max_eq_left (by omega), zpow_sub₀ (by norm_num : (2 : ℚ) ≠ 0)]
    norm_num
  have hule : ulp x ≤ x / 2 ^ 52 := by
    rw [hu]
    exact div_le_div_of_nonneg_right (zpow_log_le x h0) (by positivity)
  have hp := ulp_pos x
  have e : x / ulp x * ulp x = x := div_mul_cancel₀ x (ne_of_gt hp)
  have h1 := mul_le_mul_of_nonneg_right (roundHalfEven_sub_le (x / ulp x)) hp.le
  have h2 := mul_le_mul_of_nonneg_right (le_roundHalfEven_add (x / ulp x)) hp.le
  rw [add_mul, e, one_mul] at h1
  rw [sub_mul, e, one_mul] at h2
  unfold binary64
  constructor <;> linarith

/-- The spacing around `x` when `2 ^ e ≤ |x| < 2 ^ (e + 1)`. -/
theorem ulp_eq (x : ℚ) (e : Int) (he : -1022 ≤ e) (h1 : (2 : ℚ) ^ e ≤ |x|)
    (h2 : |x| < (2 : ℚ) ^ (e + 1)) : ulp x = (2 : ℚ) ^ (e - 52) := by
  have hpos : 0 < |x| := lt_of_lt_of_le (zpow_pos (by norm_num) _) h1
  have ha : e ≤ Int.log 2 |x| :=
    (Int.zpow_le_iff_le_log (b := 2) (by norm_num) (x := e) hpos).mp (by simpa using h1)
  have hb : Int.log 2 |x| < e + 1 :=
    (Int.lt_zpow_iff_log_lt (b := 2) (by norm_num) (x := e + 1) hpos).mp (by simpa using h2)
  have : Int.log 2 |x| = e := by omega
  unfold ulp
  rw [this, max_eq_left he]

/-- The double nearest to `x` is the multiple of the spacing that is less
than half a spacing away. -/
theorem binary64_eq_of_near (x a : ℚ) (k : Int) (ha : a = k * ulp x)
    (h : |x - a| < ulp x / 2) : binary64 x = a := by
  have hp := ulp_pos x
  have hm : |x / ulp x - k| < 1 / 2 := by
    have e : x / ulp x - k = (x - a) / ulp x := by
      rw [ha]
      field_simp
      ring
    rw [e, abs_div, abs_of_pos hp, div_lt_iff₀ hp]
    linarith
  unfold binary64
  rw [roundHalfEven_eq_of_abs_lt k _ hm, ha]

theorem roundHalfEven_neg (m : ℚ) : roundHalfEven (-m) = -roundHalfEven m := by
  rcases eq_or_lt_of_le (Int.floor_le m) with h | h
  · rw [← h]
    have e : -((⌊m⌋ : Int) : ℚ) = ((-⌊m⌋ : Int) : ℚ) := by push_cast; rfl
    rw [e, roundHalfEven_intCast, roundHalfEven_intCast]
  · have h1 := Int.lt_floor_add_one m
    have hfl : ⌊-m⌋ = -⌊m⌋ - 1 :=
      Int.floor_eq_iff.mpr ⟨by push_cast; linarith, by push_cast; linarith⟩
    unfold roundHalfEven
    rw [hfl]
    push_cast
    split_ifs <;> first | omega | (exfalso; linarith)

theorem ulp_neg (x : ℚ) : ulp (-x) = ulp x := by
  unfold ulp
  rw [abs_neg]

theorem binary64_neg (x : ℚ) : binary64 (-x) = -binary64 x := by
  unfold binary64
  rw [ulp_neg, neg_div, roundHalfEven_neg]
  push_cast
  ring

theorem binary64_nonpos (x : ℚ) (h : x ≤ 0) : binary64 x ≤ 0 := by
  have := binary64_nonneg (-x) (by linarith)
  rw [binary64_neg] at this
  linarith

/-- Rounding to the nearest double is monotone. -/
theorem binary64_monotone (x y : ℚ) (h : x ≤ y) : binary64 x ≤ binary64 y := by
  rcases le_or_lt 0 x with hx | hx
  · exact binary64_mono x y hx h
  · rcases le_or_lt 0 y with hy | hy
    · exact le_trans (binary64_nonpos x hx.le) (binary64_nonneg y hy)
    · have := binary64_mono (-y) (-x) (by linarith) (by linarith)
      rw [binary64_neg, binary64_neg] at this
      linarith

theorem jsMul_intCast (a b : Int) (h : |((a * b : Int) : ℚ)| < (2 : ℚ) ^ (53 : Int)) :
    jsMul (a : ℚ) (b : ℚ) = ((a * b : Int) : ℚ) := by
  unfold jsMul
  rw [← Int.cast_mul]
  exact binary64_intCast _ h

/-- A bound by a power of two passes to the nearest double. -/
theorem binary64_abs_le (x : ℚ) (j : Int) (hj : -1074 ≤ j) (h : |x| ≤ (2 : ℚ) ^ j) :
    |binary64 x| ≤ (2 : ℚ) ^ j := by
  have hlt : |x| < (2 : ℚ) ^ (j + 53) :=
    lt_of_le_of_lt h (zpow_lt_zpow_right₀ (by norm_num) (by omega))
  rw [abs_le] at h ⊢
  constructor
  · have := dyadic_le_binary64 x (-1) j hj hlt (by push_cast; linarith)
    push_cast at this
    linarith
  · have := binary64_le_dyadic x 1 j hj hlt (by push_cast; linarith)
    push_cast at this
    linarith

/-! ## The event loop: basic facts -/

section MachineFacts

variable {S W Q A : Type}

theorem settle_idle (apply : W → S → S) (env : Env) (remote : Q → Except AxiosError A)
    (fuel : Nat) (c : Config S W Q A) (h : c.awaiting = []) :
    settle apply env remote fuel c = c := by
  cases fuel with
  | zero => rfl
  | succ n => simp [settle, h]

theorem deliver_last (apply : W → S → S) (env : Env) (c : Config S W Q A)
    (l : List (InFlight W Q A)) (p : InFlight W Q A) (r : Except AxiosError A)
    (h : c.awaiting = l ++ [p]) :
    deliver apply env l.length r c =
      runSync apply env (p.k r) { c with awaiting := l, log := c.log ++ [.resolve p.q r] } := by
  simp [deliver, h, List.eraseIdx_append_of_length_le]

theorem fire_last (apply : W → S → S) (env : Env) (c : Config S W Q A)
    (l : List (ℚ × Prog W Q A)) (t : ℚ × Prog W Q A) (h : c.timers = l ++ [t]) :
    fire apply env l.length c =
      runSync apply env t.2 { c with timers := l, log := c.log ++ [.timerFire t.1] } := by
  simp [fire, h, List.eraseIdx_append_of_length_le]

end MachineFacts

/-! ## `App_clean.js`: the four shapes of a run -/

namespace AppClean

/-- Every call succeeds: the run in full. -/
theorem run_allOk (remote : Remote) (s : State) (f : File) (u P R : Json) (n : Nat)
    (hs : s.selectedFile = some f)
    (h1 : remote (.uploadResume f) = .ok u)
    (h2 : remote (.parseResume f.name) = .ok P)
    (h3 : remote (.suggestCareers f.name) = .ok R) :
    run remote (n + 3) s =
      { state := { s with uploadStatus := "Resume uploaded successfully!",
                          parsedData := some P, careerSuggestions := some R,
                          loading := false, currentStep := 4 },
        awaiting := [], timers := [], nNow := 0, nRandom := 0,
        log := [.act (.setLoading true), .issue (.uploadResume f),
          .resolve (.uploadResume f) (.ok u),
          .act (.setUploadStatus "Resume uploaded successfully!"), .act (.setCurrentStep 2),
          .act (.setLoading true), .issue (.parseResume f.name),
          .resolve (.parseResume f.name) (.ok P),
          .act (.setParsedData (some P)), .act (.setCurrentStep 3),
          .act (.setLoading true), .issue (.suggestCareers f.name),
          .resolve (.suggestCareers f.name) (.ok R),
          .act (.setCareerSuggestions (some R)), .act (.setCurrentStep 4),
          .act (.setLoading false), .act (.setLoading false), .act (.setLoading false)] } := by
  simp [run, start, invoke, uploadResume, hs, parseResume, getCareerSuggestions, Prog.post,
    Prog.tryCatch, Prog.tryFinally, Prog.seq, runSync, settle, deliver, Config.init,
    h1, h2, h3, Act.apply, settle_idle]

/-- The upload call fails: the run in full. -/
theorem run_uploadFails (remote : Remote) (s : State) (f : File) (e : AxiosError) (n : Nat)
    (hs : s.selectedFile = some f)
    (h1 : remote (.uploadResume f) = .error e) :
    run remote (n + 3) s =
      { state := { s with uploadStatus := "Upload failed: " ++ causeText e, loading := false },
        awaiting := [], timers := [], nNow := 0, nRandom := 0,
        log := [.act (.setLoading true), .issue (.uploadResume f),
          .resolve (.uploadResume f) (.error e),
          .act (.setUploadStatus ("Upload failed: " ++ causeText e)),
          .act (.setLoading false)] } := by
  simp [run, start, invoke, uploadResume, hs, Prog.post,
    Prog.tryCatch, Prog.tryFinally, Prog.seq, runSync, settle, deliver, Config.init,
    h1, Act.apply, settle_idle]

/-- The upload call succeeds and the parse call fails: the run in full. -/
theorem run_parseFails (remote : Remote) (s : State) (f : File) (u : Json) (e : AxiosError)
    (n : Nat) (hs : s.selectedFile = some f)
    (h1 : remote (.uploadResume f) = .ok u)
    (h2 : remote (.parseResume f.name) = .error e) :
    run remote (n + 3) s =
      { state := { s with uploadStatus := "Parsing failed: " ++ causeText e,
                          loading := false, currentStep := 2 },
        awaiting := [], timers := [], nNow := 0, nRandom := 0,
        log := [.act (.setLoading true), .issue (.uploadResume f),
          .resolve (.uploadResume f) (.ok u),
          .act (.setUploadStatus "Resume uploaded successfully!"), .act (.setCurrentStep 2),
          .act (.setLoading true), .issue (.parseResume f.name),
          .resolve (.parseResume f.name) (.error e),
          .act (.setUploadStatus ("Parsing failed: " ++ causeText e)),
          .act (.setLoading false), .act (.setLoading false)] } := by
  simp [run, start, invoke, uploadResume, hs, parseResume, Prog.post,
    Prog.tryCatch, Prog.tryFinally, Prog.seq, runSync, settle, deliver, Config.init,
    h1, h2, Act.apply, settle_idle]

/-- The upload and parse calls succeed and the suggest call fails: the run in
full. -/
theorem run_suggestFails (remote : Remote) (s : State) (f : File) (u P : Json)
    (e : AxiosError) (n : Nat) (hs : s.selectedFile = some f)
    (h1 : remote (.uploadResume f) = .ok u)
    (h2 : remote (.parseResume f.name) = .ok P)
    (h3 : remote (.suggestCareers f.name) = .error e) :
    run remote (n + 3) s =
      { state := { s with uploadStatus := "Career suggestion failed: " ++ causeText e,
                          parsedData := some P, loading := false, currentStep := 3 },
        awaiting := [], timers := [], nNow := 0, nRandom := 0,
        log := [.act (.setLoading true), .issue (.uploadResume f),
          .resolve (.uploadResume f) (.ok u),
          .act (.setUploadStatus "Resume uploaded successfully!"), .act (.setCurrentStep 2),
          .act (.setLoading true), .issue (.parseResume f.name),
          .resolve (.parseResume f.name) (.ok P),
          .act (.setParsedData (some P)), .act (.setCurrentStep 3),
          .act (.setLoading true), .issue (.suggestCareers f.name),
          .resolve (.suggestCareers f.name) (.error e),
          .act (.setUploadStatus ("Career suggestion failed: " ++ causeText e)),
          .act (.setLoading false), .act (.setLoading false), .act (.setLoading false)] } := by
  simp [run, start, invoke, uploadResume, hs, parseResume, getCareerSuggestions, Prog.post,
    Prog.tryCatch, Prog.tryFinally, Prog.seq, runSync, settle, deliver, Config.init,
    h1, h2, h3, Act.apply, settle_idle]

/-- What `handleFileSelect` leaves when it accepts the file. -/
theorem select_accepted (f : File) (s : State) (h : accepts (some f) = true) :
    select (some f) s =
      { s with selectedFile := some f, uploadStatus := "", parsedData := none,
               careerSuggestions := none, currentStep := 1 } := by
  simp [select, invoke, handleFileSelect, h, runSync, Config.init, Act.apply]

end AppClean

/-! ## Status lines -/

theorem contains_append_right (a b : String) : Contains (a ++ b) b := by
  unfold Contains
  rw [String.data_append]
  exact (List.suffix_append a.data b.data).isInfix

theorem contains_append_left (a b sub : String) (h : Contains a sub) :
    Contains (a ++ b) sub := by
  unfold Contains at *
  rw [String.data_append]
  exact h.trans (List.prefix_append a.data b.data).isInfix

theorem reports_causeText (label : String) (e : AxiosError) :
    Reports (label ++ causeText e) label e := by
  unfold Reports causeText
  constructor
  · intro d hd hne
    simp [hd, hne]
  · rintro (h | h) <;> simp [h]

/-! ## `App_clean.js`: the resume pipeline, properties -/

namespace AppClean

/-- C1: started with a file selected and `currentStep = 1`, when the upload,
parse and suggest calls all succeed the run ends with no request in flight,
the values written to `currentStep` are exactly 2, 3, 4 in that order, and
along the run `currentStep` goes up by exactly one at each write (1, 2, 3, 4):
no step is skipped or repeated and the value never decreases. -/
theorem C1_steps_advance_in_order (remote : Remote) (s : State) (f : File)
    (u P R : Json) (n : Nat)
    (hs : s.selectedFile = some f) (hstep : s.currentStep = 1)
    (h1 : remote (.uploadResume f) = .ok u)
    (h2 : remote (.parseResume f.name) = .ok P)
    (h3 : remote (.suggestCareers f.name) = .ok R) :
    (run remote (n + 3) s).awaiting = [] ∧
    stepWrites (run remote (n + 3) s).log = [2, 3, 4] ∧
    List.Chain' (fun a b => b = a + 1)
      (s.currentStep :: stepWrites (run remote (n + 3) s).log) := by
  rw [run_allOk remote s f u P R n hs h1 h2 h3]
  simp [stepWrites, hstep]

/-- C1 at the `.docx` scenario: file selected from the initial state, stubbed
responses. -/
theorem C1_steps_advance_in_order_witness :
    ((select (some docx) State.initial).selectedFile = some docx ∧
     (select (some docx) State.initial).currentStep = 1) ∧
    ((run stubRemote (0 + 3) (select (some docx) State.initial)).awaiting = [] ∧
     stepWrites (run stubRemote (0 + 3) (select (some docx) State.initial)).log = [2, 3, 4] ∧
     List.Chain' (fun a b => b = a + 1)
      ((select (some docx) State.initial).currentStep ::
        stepWrites (run stubRemote (0 + 3) (select (some docx) State.initial)).log)) :=
  ⟨⟨rfl, rfl⟩,
   C1_steps_advance_in_order stubRemote (select (some docx) State.initial) docx
     (.obj [("filename", .str docx.name)]) stubParsed stubSuggested 0 rfl rfl rfl rfl rfl⟩

/-- C2, as the code has it: for every accepted file and successful responses
`P` (parse) and `R` (suggest), selecting the file and running `uploadResume`
to completion ends with `currentStep = 4`, `parsedData = P`,
`careerSuggestions = R` (the whole body of the suggest response, no field
taken out of it), the selected file unchanged and `loading = false`. -/
theorem C2_complete_state_keeps_whole_payload (remote : Remote) (s₀ : State) (f : File)
    (u P R : Json) (n : Nat)
    (hf : accepts (some f) = true)
    (h1 : remote (.uploadResume f) = .ok u)
    (h2 : remote (.parseResume f.name) = .ok P)
    (h3 : remote (.suggestCareers f.name) = .ok R) :
    (run remote (n + 3) (select (some f) s₀)).awaiting = [] ∧
    (run remote (n + 3) (select (some f) s₀)).state.currentStep = 4 ∧
    (run remote (n + 3) (select (some f) s₀)).state.parsedData = some P ∧
    (run remote (n + 3) (select (some f) s₀)).state.careerSuggestions = some R ∧
    (run remote (n + 3) (select (some f) s₀)).state.selectedFile = some f ∧
    (run remote (n + 3) (select (some f) s₀)).state.loading = false := by
  have hs : (select (some f) s₀).selectedFile = some f := by
    rw [select_accepted f s₀ hf]
  rw [run_allOk remote _ f u P R n hs h1 h2 h3]
  simp [hs]

/-- C2 at the `.docx` scenario: `careerSuggestions` ends as
`{suggested:[{title:"Data Analyst"}]}`. -/
theorem C2_complete_state_keeps_whole_payload_witness :
    accepts (some docx) = true ∧
    (run stubRemote (0 + 3) (select (some docx) State.initial)).state.currentStep = 4 ∧
    (run stubRemote (0 + 3) (select (some docx) State.initial)).state.parsedData
      = some stubParsed ∧
    (run stubRemote (0 + 3) (select (some docx) State.initial)).state.careerSuggestions
      = some (.obj [("suggested", .arr [.obj [("title", .str "Data Analyst")]])]) :=
  have h := C2_complete_state_keeps_whole_payload stubRemote State.initial docx
    (.obj [("filename", .str docx.name)]) stubParsed stubSuggested 0 rfl rfl rfl rfl
  ⟨rfl, h.2.1, h.2.2.1, h.2.2.2.1⟩

/-- C2 as stated fails at its own scenario: with the stubbed responses
`{skills:["Python","SQL"]}` and `{suggested:[{title:"Data Analyst"}]}` the run
of the `.docx` file ends at step 4 with `careerSuggestions` equal to the whole
response body, which is not the list `[{title:"Data Analyst"}]`. -/
theorem C2_scenario_not_the_suggestion_list :
    (run stubRemote 3 (select (some docx) State.initial)).state.currentStep = 4 ∧
    (run stubRemote 3 (select (some docx) State.initial)).state.careerSuggestions
      = some (.obj [("suggested", .arr [.obj [("title", .str "Data Analyst")]])]) ∧
    (run stubRemote 3 (select (some docx) State.initial)).state.careerSuggestions
      ≠ some (.arr [.obj [("title", .str "Data Analyst")]]) := by
  refine ⟨rfl, rfl, ?_⟩
  intro h
  have h' : some stubSuggested = some (Json.arr [.obj [("title", .str "Data Analyst")]]) := h
  simp [stubSuggested] at h'

/-- C3: in every run of `uploadResume` with a file selected, the network side
of the log is: the upload call issued and resolved; then, only if it
succeeded, the parse call issued with `selectedFile.name` and resolved; then,
only if that succeeded, the suggest call issued with `selectedFile.name` and
resolved.  So there is exactly one upload call, each later call is issued
exactly when the one before it succeeded and after it resolved, none is
issued twice, and the filename parameter is the name, not the file. -/
theorem C3_calls_chained_on_success (remote : Remote) (s : State) (f : File) (n : Nat)
    (hs : s.selectedFile = some f) :
    netOf (run remote (n + 3) s).log =
      match remote (.uploadResume f) with
      | .error _ => [.issued (.uploadResume f), .failed (.uploadResume f)]
      | .ok _ =>
        .issued (.uploadResume f) :: .ok (.uploadResume f) ::
        .issued (.parseResume f.name) ::
          match remote (.parseResume f.name) with
          | .error _ => [.failed (.parseResume f.name)]
          | .ok _ =>
            .ok (.parseResume f.name) :: .issued (.suggestCareers f.name) ::
              match remote (.suggestCareers f.name) with
              | .error _ => [.failed (.suggestCareers f.name)]
              | .ok _ => [.ok (.suggestCareers f.name)] := by
  cases h1 : remote (.uploadResume f) with
  | error e => rw [run_uploadFails remote s f e n hs h1]; simp [netOf]
  | ok u =>
    cases h2 : remote (.parseResume f.name) with
    | error e => rw [run_parseFails remote s f u e n hs h1 h2]; simp [netOf]
    | ok P =>
      cases h3 : remote (.suggestCareers f.name) with
      | error e => rw [run_suggestFails remote s f u P e n hs h1 h2 h3]; simp [netOf]
      | ok R => rw [run_allOk remote s f u P R n hs h1 h2 h3]; simp [netOf]

/-- C3 at a run whose parse call fails: one upload call, one parse call
carrying the file name, no suggest call. -/
theorem C3_calls_chained_on_success_witness :
    (select (some docx) State.initial).selectedFile = some docx ∧
    netOf (run (parseFailing (plainError "Network Error")) (0 + 3)
        (select (some docx) State.initial)).log =
      [.issued (.uploadResume docx), .ok (.uploadResume docx),
       .issued (.parseResume "resume.docx"), .failed (.parseResume "resume.docx")] :=
  ⟨rfl, C3_calls_chained_on_success (parseFailing (plainError "Network Error"))
    (select (some docx) State.initial) docx 0 rfl⟩

/-- C4, as the code has it: when upload and parse succeed (parse returning
`P`) and the suggest call fails with error `e`, from a state with a file
selected and no suggestions yet, the run ends with no request in flight,
`currentStep` not 4, `careerSuggestions` still empty, `loading = false` and
`parsedData = P`; the status line contains "suggest" and is
"Career suggestion failed: " followed by the cause text, which is the `detail`
of the error response when present and non-empty and the message of `e`
otherwise. -/
theorem C4_suggest_failure_keeps_parsed (remote : Remote) (s : State) (f : File)
    (u P : Json) (e : AxiosError) (n : Nat)
    (hs : s.selectedFile = some f) (hcs : s.careerSuggestions = none)
    (h1 : remote (.uploadResume f) = .ok u)
    (h2 : remote (.parseResume f.name) = .ok P)
    (h3 : remote (.suggestCareers f.name) = .error e) :
    (run remote (n + 3) s).awaiting = [] ∧
    (run remote (n + 3) s).state.currentStep ≠ 4 ∧
    (run remote (n + 3) s).state.careerSuggestions = none ∧
    (run remote (n + 3) s).state.loading = false ∧
    (run remote (n + 3) s).state.parsedData = some P ∧
    Contains (run remote (n + 3) s).state.uploadStatus "suggest" ∧
    Reports (run remote (n + 3) s).state.uploadStatus "Career suggestion failed: " e ∧
    ((e.detail? = none ∨ e.detail? = some "") →
      Contains (run remote (n + 3) s).state.uploadStatus e.message) := by
  rw [run_suggestFails remote s f u P e n hs h1 h2 h3]
  refine ⟨rfl, by simp, hcs, rfl, rfl, ?_, ?_, ?_⟩
  · exact contains_append_left _ _ _ (by decide)
  · exact reports_causeText _ e
  · intro h
    have hr := (reports_causeText "Career suggestion failed: " e).2 h
    show Contains ("Career suggestion failed: " ++ causeText e) e.message
    rw [hr]
    exact contains_append_right _ _

/-- C4 at its scenario: the suggest call fails with "timeout" and no
response; the status line is "Career suggestion failed: timeout". -/
theorem C4_suggest_failure_keeps_parsed_witness :
    ((select (some docx) State.initial).selectedFile = some docx ∧
     (select (some docx) State.initial).careerSuggestions = none) ∧
    (run (suggestFailing (plainError "timeout")) (0 + 3)
        (select (some docx) State.initial)).state.currentStep ≠ 4 ∧
    (run (suggestFailing (plainError "timeout")) (0 + 3)
        (select (some docx) State.initial)).state.parsedData = some stubParsed ∧
    Contains (run (suggestFailing (plainError "timeout")) (0 + 3)
        (select (some docx) State.initial)).state.uploadStatus "suggest" ∧
    Contains (run (suggestFailing (plainError "timeout")) (0 + 3)
        (select (some docx) State.initial)).state.uploadStatus "timeout" :=
  have h := C4_suggest_failure_keeps_parsed (suggestFailing (plainError "timeout"))
    (select (some docx) State.initial) docx (.obj [("filename", .str docx.name)])
    stubParsed (plainError "timeout") 0 rfl rfl rfl rfl rfl
  ⟨⟨rfl, rfl⟩, h.2.1, h.2.2.2.2.1, h.2.2.2.2.2.1, h.2.2.2.2.2.2.2 (Or.inl rfl)⟩

/-- C4 as stated fails: an error whose message is "timeout" and whose response
carries the detail "Server busy" leaves the status line
"Career suggestion failed: Server busy", in which "timeout" does not occur. -/
theorem C4_message_absent_when_detail_present :
    (detailedError "Server busy" "timeout").message = "timeout" ∧
    (suggestFailing (detailedError "Server busy" "timeout")) (.suggestCareers docx.name)
      = .error (detailedError "Server busy" "timeout") ∧
    (run (suggestFailing (detailedError "Server busy" "timeout")) 3
        (select (some docx) State.initial)).state.uploadStatus
      = "Career suggestion failed: Server busy" ∧
    ¬ Contains (run (suggestFailing (detailedError "Server busy" "timeout")) 3
        (select (some docx) State.initial)).state.uploadStatus "timeout" := by
  refine ⟨rfl, rfl, rfl, ?_⟩
  show ¬ Contains "Career suggestion failed: Server busy" "timeout"
  decide

/-- C5: from the state `handleFileSelect` leaves on accepting a file, when the
upload succeeds and the parse call fails the run ends with no request in
flight, `parsedData` and `careerSuggestions` both empty, no suggest call
issued (the calls issued are the upload and the parse, the latter with the
file's name), and the selected file unchanged. -/
theorem C5_parse_failure_leaves_results_empty (remote : Remote) (s₀ : State) (f : File)
    (u : Json) (e : AxiosError) (n : Nat)
    (hf : accepts (some f) = true)
    (h1 : remote (.uploadResume f) = .ok u)
    (h2 : remote (.parseResume f.name) = .error e) :
    (run remote (n + 3) (select (some f) s₀)).awaiting = [] ∧
    (run remote (n + 3) (select (some f) s₀)).state.parsedData = none ∧
    (run remote (n + 3) (select (some f) s₀)).state.careerSuggestions = none ∧
    (∀ name, Request.suggestCareers name ∉
      issuedOf (run remote (n + 3) (select (some f) s₀)).log) ∧
    issuedOf (run remote (n + 3) (select (some f) s₀)).log
      = [.uploadResume f, .parseResume f.name] ∧
    (run remote (n + 3) (select (some f) s₀)).state.selectedFile = some f := by
  have hs : (select (some f) s₀).selectedFile = some f := by
    rw [select_accepted f s₀ hf]
  rw [run_parseFails remote _ f u e n hs h1 h2]
  simp [issuedOf, select_accepted f s₀ hf]

/-- C5 at the `.docx` file with a parse call that fails. -/
theorem C5_parse_failure_leaves_results_empty_witness :
    accepts (some docx) = true ∧
    (run (parseFailing (plainError "Network Error")) (0 + 3)
        (select (some docx) State.initial)).state.parsedData = none ∧
    (run (parseFailing (plainError "Network Error")) (0 + 3)
        (select (some docx) State.initial)).state.careerSuggestions = none ∧
    (run (parseFailing (plainError "Network Error")) (0 + 3)
        (select (some docx) State.initial)).state.selectedFile = some docx :=
  have h := C5_parse_failure_leaves_results_empty (parseFailing (plainError "Network Error"))
    State.initial docx (.obj [("filename", .str docx.name)]) (plainError "Network Error") 0
    rfl rfl rfl
  ⟨rfl, h.2.1, h.2.2.1, h.2.2.2.2.2⟩

/-- C6: in every run with a file selected, the final status line names the
first stage that failed and gives its cause: "Upload failed: ",
"Parsing failed: " or "Career suggestion failed: " followed by the `detail` of
the error response when present and non-empty, by the error's message
otherwise.  What earlier stages obtained is kept: `parsedData` and
`careerSuggestions` are untouched by an upload or parse failure, and
`parsedData` holds the parse result after a suggest failure. -/
theorem C6_status_names_first_failed_stage (remote : Remote) (s : State) (f : File)
    (n : Nat) (hs : s.selectedFile = some f) :
    (∀ e, remote (.uploadResume f) = .error e →
      Reports (run remote (n + 3) s).state.uploadStatus "Upload failed: " e ∧
      (run remote (n + 3) s).state.parsedData = s.parsedData ∧
      (run remote (n + 3) s).state.careerSuggestions = s.careerSuggestions) ∧
    (∀ u e, remote (.uploadResume f) = .ok u → remote (.parseResume f.name) = .error e →
      Reports (run remote (n + 3) s).state.uploadStatus "Parsing failed: " e ∧
      (run remote (n + 3) s).state.parsedData = s.parsedData ∧
      (run remote (n + 3) s).state.careerSuggestions = s.careerSuggestions) ∧
    (∀ u P e, remote (.uploadResume f) = .ok u → remote (.parseResume f.name) = .ok P →
      remote (.suggestCareers f.name) = .error e →
      Reports (run remote (n + 3) s).state.uploadStatus "Career suggestion failed: " e ∧
      (run remote (n + 3) s).state.parsedData = some P ∧
      (run remote (n + 3) s).state.careerSuggestions = s.careerSuggestions) := by
  refine ⟨?_, ?_, ?_⟩
  · intro e h1
    rw [run_uploadFails remote s f e n hs h1]
    exact ⟨reports_causeText _ e, rfl, rfl⟩
  · intro u e h1 h2
    rw [run_parseFails remote s f u e n hs h1 h2]
    exact ⟨reports_causeText _ e, rfl, rfl⟩
  · intro u P e h1 h2 h3
    rw [run_suggestFails remote s f u P e n hs h1 h2 h3]
    exact ⟨reports_causeText _ e, rfl, rfl⟩

/-- C6 at a parse failure whose response carries a detail: the status line is
"Parsing failed: " followed by that detail. -/
theorem C6_status_names_first_failed_stage_witness :
    (select (some docx) State.initial).selectedFile = some docx ∧
    (run (parseFailing (detailedError "File not found" "Request failed with status code 404"))
        (0 + 3) (select (some docx) State.initial)).state.uploadStatus
      = "Parsing failed: " ++ "File not found" :=
  ⟨rfl,
   ((C6_status_names_first_failed_stage
      (parseFailing (detailedError "File not found" "Request failed with status code 404"))
      (select (some docx) State.initial) docx 0 rfl).2.1
      (.obj [("filename", .str docx.name)])
      (detailedError "File not found" "Request failed with status code 404") rfl rfl).1.1
      "File not found" rfl (by decide)⟩

end AppClean

/-! ## `App.js`: the upload, facts -/

namespace App

theorem start_pending (s : State) (f : File) (hs : s.uploadedFile = some f) :
    ∃ p : InFlight Act Request Json, (start s).awaiting = [p] ∧
      (∀ cb, p.onUploadProgress = some cb → ∀ ev c, (runSync Act.apply env (cb ev) c).awaiting = c.awaiting) ∧
      (∀ r c, (runSync Act.apply env (p.k r) c).awaiting = c.awaiting ∧
        (runSync Act.apply env (p.k r) c).state.isUploading = false) := by
  simp only [start, invoke, uploadResume, hs, Prog.tryFinally, Prog.tryCatch, Prog.postUp, runSync,
    Config.init, List.nil_append]
  refine ⟨_, rfl, ?_, ?_⟩
  · intro cb hcb ev c
    simp only [Option.some.injEq] at hcb
    subst hcb
    simp [runSync]
  · intro r c
    cases r <;> simp [Prog.tryFinally, Prog.tryCatch, Prog.seq, runSync, Act.apply]

theorem notify_awaiting (p : InFlight Act Request Json)
    (hp : ∀ cb, p.onUploadProgress = some cb → ∀ ev c, (runSync Act.apply env (cb ev) c).awaiting = c.awaiting)
    (evs : List ProgressEvent) (c : Config State Act Request Json) (hc : c.awaiting = [p]) :
    (evs.foldl (fun c ev => notify Act.apply env 0 ev c) c).awaiting = [p] := by
  induction evs generalizing c with
  | nil => exact hc
  | cons ev evs ih =>
    apply ih
    unfold notify
    simp only [hc, List.get?_cons_zero]
    cases hcb : p.onUploadProgress with
    | none => exact hc
    | some cb => simp only [hp cb hcb, hc]

theorem run_released (evs : List ProgressEvent) (r : Except AxiosError Json) (s : State) (f : File)
    (hs : s.uploadedFile = some f) :
    (run evs r s).awaiting = [] ∧ (run evs r s).state.isUploading = false := by
  obtain ⟨p, hp, hcb, hk⟩ := start_pending s f hs
  have h := notify_awaiting p hcb evs (start s) hp
  unfold run deliver
  simp only [h, List.get?_cons_zero]
  refine ⟨?_, (hk r _).2⟩
  rw [(hk r _).1]
  simp
end App

/-- C7: whatever the outcomes of the remote calls, the in-flight guard is
released when the pipeline finishes.  In `App_clean.js`, every run of
`uploadResume` with a file selected ends with no request in flight and
`loading = false`; in `App.js`, every run of `uploadResume` with a file
chosen, whatever progress events arrive and whatever the outcome of the call,
ends with no request in flight and `isUploading = false`. -/
theorem C7_in_flight_guard_released (remote : AppClean.Remote) (s : AppClean.State)
    (f : File) (n : Nat) (hs : s.selectedFile = some f)
    (evs : List ProgressEvent) (r : Except AxiosError Json) (t : App.State) (g : File)
    (ht : t.uploadedFile = some g) :
    ((AppClean.run remote (n + 3) s).awaiting = [] ∧
      (AppClean.run remote (n + 3) s).state.loading = false) ∧
    ((App.run evs r t).awaiting = [] ∧ (App.run evs r t).state.isUploading = false) := by
  refine ⟨?_, App.run_released evs r t g ht⟩
  cases h1 : remote (.uploadResume f) with
  | error e => rw [AppClean.run_uploadFails remote s f e n hs h1]; exact ⟨rfl, rfl⟩
  | ok u =>
    cases h2 : remote (.parseResume f.name) with
    | error e => rw [AppClean.run_parseFails remote s f u e n hs h1 h2]; exact ⟨rfl, rfl⟩
    | ok P =>
      cases h3 : remote (.suggestCareers f.name) with
      | error e => rw [AppClean.run_suggestFails remote s f u P e n hs h1 h2 h3]; exact ⟨rfl, rfl⟩
      | ok R => rw [AppClean.run_allOk remote s f u P R n hs h1 h2 h3]; exact ⟨rfl, rfl⟩

/-- C7 at an upload that fails in `App_clean.js`, and at an upload in `App.js`
that reports two progress events and then fails. -/
theorem C7_in_flight_guard_released_witness :
    ((AppClean.select (some AppClean.docx) AppClean.State.initial).selectedFile
        = some AppClean.docx ∧
     (App.select (some AppClean.docx) App.State.initial).uploadedFile
        = some AppClean.docx) ∧
    ((AppClean.run (AppClean.uploadFailing (AppClean.plainError "Network Error")) (0 + 3)
        (AppClean.select (some AppClean.docx) AppClean.State.initial)).awaiting = [] ∧
      (AppClean.run (AppClean.uploadFailing (AppClean.plainError "Network Error")) (0 + 3)
        (AppClean.select (some AppClean.docx) AppClean.State.initial)).state.loading = false) ∧
    ((App.run [⟨40, 100⟩, ⟨100, 100⟩] (.error (AppClean.plainError "Network Error"))
        (App.select (some AppClean.docx) App.State.initial)).awaiting = [] ∧
      (App.run [⟨40, 100⟩, ⟨100, 100⟩] (.error (AppClean.plainError "Network Error"))
        (App.select (some AppClean.docx) App.State.initial)).state.isUploading = false) :=
  ⟨⟨rfl, rfl⟩,
   C7_in_flight_guard_released (AppClean.uploadFailing (AppClean.plainError "Network Error"))
     (AppClean.select (some AppClean.docx) AppClean.State.initial) AppClean.docx 0 rfl
     [⟨40, 100⟩, ⟨100, 100⟩] (.error (AppClean.plainError "Network Error"))
     (App.select (some AppClean.docx) App.State.initial) AppClean.docx rfl⟩

/-! ## `Chatbot.js`: `sendMessage`, facts -/

namespace Chatbot

theorem jsTrim_isEmpty (s : String) :
    (jsTrim s).data.isEmpty = true ↔ ∀ ch ∈ s.data, isJsSpace ch = true := by
  unfold jsTrim
  simp only [List.isEmpty_iff, List.reverse_eq_nil_iff, List.dropWhile_eq_nil_iff,
    List.mem_reverse]
  constructor
  · intro h
    by_contra hne
    have hnil : s.data.dropWhile isJsSpace ≠ [] := by
      intro hn
      exact hne (List.dropWhile_eq_nil_iff.mp hn)
    have := List.head_dropWhile_not isJsSpace s.data hnil
    have h2 := h _ (List.head_mem hnil)
    simp [h2] at this
  · intro h x hx
    have : s.data.dropWhile isJsSpace = [] := List.dropWhile_eq_nil_iff.mpr h
    simp [this] at hx

theorem sendMessage_pass (hc : Bool) (arg : Option String) (s : State)
    (hmsg : ∃ ch ∈ (arg.getD s.inputMessage).data, isJsSpace ch = false)
    (hload : s.isLoading = false) :
    sendMessage hc arg s =
      addMessage .user (arg.getD s.inputMessage) none
        (.write (.setInputMessage "") <| .write (.setIsLoading true) <|
          .write (.setIsTyping true) <|
          .await (.chatMessage s.userId (arg.getD s.inputMessage)) (sendMessageResume hc)) := by
  have hne : (jsTrim (arg.getD s.inputMessage)).data.isEmpty = false := by
    rw [Bool.eq_false_iff]
    intro h
    obtain ⟨ch, hch, hsp⟩ := hmsg
    have := (jsTrim_isEmpty _).mp h ch hch
    simp [hsp] at this
  simp only [sendMessage, hne, hload, Bool.or_self, Bool.false_eq_true, if_false]
  congr 4
  simp only [Prog.post, Prog.tryCatch, Prog.tryFinally]
  congr 1
  funext x
  cases x <;> rfl

theorem sendMessage_blocked (hc : Bool) (arg : Option String) (s : State)
    (h : (∀ ch ∈ (arg.getD s.inputMessage).data, isJsSpace ch = true) ∨ s.isLoading = true) :
    sendMessage hc arg s = .done := by
  have hg : ((jsTrim (arg.getD s.inputMessage)).data.isEmpty || s.isLoading) = true := by
    rcases h with h | h
    · simp [(jsTrim_isEmpty _).mpr h]
    · simp [h]
  simp only [sendMessage, hg, if_true]

theorem invoke_sendMessage (env : Env) (hc : Bool) (arg : Option String)
    (c : Config State Act Request ChatData)
    (hmsg : ∃ ch ∈ (arg.getD c.state.inputMessage).data, isJsSpace ch = false)
    (hload : c.state.isLoading = false) :
    invoke Act.apply env (sendMessage hc arg) c =
      { state := { c.state with
                    messages := c.state.messages ++
                      [userMessage env c.nNow c.nRandom (arg.getD c.state.inputMessage)],
                    inputMessage := "", isLoading := true, isTyping := true },
        awaiting := c.awaiting ++
          [⟨.chatMessage c.state.userId (arg.getD c.state.inputMessage), none,
            sendMessageResume hc⟩],
        timers := c.timers, nNow := c.nNow + 2, nRandom := c.nRandom + 1,
        log := c.log ++ [.act (.setMessages fun prev => prev ++
            [userMessage env c.nNow c.nRandom (arg.getD c.state.inputMessage)]),
          .act (.setInputMessage ""), .act (.setIsLoading true),
          .act (.setIsTyping true), .issue (.chatMessage c.state.userId (arg.getD c.state.inputMessage))] } := by
  rw [invoke, sendMessage_pass hc arg c.state hmsg hload]
  simp [addMessage, runSync, Act.apply, userMessage]

theorem runSync_replyCallback_state (env : Env) (hc : Bool) (r : BotResponse)
    (c : Config State Act Request ChatData) :
    (runSync Act.apply env (replyCallback hc r) c).state =
      { c.state with messages := c.state.messages ++ [botMessage env c.nNow c.nRandom r],
                     currentStage := r.stage, progress := r.progress.getD 0,
                     suggestions := r.suggestions.getD [], isTyping := false } := by
  have hp : progressOr0 r.progress = r.progress.getD 0 := by
    cases h : r.progress with
    | none => rfl
    | some n => by_cases hn : n = 0 <;> simp [progressOr0, hn]
  have hsg : suggestionsOrEmpty r.suggestions = r.suggestions.getD [] := by
    cases r.suggestions <;> rfl
  unfold replyCallback
  split <;> simp [addMessage, runSync, Act.apply, botMessage, hp, hsg]

theorem runSync_sendMessageResume_ok (env : Env) (hc : Bool) (r : BotResponse)
    (c : Config State Act Request ChatData) :
    runSync Act.apply env (sendMessageResume hc (.ok ⟨true, r⟩)) c =
      { c with state := { c.state with isLoading := false },
               timers := c.timers ++ [(1000 + env.random c.nRandom * 1000, replyCallback hc r)],
               nRandom := c.nRandom + 1,
               log := c.log ++ [.timerSet (1000 + env.random c.nRandom * 1000),
                 .act (.setIsLoading false)] } := by
  simp [sendMessageResume, Prog.tryCatch, Prog.tryFinally, runSync, Act.apply]

/-! ## `Chatbot.js`: `sendMessage`, properties -/

/-- C8: `sendMessage` does nothing when the text (the argument, or
`inputMessage` when none is passed) is empty or made of white space only, or
when `isLoading` is true: invoked in any configuration it leaves the whole
configuration as it was, that is the state (`messages`, `currentStage`,
`progress`, `suggestions`, `isLoading` and the rest), the requests in flight
and the log, so no request is issued. -/
theorem C8_sendMessage_guard_noop (env : Env) (hasCallback : Bool) (arg : Option String)
    (c : Config State Act Request ChatData)
    (h : (∀ ch ∈ (arg.getD c.state.inputMessage).data, isJsSpace ch = true) ∨
      c.state.isLoading = true) :
    invoke Act.apply env (sendMessage hasCallback arg) c = c := by
  rw [invoke, sendMessage_blocked hasCallback arg c.state h]
  rfl

/-- C8 at its scenario: "I like design" sent while the request of "Hello" is
still in flight changes nothing; the one request issued is still the first. -/
theorem C8_sendMessage_guard_noop_witness :
    helloPending.state.isLoading = true ∧
    invoke Act.apply env0 (sendMessage true (some "I like design")) helloPending
      = helloPending ∧
    issuedOf (invoke Act.apply env0 (sendMessage true (some "I like design"))
      helloPending).log = [.chatMessage "user_1" "Hello"] := by
  have h := C8_sendMessage_guard_noop env0 true (some "I like design") helloPending
    (Or.inr rfl)
  refine ⟨rfl, h, ?_⟩
  rw [h]
  rfl

/-- C9: for every text that passes the guard of `sendMessage`, the
synchronous part of the call appends one user message, whose text is exactly
the text given, at the end of the transcript and sets `isLoading` to true; in
the log the append and the `setIsLoading(true)` come before the request is
issued, the request carries the same text, and it is left in flight (the
reply can only come later).  Likewise `addMessage` stores any sender's text
and metadata exactly as given. -/
theorem C9_user_message_stored_raw_before_call (env : Env) (hasCallback : Bool)
    (arg : Option String) (c : Config State Act Request ChatData)
    (hmsg : ∃ ch ∈ (arg.getD c.state.inputMessage).data, isJsSpace ch = false)
    (hload : c.state.isLoading = false) :
    let text := arg.getD c.state.inputMessage
    let c1 := invoke Act.apply env (sendMessage hasCallback arg) c
    (∃ m, c1.state.messages = c.state.messages ++ [m] ∧ m.sender = .user ∧ m.text = text) ∧
    c1.state.isLoading = true ∧
    (∃ w, c1.log = c.log ++ [.act (.setMessages w), .act (.setInputMessage ""),
        .act (.setIsLoading true), .act (.setIsTyping true),
        .issue (.chatMessage c.state.userId text)] ∧
      ∀ prev, ∃ m, w prev = prev ++ [m] ∧ m.sender = .user ∧ m.text = text) ∧
    (∃ p, c1.awaiting = c.awaiting ++ [p] ∧ p.q = .chatMessage c.state.userId text) ∧
    (∀ (sender : Sender) (body : String) (metadata : Option BotResponse)
        (c' : Config State Act Request ChatData),
      ∃ m, (runSync Act.apply env (addMessage sender body metadata .done) c').state.messages
          = c'.state.messages ++ [m] ∧
        m.sender = sender ∧ m.text = body ∧ m.metadata = metadata) := by
  intro text c1
  have h1 : c1 = _ := invoke_sendMessage env hasCallback arg c hmsg hload
  refine ⟨⟨userMessage env c.nNow c.nRandom text, by rw [h1], rfl, rfl⟩, by rw [h1],
    ⟨_, by rw [h1], fun prev => ⟨userMessage env c.nNow c.nRandom text, rfl, rfl, rfl⟩⟩,
    ⟨_, by rw [h1], rfl⟩, ?_⟩
  intro sender body metadata c'
  exact ⟨Message.mk (jsAdd (env.now c'.nNow) (env.random c'.nRandom)) sender body
      (env.now (c'.nNow + 1)) metadata,
    by simp [addMessage, runSync, Act.apply], rfl, rfl, rfl⟩

/-- C9 at a text with markup and white space around it: the transcript ends
with that very text. -/
theorem C9_user_message_stored_raw_before_call_witness :
    ((∃ ch ∈ (Option.getD (some "  **I like design**\n") offering.state.inputMessage).data,
        isJsSpace ch = false) ∧
     offering.state.isLoading = false) ∧
    textsOf (invoke Act.apply env0 (sendMessage true (some "  **I like design**\n"))
        offering).state.messages = [(.user, "  **I like design**\n")] ∧
    (invoke Act.apply env0 (sendMessage true (some "  **I like design**\n"))
        offering).state.isLoading = true := by
  have hmsg : ∃ ch ∈ (Option.getD (some "  **I like design**\n")
      offering.state.inputMessage).data, isJsSpace ch = false :=
    ⟨'I', by decide, by decide⟩
  have h := C9_user_message_stored_raw_before_call env0 true
    (some "  **I like design**\n") offering hmsg rfl
  refine ⟨⟨hmsg, rfl⟩, ?_, h.2.1⟩
  obtain ⟨m, hm, hsender, htext⟩ := h.1
  rw [hm]
  simp only [textsOf, List.map_append, List.map_cons, List.map_nil, hsender, htext]
  rfl

/-- C10: for every reply `r` of a request that succeeded with
`response.data.success` set, nothing is appended when the reply arrives; the
callback scheduled for the end of the typing delay, when it fires, appends
one bot message with text `r.message` and metadata carrying
`r.recommendations`, sets the stage to `r.stage`, the progress to `r.progress`
(0 when absent) and the suggestions to `r.suggestions` (the empty list when
absent), whatever the suggestions were before.  The callback does the same
in whatever configuration it fires. -/
theorem C10_reply_applied_after_delay (env : Env) (hasCallback : Bool)
    (arg : Option String) (r : BotResponse) (c : Config State Act Request ChatData)
    (hmsg : ∃ ch ∈ (arg.getD c.state.inputMessage).data, isJsSpace ch = false)
    (hload : c.state.isLoading = false) :
    let c1 := invoke Act.apply env (sendMessage hasCallback arg) c
    let c2 := deliver Act.apply env c.awaiting.length (.ok ⟨true, r⟩) c1
    let c3 := fire Act.apply env c.timers.length c2
    c2.state.messages = c1.state.messages ∧
    c2.timers = c.timers ++
      [(1000 + env.random (c.nRandom + 1) * 1000, replyCallback hasCallback r)] ∧
    (∃ m, c3.state.messages = c2.state.messages ++ [m] ∧ m.sender = .bot ∧
      m.text = r.message ∧
      m.metadata.bind (fun d => d.recommendations) = r.recommendations) ∧
    c3.state.currentStage = r.stage ∧
    c3.state.progress = r.progress.getD 0 ∧
    c3.state.suggestions = r.suggestions.getD [] ∧
    (∀ c' : Config State Act Request ChatData,
      (runSync Act.apply env (replyCallback hasCallback r) c').state =
        { c'.state with
            messages := c'.state.messages ++ [botMessage env c'.nNow c'.nRandom r],
            currentStage := r.stage, progress := r.progress.getD 0,
            suggestions := r.suggestions.getD [], isTyping := false }) := by
  intro c1 c2 c3
  have h1 : c1 = _ := invoke_sendMessage env hasCallback arg c hmsg hload
  have h2 : c2 = _ := deliver_last Act.apply env c1 c.awaiting
    ⟨.chatMessage c.state.userId (arg.getD c.state.inputMessage), none,
      sendMessageResume hasCallback⟩
    (.ok ⟨true, r⟩) (by rw [h1])
  rw [runSync_sendMessageResume_ok] at h2
  have h3 : c3 = _ := fire_last Act.apply env c2 c.timers
    (1000 + env.random (c.nRandom + 1) * 1000, replyCallback hasCallback r) (by rw [h2, h1])
  refine ⟨by rw [h2], by rw [h2, h1], ?_, ?_, ?_, ?_,
    fun c' => runSync_replyCallback_state env hasCallback r c'⟩
  · refine ⟨botMessage env c2.nNow c2.nRandom r, ?_, rfl, rfl, rfl⟩
    rw [h3, runSync_replyCallback_state]
  · rw [h3, runSync_replyCallback_state]
  · rw [h3, runSync_replyCallback_state]
  · rw [h3, runSync_replyCallback_state]

/-- C10 at a chat that offered two quick replies: after the reply
`designReply`, which has no `progress` and no `suggestions`, the stage is the
reply's, the progress is 0 and no quick reply is left. -/
theorem C10_reply_applied_after_delay_witness :
    ((∃ ch ∈ (Option.getD (some "I like design") offering.state.inputMessage).data,
        isJsSpace ch = false) ∧
     offering.state.isLoading = false) ∧
    offering.state.suggestions = ["Tell me more", "Start over"] ∧
    (fire Act.apply env0 offering.timers.length
      (deliver Act.apply env0 offering.awaiting.length (.ok ⟨true, designReply⟩)
        (invoke Act.apply env0 (sendMessage true (some "I like design"))
          offering))).state.currentStage = "recommendation" ∧
    (fire Act.apply env0 offering.timers.length
      (deliver Act.apply env0 offering.awaiting.length (.ok ⟨true, designReply⟩)
        (invoke Act.apply env0 (sendMessage true (some "I like design"))
          offering))).state.progress = 0 ∧
    (fire Act.apply env0 offering.timers.length
      (deliver Act.apply env0 offering.awaiting.length (.ok ⟨true, designReply⟩)
        (invoke Act.apply env0 (sendMessage true (some "I like design"))
          offering))).state.suggestions = [] := by
  have hmsg : ∃ ch ∈ (Option.getD (some "I like design") offering.state.inputMessage).data,
      isJsSpace ch = false :=
    ⟨'I', by decide, by decide⟩
  have h := C10_reply_applied_after_delay env0 true (some "I like design") designReply
    offering hmsg rfl
  exact ⟨⟨hmsg, rfl⟩, rfl, h.2.2.2.1, h.2.2.2.2.1, h.2.2.2.2.2.1⟩

end Chatbot

/-! ## The event loop: events in the middle of the queues -/

section QueueFacts
variable {S W Q A : Type}

theorem deliver_at (apply : W → S → S) (env : Env) (c : Config S W Q A)
    (l l' : List (InFlight W Q A)) (p : InFlight W Q A) (r : Except AxiosError A)
    (h : c.awaiting = l ++ p :: l') :
    deliver apply env l.length r c =
      runSync apply env (p.k r)
        { c with awaiting := l ++ l', log := c.log ++ [.resolve p.q r] } := by
  have hg : (l ++ p :: l').get? l.length = some p := by
    rw [List.get?_eq_getElem?, List.getElem?_append_right (Nat.le_refl _)]
    simp
  unfold deliver
  rw [h, hg]
  simp [List.eraseIdx_append_of_length_le]

theorem fire_at (apply : W → S → S) (env : Env) (c : Config S W Q A)
    (l l' : List (ℚ × Prog W Q A)) (t : ℚ × Prog W Q A) (h : c.timers = l ++ t :: l') :
    fire apply env l.length c =
      runSync apply env t.2 { c with timers := l ++ l', log := c.log ++ [.timerFire t.1] } := by
  have hg : (l ++ t :: l').get? l.length = some t := by
    rw [List.get?_eq_getElem?, List.getElem?_append_right (Nat.le_refl _)]
    simp
  unfold fire
  rw [h, hg]
  simp [List.eraseIdx_append_of_length_le]

theorem deliver_none (apply : W → S → S) (env : Env) (c : Config S W Q A) (i : Nat)
    (r : Except AxiosError A) (h : c.awaiting.length ≤ i) :
    deliver apply env i r c = c := by
  simp [deliver, List.getElem?_eq_none h]

theorem fire_none (apply : W → S → S) (env : Env) (c : Config S W Q A) (j : Nat)
    (h : c.timers.length ≤ j) :
    fire apply env j c = c := by
  simp [fire, List.getElem?_eq_none h]

end QueueFacts

/-! ## `Chatbot.js`: continuations, facts -/

namespace Chatbot

theorem runSync_sendMessageResume_error (env : Env) (hc : Bool) (e : AxiosError)
    (c : Config State Act Request ChatData) :
    runSync Act.apply env (sendMessageResume hc (.error e)) c =
      { c with state := { c.state with
                 messages := c.state.messages ++
                   [noticeMessage env c.nNow c.nRandom "Error occurred! Please try again."],
                 isLoading := false, isTyping := false },
               nNow := c.nNow + 2, nRandom := c.nRandom + 1,
               log := c.log ++ [.act (.setIsTyping false),
                 .act (.setMessages fun prev => prev ++
                   [noticeMessage env c.nNow c.nRandom "Error occurred! Please try again."]),
                 .act (.setIsLoading false)] } := by
  simp [sendMessageResume, Prog.tryCatch, Prog.tryFinally, runSync, Act.apply, addMessage,
    noticeMessage]

theorem runSync_sendMessageResume_unsuccessful (env : Env) (hc : Bool) (r : BotResponse)
    (c : Config State Act Request ChatData) :
    runSync Act.apply env (sendMessageResume hc (.ok ⟨false, r⟩)) c =
      { c with state := { c.state with isLoading := false },
               log := c.log ++ [.act (.setIsLoading false)] } := by
  simp [sendMessageResume, Prog.tryCatch, Prog.tryFinally, runSync, Act.apply]

theorem startChatSession_eq (s : State) :
    startChatSession s =
      .write (.setIsLoading true) (.await (.chatStart s.userId) startChatResume) := by
  simp only [startChatSession, Prog.post, Prog.tryCatch, Prog.tryFinally]
  congr 2
  funext x
  cases x <;> rfl

theorem resetChat_eq (s : State) :
    resetChat s = .await (.chatReset s.userId) (resetChatResume s) := by
  simp only [resetChat, Prog.post, Prog.tryCatch]
  congr 1
  funext x
  cases x <;> rfl

theorem invoke_startChatSession (env : Env) (c : Config State Act Request ChatData) :
    invoke Act.apply env startChatSession c =
      { c with state := { c.state with isLoading := true },
               awaiting := c.awaiting ++ [⟨.chatStart c.state.userId, none, startChatResume⟩],
               log := c.log ++ [.act (.setIsLoading true), .issue (.chatStart c.state.userId)] } := by
  rw [invoke, startChatSession_eq]
  simp [runSync, Act.apply]

theorem invoke_resetChat (env : Env) (c : Config State Act Request ChatData) :
    invoke Act.apply env resetChat c =
      { c with awaiting := c.awaiting ++ [⟨.chatReset c.state.userId, none, resetChatResume c.state⟩],
               log := c.log ++ [.issue (.chatReset c.state.userId)] } := by
  rw [invoke, resetChat_eq]
  simp [runSync]

theorem startChatResume_caught (h : AxiosError → Prog Act Request ChatData)
    (x : Except AxiosError ChatData) :
    Prog.tryCatch (startChatResume x) h = startChatResume x := by
  cases x with
  | error e =>
    simp [startChatResume, Prog.tryCatch, Prog.tryFinally, addMessage]
  | ok d =>
    by_cases hd : d.success = true <;>
      simp [startChatResume, Prog.tryCatch, Prog.tryFinally, addMessage, hd]

theorem resetChatResume_ok (s : State) (d : ChatData) :
    resetChatResume s (.ok d) =
      .write (.setMessages fun _ => []) (.write (.setProgress 0) (.write (.setSuggestions [])
        (.write (.setCurrentStage "greeting") (.write (.setIsLoading true)
          (.await (.chatStart s.userId) startChatResume))))) := by
  unfold resetChatResume
  rw [startChatSession_eq]
  simp only [Prog.tryCatch]
  congr 6
  funext x
  exact startChatResume_caught _ x

theorem runSync_resetChatResume_ok (env : Env) (s : State) (d : ChatData)
    (c : Config State Act Request ChatData) :
    runSync Act.apply env (resetChatResume s (.ok d)) c =
      { c with state := { c.state with messages := [], progress := 0, suggestions := [],
                                       currentStage := "greeting", isLoading := true },
               awaiting := c.awaiting ++ [⟨.chatStart s.userId, none, startChatResume⟩],
               log := c.log ++ [.act (.setMessages fun _ => []), .act (.setProgress 0),
                 .act (.setSuggestions []), .act (.setCurrentStage "greeting"),
                 .act (.setIsLoading true), .issue (.chatStart s.userId)] } := by
  rw [resetChatResume_ok]
  simp [runSync, Act.apply]

theorem runSync_resetChatResume_error (env : Env) (s : State) (e : AxiosError)
    (c : Config State Act Request ChatData) :
    runSync Act.apply env (resetChatResume s (.error e)) c =
      { c with log := c.log ++ [.act (.consoleError e)] } := by
  simp [resetChatResume, Prog.tryCatch, runSync, Act.apply]

theorem runSync_startChatResume_ok (env : Env) (g : BotResponse)
    (c : Config State Act Request ChatData) :
    runSync Act.apply env (startChatResume (.ok ⟨true, g⟩)) c =
      { c with state := { c.state with
                          messages := c.state.messages ++
                            [noticeMessage env c.nNow c.nRandom g.message],
                          currentStage := g.stage, progress := g.progress.getD 0,
                          suggestions := g.suggestions.getD [], isLoading := false },
               nNow := c.nNow + 2, nRandom := c.nRandom + 1,
               log := c.log ++ [
                 .act (.setMessages fun prev => prev ++
                   [noticeMessage env c.nNow c.nRandom g.message]),
                 .act (.setCurrentStage g.stage), .act (.setProgress (g.progress.getD 0)),
                 .act (.setSuggestions (g.suggestions.getD [])),
                 .act (.setIsLoading false)] } := by
  have hp : progressOr0 g.progress = g.progress.getD 0 := by
    cases h : g.progress with
    | none => rfl
    | some n => by_cases hn : n = 0 <;> simp [progressOr0, hn]
  have hsg : suggestionsOrEmpty g.suggestions = g.suggestions.getD [] := by
    cases g.suggestions <;> rfl
  simp [startChatResume, Prog.tryCatch, Prog.tryFinally, runSync, Act.apply, addMessage,
    noticeMessage, hp, hsg]

theorem runSync_startChatResume_unsuccessful (env : Env) (g : BotResponse)
    (c : Config State Act Request ChatData) :
    runSync Act.apply env (startChatResume (.ok ⟨false, g⟩)) c =
      { c with state := { c.state with isLoading := false },
               log := c.log ++ [.act (.setIsLoading false)] } := by
  simp [startChatResume, Prog.tryCatch, Prog.tryFinally, runSync, Act.apply]

theorem runSync_startChatResume_error (env : Env) (e : AxiosError)
    (c : Config State Act Request ChatData) :
    runSync Act.apply env (startChatResume (.error e)) c =
      { c with state := { c.state with
                 messages := c.state.messages ++
                   [noticeMessage env c.nNow c.nRandom "Connection error! Please try again."],
                 isLoading := false },
               nNow := c.nNow + 2, nRandom := c.nRandom + 1,
               log := c.log ++ [
                 .act (.setMessages fun prev => prev ++
                   [noticeMessage env c.nNow c.nRandom "Connection error! Please try again."]),
                 .act (.setIsLoading false)] } := by
  simp [startChatResume, Prog.tryCatch, Prog.tryFinally, runSync, Act.apply, addMessage,
    noticeMessage]

end Chatbot

/-! ## `Chatbot.js`: a handler and the resolution of its request -/

namespace Chatbot

theorem reset_resolved_ok (env : Env) (d : ChatData) (c : Config State Act Request ChatData) :
    deliver Act.apply env c.awaiting.length (.ok d) (invoke Act.apply env resetChat c) =
      { state := { c.state with messages := [], progress := 0, suggestions := [],
                                currentStage := "greeting", isLoading := true },
        awaiting := c.awaiting ++ [⟨.chatStart c.state.userId, none, startChatResume⟩],
        timers := c.timers, nNow := c.nNow, nRandom := c.nRandom,
        log := c.log ++ [.issue (.chatReset c.state.userId),
          .resolve (.chatReset c.state.userId) (.ok d),
          .act (.setMessages fun _ => []), .act (.setProgress 0),
          .act (.setSuggestions []), .act (.setCurrentStage "greeting"),
          .act (.setIsLoading true), .issue (.chatStart c.state.userId)] } := by
  rw [invoke_resetChat,
    deliver_last Act.apply env _ c.awaiting
      ⟨.chatReset c.state.userId, none, resetChatResume c.state⟩ (.ok d) rfl,
    runSync_resetChatResume_ok]
  simp

theorem reset_resolved_error (env : Env) (e : AxiosError)
    (c : Config State Act Request ChatData) :
    deliver Act.apply env c.awaiting.length (.error e) (invoke Act.apply env resetChat c) =
      { c with log := c.log ++ [.issue (.chatReset c.state.userId),
          .resolve (.chatReset c.state.userId) (.error e), .act (.consoleError e)] } := by
  rw [invoke_resetChat,
    deliver_last Act.apply env _ c.awaiting
      ⟨.chatReset c.state.userId, none, resetChatResume c.state⟩ (.error e) rfl,
    runSync_resetChatResume_error]
  simp

theorem send_resolved_ok (env : Env) (hc : Bool) (arg : Option String) (r : BotResponse)
    (c : Config State Act Request ChatData)
    (hmsg : ∃ ch ∈ (arg.getD c.state.inputMessage).data, isJsSpace ch = false)
    (hload : c.state.isLoading = false) :
    deliver Act.apply env c.awaiting.length (.ok ⟨true, r⟩)
        (invoke Act.apply env (sendMessage hc arg) c) =
      { state := { c.state with
                    messages := c.state.messages ++
                      [userMessage env c.nNow c.nRandom (arg.getD c.state.inputMessage)],
                    inputMessage := "", isLoading := false, isTyping := true },
        awaiting := c.awaiting,
        timers := c.timers ++
          [(1000 + env.random (c.nRandom + 1) * 1000, replyCallback hc r)],
        nNow := c.nNow + 2, nRandom := c.nRandom + 2,
        log := c.log ++ [.act (.setMessages fun prev => prev ++
            [userMessage env c.nNow c.nRandom (arg.getD c.state.inputMessage)]),
          .act (.setInputMessage ""), .act (.setIsLoading true),
          .act (.setIsTyping true),
          .issue (.chatMessage c.state.userId (arg.getD c.state.inputMessage)),
          .resolve (.chatMessage c.state.userId (arg.getD c.state.inputMessage))
            (.ok ⟨true, r⟩),
          .timerSet (1000 + env.random (c.nRandom + 1) * 1000),
          .act (.setIsLoading false)] } := by
  rw [invoke_sendMessage env hc arg c hmsg hload,
    deliver_last Act.apply env _ c.awaiting
      ⟨.chatMessage c.state.userId (arg.getD c.state.inputMessage), none,
        sendMessageResume hc⟩ (.ok ⟨true, r⟩) rfl,
    runSync_sendMessageResume_ok]
  simp

theorem send_resolved_error (env : Env) (hc : Bool) (arg : Option String) (e : AxiosError)
    (c : Config State Act Request ChatData)
    (hmsg : ∃ ch ∈ (arg.getD c.state.inputMessage).data, isJsSpace ch = false)
    (hload : c.state.isLoading = false) :
    deliver Act.apply env c.awaiting.length (.error e)
        (invoke Act.apply env (sendMessage hc arg) c) =
      { state := { c.state with
                    messages := c.state.messages ++
                      [userMessage env c.nNow c.nRandom (arg.getD c.state.inputMessage),
                       noticeMessage env (c.nNow + 2) (c.nRandom + 1)
                         "Error occurred! Please try again."],
                    inputMessage := "", isLoading := false, isTyping := false },
        awaiting := c.awaiting,
        timers := c.timers,
        nNow := c.nNow + 4, nRandom := c.nRandom + 2,
        log := c.log ++ [.act (.setMessages fun prev => prev ++
            [userMessage env c.nNow c.nRandom (arg.getD c.state.inputMessage)]),
          .act (.setInputMessage ""), .act (.setIsLoading true),
          .act (.setIsTyping true),
          .issue (.chatMessage c.state.userId (arg.getD c.state.inputMessage)),
          .resolve (.chatMessage c.state.userId (arg.getD c.state.inputMessage))
            (.error e),
          .act (.setIsTyping false),
          .act (.setMessages fun prev => prev ++
            [noticeMessage env (c.nNow + 2) (c.nRandom + 1)
              "Error occurred! Please try again."]),
          .act (.setIsLoading false)] } := by
  rw [invoke_sendMessage env hc arg c hmsg hload,
    deliver_last Act.apply env _ c.awaiting
      ⟨.chatMessage c.state.userId (arg.getD c.state.inputMessage), none,
        sendMessageResume hc⟩ (.error e) rfl,
    runSync_sendMessageResume_error]
  simp

theorem start_resolved_ok (env : Env) (g : BotResponse) (u : String)
    (c : Config State Act Request ChatData) (l : List (InFlight Act Request ChatData))
    (h : c.awaiting = l ++ [⟨.chatStart u, none, startChatResume⟩]) :
    deliver Act.apply env l.length (.ok ⟨true, g⟩) c =
      { state := { c.state with
                    messages := c.state.messages ++
                      [noticeMessage env c.nNow c.nRandom g.message],
                    currentStage := g.stage, progress := g.progress.getD 0,
                    suggestions := g.suggestions.getD [], isLoading := false },
        awaiting := l, timers := c.timers,
        nNow := c.nNow + 2, nRandom := c.nRandom + 1,
        log := c.log ++ [.resolve (.chatStart u) (.ok ⟨true, g⟩),
          .act (.setMessages fun prev => prev ++
            [noticeMessage env c.nNow c.nRandom g.message]),
          .act (.setCurrentStage g.stage), .act (.setProgress (g.progress.getD 0)),
          .act (.setSuggestions (g.suggestions.getD [])),
          .act (.setIsLoading false)] } := by
  rw [deliver_last Act.apply env c l ⟨.chatStart u, none, startChatResume⟩ _ h,
    runSync_startChatResume_ok]
  simp

end Chatbot

/-! ## `Chatbot.js`: failures, resets, properties -/

namespace Chatbot

/-- C11: for every chat state in which a text passes the guard, when the
request of `sendMessage` fails the transcript is the old one followed by the
user message and one bot message "Error occurred! Please try again."; no timer
is set (the message is appended at once, without the typing delay); the stage,
the progress and the suggestions are those before the call; `isLoading` is
false and the request is no longer in flight. -/
theorem C11_failure_appends_error_message (env : Env) (hasCallback : Bool)
    (arg : Option String) (e : AxiosError) (c : Config State Act Request ChatData)
    (hmsg : ∃ ch ∈ (arg.getD c.state.inputMessage).data, isJsSpace ch = false)
    (hload : c.state.isLoading = false) :
    let c1 := invoke Act.apply env (sendMessage hasCallback arg) c
    let c2 := deliver Act.apply env c.awaiting.length (.error e) c1
    (∃ u m, c2.state.messages = c.state.messages ++ [u, m] ∧
      u.sender = .user ∧ u.text = arg.getD c.state.inputMessage ∧
      m.sender = .bot ∧ m.text = "Error occurred! Please try again.") ∧
    c2.timers = c.timers ∧
    c2.state.currentStage = c.state.currentStage ∧
    c2.state.progress = c.state.progress ∧
    c2.state.suggestions = c.state.suggestions ∧
    c2.state.isLoading = false ∧
    c2.awaiting = c.awaiting := by
  intro c1 c2
  have h1 : c1 = _ := invoke_sendMessage env hasCallback arg c hmsg hload
  have h2 : c2 = _ := deliver_last Act.apply env c1 c.awaiting
    ⟨.chatMessage c.state.userId (arg.getD c.state.inputMessage), none,
      sendMessageResume hasCallback⟩
    (.error e) (by rw [h1])
  rw [runSync_sendMessageResume_error] at h2
  refine ⟨⟨userMessage env c.nNow c.nRandom (arg.getD c.state.inputMessage),
    noticeMessage env c1.nNow c1.nRandom "Error occurred! Please try again.",
    ?_, rfl, rfl, rfl, rfl⟩, ?_, ?_, ?_, ?_, ?_, ?_⟩
  all_goals rw [h2, h1]
  simp

/-- C11 at a chat offering two quick replies, whose request fails with a
network error: the transcript is a user message then a bot message, and the
quick replies are still offered. -/
theorem C11_failure_appends_error_message_witness :
    ((∃ ch ∈ (Option.getD (some "I like design") offering.state.inputMessage).data,
        isJsSpace ch = false) ∧
     offering.state.isLoading = false) ∧
    sendersOf (deliver Act.apply env0 offering.awaiting.length
        (.error (AppClean.plainError "Network Error"))
        (invoke Act.apply env0 (sendMessage true (some "I like design"))
          offering)).state.messages = [.user, .bot] ∧
    (deliver Act.apply env0 offering.awaiting.length
        (.error (AppClean.plainError "Network Error"))
        (invoke Act.apply env0 (sendMessage true (some "I like design"))
          offering)).state.suggestions = ["Tell me more", "Start over"] ∧
    (deliver Act.apply env0 offering.awaiting.length
        (.error (AppClean.plainError "Network Error"))
        (invoke Act.apply env0 (sendMessage true (some "I like design"))
          offering)).state.isLoading = false := by
  have hmsg : ∃ ch ∈ (Option.getD (some "I like design") offering.state.inputMessage).data,
      isJsSpace ch = false :=
    ⟨'I', by decide, by decide⟩
  have h := C11_failure_appends_error_message env0 true (some "I like design")
    (AppClean.plainError "Network Error") offering hmsg rfl
  refine ⟨⟨hmsg, rfl⟩, ?_, h.2.2.2.2.1, h.2.2.2.2.2.1⟩
  obtain ⟨u, m, hm, hu, -, hb, -⟩ := h.1
  rw [hm]
  simp [sendersOf, hu, hb, offering, Config.init, State.initial]

/-- C12 fails at a response whose `success` flag is false: after "I like
design" is sent from an empty transcript and the request resolves with such a
response, the transcript holds the user message alone; no request is in
flight and no timer is set, so nothing is left that could answer it; the
typing indicator is still on and `isLoading` is off. -/
theorem C12_unsuccessful_response_left_unanswered :
    sendersOf offering.state.messages = [] ∧
    sendersOf (deliver Act.apply env0 0 (.ok ⟨false, designReply⟩)
      (invoke Act.apply env0 (sendMessage true (some "I like design"))
        offering)).state.messages = [.user] ∧
    (deliver Act.apply env0 0 (.ok ⟨false, designReply⟩)
      (invoke Act.apply env0 (sendMessage true (some "I like design"))
        offering)).awaiting.length = 0 ∧
    (deliver Act.apply env0 0 (.ok ⟨false, designReply⟩)
      (invoke Act.apply env0 (sendMessage true (some "I like design"))
        offering)).timers.length = 0 ∧
    (deliver Act.apply env0 0 (.ok ⟨false, designReply⟩)
      (invoke Act.apply env0 (sendMessage true (some "I like design"))
        offering)).state.isTyping = true ∧
    (deliver Act.apply env0 0 (.ok ⟨false, designReply⟩)
      (invoke Act.apply env0 (sendMessage true (some "I like design"))
        offering)).state.isLoading = false :=
  ⟨rfl, rfl, rfl, rfl, rfl, rfl⟩

/-- C16, as the code has it: when the reset request succeeds, `resetChat`
empties the transcript, sets the progress to 0, the suggestions to the empty
list and the stage to "greeting", and calls `startChatSession` (its request is
in flight and `isLoading` is true).  When the reset request fails, the error
is passed to `console.error` and nothing else happens: the state is the one
before the call and no request is in flight that was not before. -/
theorem C16_reset_clears_only_on_success (env : Env) (c : Config State Act Request ChatData) :
    (∀ d : ChatData,
      let c2 := deliver Act.apply env c.awaiting.length (.ok d)
        (invoke Act.apply env resetChat c)
      c2.state.messages = [] ∧ c2.state.progress = 0 ∧ c2.state.suggestions = [] ∧
      c2.state.currentStage = "greeting" ∧
      c2.state.isLoading = true ∧
      c2.awaiting = c.awaiting ++ [⟨.chatStart c.state.userId, none, startChatResume⟩]) ∧
    (∀ e : AxiosError,
      let c2 := deliver Act.apply env c.awaiting.length (.error e)
        (invoke Act.apply env resetChat c)
      c2.state = c.state ∧ c2.awaiting = c.awaiting ∧
      c2.log = c.log ++ [.issue (.chatReset c.state.userId),
        .resolve (.chatReset c.state.userId) (.error e), .act (.consoleError e)]) := by
  constructor
  · intro d c2
    have h2 : c2 = _ := reset_resolved_ok env d c
    rw [h2]
    exact ⟨rfl, rfl, rfl, rfl, rfl, rfl⟩
  · intro e c2
    have h2 : c2 = _ := reset_resolved_error env e c
    rw [h2]
    exact ⟨rfl, rfl, rfl⟩

/-- C16 as stated fails: in the middle of a conversation, a `resetChat` whose
request fails with a network error leaves the transcript, the progress, the
suggestions and the stage as they were; the only request issued is the reset,
so no new session is started. -/
theorem C16_failed_reset_clears_nothing :
    sendersOf (deliver Act.apply env0 0 (.error (AppClean.plainError "Network Error"))
      (invoke Act.apply env0 resetChat midChat)).state.messages = [.user, .bot] ∧
    (deliver Act.apply env0 0 (.error (AppClean.plainError "Network Error"))
      (invoke Act.apply env0 resetChat midChat)).state.progress = 40 ∧
    (deliver Act.apply env0 0 (.error (AppClean.plainError "Network Error"))
      (invoke Act.apply env0 resetChat midChat)).state.suggestions = ["Python", "Design"] ∧
    (deliver Act.apply env0 0 (.error (AppClean.plainError "Network Error"))
      (invoke Act.apply env0 resetChat midChat)).state.currentStage = "skills_inquiry" ∧
    issuedOf (deliver Act.apply env0 0 (.error (AppClean.plainError "Network Error"))
      (invoke Act.apply env0 resetChat midChat)).log = [.chatReset "user_1"] ∧
    (deliver Act.apply env0 0 (.error (AppClean.plainError "Network Error"))
      (invoke Act.apply env0 resetChat midChat)).awaiting.length = 0 :=
  ⟨rfl, rfl, rfl, rfl, rfl, rfl⟩

/-- C18: from a chat state with no request in flight and no timer set, when
the reset request of `resetChat` succeeds and the request of
`startChatSession` that follows succeeds with `success` set and greeting `g`,
the transcript is exactly one bot message with text `g.message`; the stage is
`g.stage`, the progress `g.progress` (0 when absent), the suggestions
`g.suggestions` (the empty list when absent); `isLoading` is false, and
nothing is in flight or scheduled. -/
theorem C18_reset_then_greeting (env : Env) (d : ChatData) (g : BotResponse)
    (c : Config State Act Request ChatData)
    (hq : c.awaiting = []) (ht : c.timers = []) :
    let c3 := deliver Act.apply env 0 (.ok ⟨true, g⟩)
      (deliver Act.apply env 0 (.ok d) (invoke Act.apply env resetChat c))
    (∃ m, c3.state.messages = [m] ∧ m.sender = .bot ∧ m.text = g.message) ∧
    c3.state.currentStage = g.stage ∧
    c3.state.progress = g.progress.getD 0 ∧
    c3.state.suggestions = g.suggestions.getD [] ∧
    c3.state.isLoading = false ∧
    c3.awaiting = [] ∧ c3.timers = [] := by
  intro c3
  have hlen : c.awaiting.length = 0 := by simp [hq]
  have h2 := reset_resolved_ok env d c
  rw [hlen, hq] at h2
  have h3 : c3 = _ := start_resolved_ok env g c.state.userId
    (deliver Act.apply env 0 (.ok d) (invoke Act.apply env resetChat c)) []
    (by rw [h2])
  rw [h2] at h3
  rw [h3]
  exact ⟨⟨noticeMessage env c.nNow c.nRandom g.message, rfl, rfl, rfl⟩, rfl, rfl, rfl, rfl,
    rfl, ht⟩

/-- C18 in the middle of a conversation, with a greeting that has no
`progress` field. -/
theorem C18_reset_then_greeting_witness :
    (midChat.awaiting = [] ∧ midChat.timers = []) ∧
    textsOf (deliver Act.apply env0 0 (.ok ⟨true, greeting⟩)
      (deliver Act.apply env0 0 (.ok ⟨true, greeting⟩)
        (invoke Act.apply env0 resetChat midChat))).state.messages
      = [(.bot, "Hello! What interests you?")] ∧
    (deliver Act.apply env0 0 (.ok ⟨true, greeting⟩)
      (deliver Act.apply env0 0 (.ok ⟨true, greeting⟩)
        (invoke Act.apply env0 resetChat midChat))).state.progress = 0 ∧
    (deliver Act.apply env0 0 (.ok ⟨true, greeting⟩)
      (deliver Act.apply env0 0 (.ok ⟨true, greeting⟩)
        (invoke Act.apply env0 resetChat midChat))).state.suggestions
      = ["Technology", "Design"] ∧
    (deliver Act.apply env0 0 (.ok ⟨true, greeting⟩)
      (deliver Act.apply env0 0 (.ok ⟨true, greeting⟩)
        (invoke Act.apply env0 resetChat midChat))).state.isLoading = false := by
  have h := C18_reset_then_greeting env0 ⟨true, greeting⟩ greeting midChat rfl rfl
  refine ⟨⟨rfl, rfl⟩, ?_, h.2.2.1, h.2.2.2.1, h.2.2.2.2.1⟩
  obtain ⟨m, hm, hs, ht⟩ := h.1
  rw [hm]
  simp [textsOf, hs, ht, greeting]

end Chatbot

namespace AppClean

/-- C20: from every state `s`, `resetApp` sets `selectedFile`, `parsedData`
and `careerSuggestions` to null, `currentStep` to 1 and `uploadStatus` to the
empty string, the values of the initial state, and touches nothing else
(`loading` and `appMode` stay).  These five values are the same from any two
states, calling `resetApp` twice gives what calling it once gives, and it
issues no request. -/
theorem C20_resetApp_returns_to_idle (s s' : State) :
    reset s = { s with selectedFile := none, uploadStatus := "", parsedData := none,
                       careerSuggestions := none, currentStep := 1 } ∧
    ((reset s).selectedFile = State.initial.selectedFile ∧
     (reset s).parsedData = State.initial.parsedData ∧
     (reset s).careerSuggestions = State.initial.careerSuggestions ∧
     (reset s).currentStep = State.initial.currentStep ∧
     (reset s).uploadStatus = State.initial.uploadStatus) ∧
    ((reset s).selectedFile = (reset s').selectedFile ∧
     (reset s).parsedData = (reset s').parsedData ∧
     (reset s).careerSuggestions = (reset s').careerSuggestions ∧
     (reset s).currentStep = (reset s').currentStep ∧
     (reset s).uploadStatus = (reset s').uploadStatus) ∧
    reset (reset s) = reset s ∧
    (invoke Act.apply env resetApp (Config.init s)).awaiting = [] := by
  simp [reset, invoke, resetApp, runSync, Config.init, Act.apply, State.initial]

end AppClean

/-! ## `Chatbot.js`: message identifiers -/

namespace Chatbot

theorem runSync_appendAll (env : Env) (items : List (Sender × String × Option BotResponse))
    (c : Config State Act Request ChatData) :
    (runSync Act.apply env (appendAll items) c).state.messages =
      c.state.messages ++ stamped env c.nNow c.nRandom items := by
  induction items generalizing c with
  | nil => simp [appendAll, runSync, stamped]
  | cons item rest ih =>
    obtain ⟨sender, text, metadata⟩ := item
    simp only [appendAll, addMessage, runSync, stamped]
    rw [ih]
    simp [Act.apply]

theorem mem_stamped (env : Env) (items : List (Sender × String × Option BotResponse))
    (nNow nRandom : Nat) (m : Message) (h : m ∈ stamped env nNow nRandom items) :
    ∃ k, k < items.length ∧
      m.id = jsAdd (env.now (nNow + 2 * k)) (env.random (nRandom + k)) := by
  induction items generalizing nNow nRandom with
  | nil => simp [stamped] at h
  | cons item rest ih =>
    obtain ⟨sender, text, metadata⟩ := item
    simp only [stamped, List.mem_cons] at h
    rcases h with h | h
    · exact ⟨0, by simp, by simp [h]⟩
    · obtain ⟨k, hk, hid⟩ := ih (nNow + 2) (nRandom + 1) h
      refine ⟨k + 1, by simpa using hk, ?_⟩
      have e1 : nNow + 2 * (k + 1) = nNow + 2 + 2 * k := by ring
      have e2 : nRandom + (k + 1) = nRandom + 1 + k := by ring
      rw [hid, e1, e2]

/-- The sum of a clock reading below `2 ^ 53` and a draw in [0,1) lies
between the reading and the next millisecond. -/
theorem jsAdd_reading (t : Nat) (r : ℚ) (ht : t < 2 ^ 53) (h0 : 0 ≤ r) (h1 : r < 1) :
    (t : ℚ) ≤ jsAdd t r ∧ jsAdd t r ≤ (t : ℚ) + 1 := by
  have htq : (t : ℚ) + 1 ≤ (2 : ℚ) ^ (53 : Int) := by
    have : t + 1 ≤ 2 ^ 53 := ht
    have h : ((t + 1 : Nat) : ℚ) ≤ ((2 ^ 53 : Nat) : ℚ) := by exact_mod_cast this
    push_cast at h
    norm_num
    linarith
  have hx : |(t : ℚ) + r| < (2 : ℚ) ^ (53 : Int) := by
    rw [abs_of_nonneg (by positivity)]
    linarith
  constructor
  · have := intCast_le_binary64 ((t : ℚ) + r) (t : Int) hx (by push_cast; linarith)
    simpa [jsAdd] using this
  · have := binary64_le_intCast ((t : ℚ) + r) ((t : Int) + 1) hx (by push_cast; linarith)
    simpa [jsAdd] using this

theorem stamped_ids_pairwise (env : Env) (R : ℚ → ℚ → Prop)
    (items : List (Sender × String × Option BotResponse)) (nNow nRandom : Nat)
    (h : ∀ j k, j < k → k < items.length →
      R (jsAdd (env.now (nNow + 2 * j)) (env.random (nRandom + j)))
        (jsAdd (env.now (nNow + 2 * k)) (env.random (nRandom + k)))) :
    (idsOf (stamped env nNow nRandom items)).Pairwise R := by
  induction items generalizing nNow nRandom with
  | nil => simp [stamped, idsOf]
  | cons item rest ih =>
    obtain ⟨sender, text, metadata⟩ := item
    simp only [stamped, idsOf, List.map_cons, List.pairwise_cons, List.mem_map]
    constructor
    · rintro x ⟨m, hm, rfl⟩
      obtain ⟨k, hk, hid⟩ := mem_stamped env rest (nNow + 2) (nRandom + 1) m hm
      rw [hid]
      have hR := h 0 (k + 1) (Nat.succ_pos k) (by simpa using hk)
      have e1 : nNow + 2 * (k + 1) = nNow + 2 + 2 * k := by ring
      have e2 : nRandom + (k + 1) = nRandom + 1 + k := by ring
      rw [e1, e2] at hR
      simpa using hR
    · apply ih
      intro j k hjk hk
      have hR := h (j + 1) (k + 1) (by omega) (by simpa using hk)
      have e1 : nNow + 2 * (j + 1) = nNow + 2 + 2 * j := by ring
      have e2 : nNow + 2 * (k + 1) = nNow + 2 + 2 * k := by ring
      have e3 : nRandom + (j + 1) = nRandom + 1 + j := by ring
      have e4 : nRandom + (k + 1) = nRandom + 1 + k := by ring
      rwa [e1, e2, e3, e4] at hR

/-- C15, as the code has it: for every run of calls of `addMessage`, the
messages appended carry the identifiers `Date.now() + Math.random()` of the
successive reads, each sum rounded to a double.  When the clock readings are
time values (below `2 ^ 53`), every random draw is in [0,1) and the readings
taken for the identifiers of successive messages strictly increase, the
identifiers never decrease in insertion order; when these readings are at
least 2 ms apart from one message to the next, the identifiers are strictly
increasing in insertion order, hence pairwise distinct. -/
theorem C15_ids_ordered_when_clock_advances (env : Env)
    (items : List (Sender × String × Option BotResponse))
    (c : Config State Act Request ChatData)
    (hb : ∀ k, k < items.length → env.now (c.nNow + 2 * k) < 2 ^ 53)
    (hr : ∀ n, 0 ≤ env.random n ∧ env.random n < 1)
    (ht : ∀ j k, j < k → k < items.length →
      env.now (c.nNow + 2 * j) < env.now (c.nNow + 2 * k)) :
    (runSync Act.apply env (appendAll items) c).state.messages =
      c.state.messages ++ stamped env c.nNow c.nRandom items ∧
    (idsOf (stamped env c.nNow c.nRandom items)).Pairwise (· ≤ ·) ∧
    ((∀ j k, j < k → k < items.length →
        env.now (c.nNow + 2 * j) + 2 ≤ env.now (c.nNow + 2 * k)) →
      (idsOf (stamped env c.nNow c.nRandom items)).Pairwise (· < ·) ∧
      (idsOf (stamped env c.nNow c.nRandom items)).Nodup) := by
  refine ⟨runSync_appendAll env items c, ?_, fun ht2 => ?_⟩
  · apply stamped_ids_pairwise
    intro j k hjk hk
    have h1 := (jsAdd_reading (env.now (c.nNow + 2 * j)) (env.random (c.nRandom + j))
      (hb j (lt_trans hjk hk)) (hr _).1 (hr _).2).2
    have h2 := (jsAdd_reading (env.now (c.nNow + 2 * k)) (env.random (c.nRandom + k))
      (hb k hk) (hr _).1 (hr _).2).1
    have h3 : (env.now (c.nNow + 2 * j) : ℚ) + 1 ≤ (env.now (c.nNow + 2 * k) : ℚ) := by
      exact_mod_cast ht j k hjk hk
    linarith
  · have hp : (idsOf (stamped env c.nNow c.nRandom items)).Pairwise (· < ·) := by
      apply stamped_ids_pairwise
      intro j k hjk hk
      have h1 := (jsAdd_reading (env.now (c.nNow + 2 * j)) (env.random (c.nRandom + j))
        (hb j (lt_trans hjk hk)) (hr _).1 (hr _).2).2
      have h2 := (jsAdd_reading (env.now (c.nNow + 2 * k)) (env.random (c.nRandom + k))
        (hb k hk) (hr _).1 (hr _).2).1
      have h3 : (env.now (c.nNow + 2 * j) : ℚ) + 2 ≤ (env.now (c.nNow + 2 * k) : ℚ) := by
        exact_mod_cast ht2 j k hjk hk
      linarith
    exact ⟨hp, hp.imp (fun h => ne_of_lt h)⟩

/-- C15 at a clock that advances by a millisecond at each read and draws of
one half: the readings taken for the identifiers are 2 ms apart, and three
messages get increasing identifiers. -/
theorem C15_ids_ordered_when_clock_advances_witness :
    ((∀ k, k < [((Sender.user, "Hi", none) : Sender × String × Option BotResponse),
          (.bot, "Hello!", none), (.user, "I like design", none)].length →
        env0.now ((Config.init (State.initial "user_1") :
          Config State Act Request ChatData).nNow + 2 * k) < 2 ^ 53) ∧
     (∀ n, 0 ≤ env0.random n ∧ env0.random n < 1) ∧
     (∀ j k, j < k → k < [((Sender.user, "Hi", none) : Sender × String × Option BotResponse),
          (.bot, "Hello!", none), (.user, "I like design", none)].length →
        env0.now ((Config.init (State.initial "user_1") :
          Config State Act Request ChatData).nNow + 2 * j) + 2
        ≤ env0.now ((Config.init (State.initial "user_1") :
          Config State Act Request ChatData).nNow + 2 * k))) ∧
    (idsOf (stamped env0 0 0
      [(.user, "Hi", none), (.bot, "Hello!", none),
       (.user, "I like design", none)])).Pairwise (· < ·) := by
  have hb : ∀ k, k < [((Sender.user, "Hi", none) : Sender × String × Option BotResponse),
      (.bot, "Hello!", none), (.user, "I like design", none)].length →
      env0.now ((Config.init (State.initial "user_1") :
        Config State Act Request ChatData).nNow + 2 * k) < 2 ^ 53 := fun k hk => by
    simp only [env0, Config.init, List.length_cons, List.length_nil] at hk ⊢
    omega
  have hr : ∀ n, 0 ≤ env0.random n ∧ env0.random n < 1 := fun n => by
    simp only [env0]
    norm_num
  have ht2 : ∀ j k, j < k → k < [((Sender.user, "Hi", none) :
      Sender × String × Option BotResponse),
      (.bot, "Hello!", none), (.user, "I like design", none)].length →
      env0.now ((Config.init (State.initial "user_1") :
        Config State Act Request ChatData).nNow + 2 * j) + 2
      ≤ env0.now ((Config.init (State.initial "user_1") :
        Config State Act Request ChatData).nNow + 2 * k) := fun j k hjk _ => by
    simp only [env0, Config.init]
    omega
  exact ⟨⟨hb, hr, ht2⟩, ((C15_ids_ordered_when_clock_advances env0
    [(.user, "Hi", none), (.bot, "Hello!", none), (.user, "I like design", none)]
    (Config.init (State.initial "user_1")) hb hr
    (fun j k hjk hk => lt_of_lt_of_le (by omega) (ht2 j k hjk hk))).2.2 ht2).1⟩

/-- C15 as stated fails.  With the clock standing still (a non-decreasing
sequence of readings) and the draws three quarters then one quarter, both in
[0,1), two messages appended one after the other get the identifiers
t + 3/4 and t + 1/4, which are not increasing.  With the second identifier
taken one millisecond after the first and the draws 1 - 2^-20 and then 0,
both sums round to the same double t + 1: the two identifiers are equal. -/
theorem C15_ids_decrease_or_coincide :
    ((∀ i j, i ≤ j → tiedClock.now i ≤ tiedClock.now j) ∧
      (∀ n, 0 ≤ tiedClock.random n ∧ tiedClock.random n < 1) ∧
      idsOf (runSync Act.apply tiedClock
        (appendAll [(.user, "Hi", none), (.bot, "Hello!", none)])
        (Config.init (State.initial "user_1"))).state.messages
        = [1700000000000 + 3 / 4, 1700000000000 + 1 / 4] ∧
      ¬ (idsOf (runSync Act.apply tiedClock
        (appendAll [(.user, "Hi", none), (.bot, "Hello!", none)])
        (Config.init (State.initial "user_1"))).state.messages).Pairwise (· < ·)) ∧
    ((∀ i j, i ≤ j → nextMillisecond.now i ≤ nextMillisecond.now j) ∧
      nextMillisecond.now 0 < nextMillisecond.now 2 ∧
      (∀ n, 0 ≤ nextMillisecond.random n ∧ nextMillisecond.random n < 1) ∧
      idsOf (runSync Act.apply nextMillisecond
        (appendAll [(.user, "Hi", none), (.bot, "Hello!", none)])
        (Config.init (State.initial "user_1"))).state.messages
        = [1700000000001, 1700000000001] ∧
      ¬ (idsOf (runSync Act.apply nextMillisecond
        (appendAll [(.user, "Hi", none), (.bot, "Hello!", none)])
        (Config.init (State.initial "user_1"))).state.messages).Nodup) := by
  have e1 : jsAdd 1700000000000 (3 / 4) = 1700000000000 + 3 / 4 := by
    have h := binary64_dyadic 6800000000003 (-2) (by norm_num) (by norm_num)
    have e : ((6800000000003 : Int) : ℚ) * (2 : ℚ) ^ (-2 : Int) = 1700000000000 + 3 / 4 := by
      norm_num
    rw [e] at h
    exact h
  have e2 : jsAdd 1700000000000 (1 / 4) = 1700000000000 + 1 / 4 := by
    have h := binary64_dyadic 6800000000001 (-2) (by norm_num) (by norm_num)
    have e : ((6800000000001 : Int) : ℚ) * (2 : ℚ) ^ (-2 : Int) = 1700000000000 + 1 / 4 := by
      norm_num
    rw [e] at h
    exact h
  have e3 : jsAdd 1700000000000 (1048575 / 1048576) = 1700000000001 := by
    have hu : ulp (1700000000000 + 1048575 / 1048576) = (2 : ℚ) ^ (40 - 52 : Int) :=
      ulp_eq _ 40 (by norm_num) (by rw [abs_of_pos (by norm_num)]; norm_num)
        (by rw [abs_of_pos (by norm_num)]; norm_num)
    apply binary64_eq_of_near _ _ (1700000000001 * 4096)
    · rw [hu]
      norm_num
    · rw [hu]
      norm_num [abs_lt]
  have e4 : jsAdd 1700000000001 0 = 1700000000001 := by
    have h := binary64_intCast 1700000000001 (by norm_num)
    simpa [jsAdd] using h
  have hids : idsOf (runSync Act.apply tiedClock
      (appendAll [(.user, "Hi", none), (.bot, "Hello!", none)])
      (Config.init (State.initial "user_1"))).state.messages
      = [1700000000000 + 3 / 4, 1700000000000 + 1 / 4] := by
    rw [runSync_appendAll]
    simp only [stamped, idsOf, tiedClock, Config.init, State.initial, List.nil_append,
      List.map_cons, List.map_nil]
    norm_num
    constructor
    · have h := e1
      norm_num at h
      exact h
    · have h := e2
      norm_num at h
      exact h
  have hids2 : idsOf (runSync Act.apply nextMillisecond
      (appendAll [(.user, "Hi", none), (.bot, "Hello!", none)])
      (Config.init (State.initial "user_1"))).state.messages
      = [1700000000001, 1700000000001] := by
    rw [runSync_appendAll]
    simp only [stamped, idsOf, nextMillisecond, Config.init, State.initial, List.nil_append,
      List.map_cons, List.map_nil]
    norm_num
    exact ⟨e3, e4⟩
  refine ⟨⟨fun _ _ _ => le_refl _, ?_, hids, ?_⟩, ⟨?_, ?_, ?_, hids2, ?_⟩⟩
  · intro n
    by_cases hn : n = 0 <;> simp [tiedClock, hn] <;> norm_num
  · rw [hids]
    norm_num
  · intro i j hij
    simp only [nextMillisecond]
    omega
  · simp [nextMillisecond]
  · intro n
    by_cases hn : n = 0
    · simp only [nextMillisecond, hn, if_true]
      norm_num
    · simp only [nextMillisecond, hn, if_false]
      norm_num
  · rw [hids2]
    simp

end Chatbot

/-! ## `Chatbot.js`: late replies -/

namespace Chatbot

theorem runSync_escalation (env : Env) (hc : Bool) (c : Config State Act Request ChatData) :
    runSync Act.apply env (escalation hc) c =
      { c with log := c.log ++ (if hc then [.act .onResumeUploadRequest] else []) } := by
  cases hc <;> simp [escalation, runSync, Act.apply]

theorem runSync_replyCallback (env : Env) (hc : Bool) (r : BotResponse)
    (c : Config State Act Request ChatData) :
    runSync Act.apply env (replyCallback hc r) c =
      { state := { c.state with
                    messages := c.state.messages ++ [botMessage env c.nNow c.nRandom r],
                    currentStage := r.stage, progress := r.progress.getD 0,
                    suggestions := r.suggestions.getD [], isTyping := false },
        awaiting := c.awaiting,
        timers := c.timers ++
          (if r.action = some "redirect_to_resume_upload" then [(1500, escalation hc)] else []),
        nNow := c.nNow + 2, nRandom := c.nRandom + 1,
        log := c.log ++ [.act (.setIsTyping false),
          .act (.setMessages fun prev => prev ++ [botMessage env c.nNow c.nRandom r]),
          .act (.setCurrentStage r.stage), .act (.setProgress (r.progress.getD 0)),
          .act (.setSuggestions (r.suggestions.getD []))] ++
          (if r.action = some "redirect_to_resume_upload" then [.timerSet 1500] else []) } := by
  have hp : progressOr0 r.progress = r.progress.getD 0 := by
    cases h : r.progress with
    | none => rfl
    | some n => by_cases hn : n = 0 <;> simp [progressOr0, hn]
  have hsg : suggestionsOrEmpty r.suggestions = r.suggestions.getD [] := by
    cases r.suggestions <;> rfl
  unfold replyCallback
  split <;> rename_i h <;>
    simp [addMessage, runSync, Act.apply, botMessage, hp, hsg, h, escalation]

/-- C19, as the code has it: a reply that arrives after `resetChat` is not
discarded.  When `resetChat` is called while the typing-delay timer of a turn
is pending and its reset request succeeds, the transcript is emptied, and the
timer, when it fires, appends the bot message of the old turn to the emptied
transcript and sets stage, progress and suggestions from the old reply.  When
`resetChat` is called while the request of the turn is in flight, the
transcript is emptied, the old reply then sets its timer and the timer does
the same; an old failure appends the error message.  In both cases a reply
whose action is "redirect_to_resume_upload" schedules the call of
`onResumeUploadRequest`. -/
theorem C19_late_reply_applied_after_reset (env : Env) (hasCallback : Bool)
    (arg : Option String) (r : BotResponse) (d : ChatData) (e : AxiosError)
    (c : Config State Act Request ChatData)
    (hmsg : ∃ ch ∈ (arg.getD c.state.inputMessage).data, isJsSpace ch = false)
    (hload : c.state.isLoading = false) :
    let c1 := invoke Act.apply env (sendMessage hasCallback arg) c
    let a2 := deliver Act.apply env c.awaiting.length (.ok ⟨true, r⟩) c1
    let a3 := deliver Act.apply env c.awaiting.length (.ok d)
      (invoke Act.apply env resetChat a2)
    let a4 := fire Act.apply env c.timers.length a3
    let b2 := deliver Act.apply env (c.awaiting.length + 1) (.ok d)
      (invoke Act.apply env resetChat c1)
    let b3 := deliver Act.apply env c.awaiting.length (.ok ⟨true, r⟩) b2
    let b4 := fire Act.apply env c.timers.length b3
    let b3' := deliver Act.apply env c.awaiting.length (.error e) b2
    (a3.state.messages = [] ∧
      (∃ m, a4.state.messages = [m] ∧ m.sender = .bot ∧ m.text = r.message) ∧
      a4.state.currentStage = r.stage ∧ a4.state.progress = r.progress.getD 0 ∧
      a4.state.suggestions = r.suggestions.getD [] ∧
      (r.action = some "redirect_to_resume_upload" →
        a4.timers = c.timers ++ [(1500, escalation hasCallback)])) ∧
    (b2.state.messages = [] ∧ b3.state.messages = [] ∧
      (∃ m, b4.state.messages = [m] ∧ m.sender = .bot ∧ m.text = r.message) ∧
      b4.state.currentStage = r.stage ∧ b4.state.progress = r.progress.getD 0 ∧
      b4.state.suggestions = r.suggestions.getD [] ∧
      (r.action = some "redirect_to_resume_upload" →
        b4.timers = c.timers ++ [(1500, escalation hasCallback)])) ∧
    (∃ m, b3'.state.messages = [m] ∧ m.sender = .bot ∧
      m.text = "Error occurred! Please try again.") := by
  intro c1 a2 a3 a4 b2 b3 b4 b3'
  have h1 : c1 = _ := invoke_sendMessage env hasCallback arg c hmsg hload
  have ha2 : a2 = _ := send_resolved_ok env hasCallback arg r c hmsg hload
  have ha3 : a3 = _ :=
    (congrArg (fun x => deliver Act.apply env c.awaiting.length (.ok d)
      (invoke Act.apply env resetChat x)) ha2).trans (reset_resolved_ok env d _)
  have ha4 : a4 = _ := fire_last Act.apply env a3 c.timers
    (1000 + env.random (c.nRandom + 1) * 1000, replyCallback hasCallback r) (by rw [ha3])
  rw [runSync_replyCallback, ha3] at ha4
  have hb2 : b2 = _ :=
    (congrArg (fun x => deliver Act.apply env (c.awaiting.length + 1) (.ok d)
      (invoke Act.apply env resetChat x)) h1).trans
      ((congrArg (fun n => deliver Act.apply env n (.ok d) _)
        (List.length_append c.awaiting [_]).symm).trans (reset_resolved_ok env d _))
  have hb3 : b3 = _ := deliver_at Act.apply env b2 c.awaiting
    [⟨.chatStart c.state.userId, none, startChatResume⟩]
    ⟨.chatMessage c.state.userId (arg.getD c.state.inputMessage), none,
      sendMessageResume hasCallback⟩ (.ok ⟨true, r⟩) (by rw [hb2]; simp)
  rw [runSync_sendMessageResume_ok, hb2] at hb3
  have hb4 : b4 = _ := fire_last Act.apply env b3 c.timers
    (1000 + env.random (c.nRandom + 1) * 1000, replyCallback hasCallback r) (by rw [hb3])
  rw [runSync_replyCallback, hb3] at hb4
  have hb3' : b3' = _ := deliver_at Act.apply env b2 c.awaiting
    [⟨.chatStart c.state.userId, none, startChatResume⟩]
    ⟨.chatMessage c.state.userId (arg.getD c.state.inputMessage), none,
      sendMessageResume hasCallback⟩ (.error e) (by rw [hb2]; simp)
  rw [runSync_sendMessageResume_error, hb2] at hb3'
  refine ⟨⟨by rw [ha3], ⟨_, by rw [ha4]; rfl, rfl, rfl⟩, by rw [ha4], by rw [ha4], by rw [ha4],
      fun h => by rw [ha4]; simp [h]⟩,
    ⟨by rw [hb2], by rw [hb3], ⟨_, by rw [hb4]; rfl, rfl, rfl⟩, by rw [hb4], by rw [hb4],
      by rw [hb4], fun h => by rw [hb4]; simp [h]⟩,
    ⟨_, by rw [hb3']; rfl, rfl, rfl⟩⟩

/-- C19 at "I like design" sent from a chat offering two quick replies, with
a reply that has no suggestions: after the reset the transcript is the one
old bot message and no quick reply is offered. -/
theorem C19_late_reply_applied_after_reset_witness :
    ((∃ ch ∈ (Option.getD (some "I like design") offering.state.inputMessage).data,
        isJsSpace ch = false) ∧
     offering.state.isLoading = false) ∧
    (deliver Act.apply env0 offering.awaiting.length (.ok ⟨true, greeting⟩)
      (invoke Act.apply env0 resetChat
        (deliver Act.apply env0 offering.awaiting.length (.ok ⟨true, designReply⟩)
          (invoke Act.apply env0 (sendMessage true (some "I like design"))
            offering)))).state.messages = [] ∧
    (fire Act.apply env0 offering.timers.length
      (deliver Act.apply env0 offering.awaiting.length (.ok ⟨true, greeting⟩)
        (invoke Act.apply env0 resetChat
          (deliver Act.apply env0 offering.awaiting.length (.ok ⟨true, designReply⟩)
            (invoke Act.apply env0 (sendMessage true (some "I like design"))
              offering))))).state.currentStage = "recommendation" ∧
    (fire Act.apply env0 offering.timers.length
      (deliver Act.apply env0 offering.awaiting.length (.ok ⟨true, greeting⟩)
        (invoke Act.apply env0 resetChat
          (deliver Act.apply env0 offering.awaiting.length (.ok ⟨true, designReply⟩)
            (invoke Act.apply env0 (sendMessage true (some "I like design"))
              offering))))).state.suggestions = [] := by
  have hmsg : ∃ ch ∈ (Option.getD (some "I like design") offering.state.inputMessage).data,
      isJsSpace ch = false :=
    ⟨'I', by decide, by decide⟩
  have h := C19_late_reply_applied_after_reset env0 true (some "I like design") designReply
    ⟨true, greeting⟩ (AppClean.plainError "Network Error") offering hmsg rfl
  exact ⟨⟨hmsg, rfl⟩, h.1.1, h.1.2.2.1, h.1.2.2.2.2.1⟩

/-- C19 as stated fails: "I like design" is sent, `resetChat` is called while
its request is in flight and the reset succeeds (the transcript is empty);
the old reply then arrives and its timer fires: the transcript of the reset
chat holds the old bot message, the stage and suggestions are the old
reply's, and once the second timer fires `onResumeUploadRequest` has been
called. -/
theorem C19_stale_reply_lands_in_reset_chat :
    textsOf (deliver Act.apply env0 1 (.ok ⟨true, greeting⟩)
      (invoke Act.apply env0 resetChat
        (invoke Act.apply env0 (sendMessage true (some "I like design"))
          offering))).state.messages = [] ∧
    textsOf (fire Act.apply env0 0
      (deliver Act.apply env0 0 (.ok ⟨true, uploadReply⟩)
        (deliver Act.apply env0 1 (.ok ⟨true, greeting⟩)
          (invoke Act.apply env0 resetChat
            (invoke Act.apply env0 (sendMessage true (some "I like design"))
              offering))))).state.messages = [(.bot, "Please upload your resume.")] ∧
    (fire Act.apply env0 0
      (deliver Act.apply env0 0 (.ok ⟨true, uploadReply⟩)
        (deliver Act.apply env0 1 (.ok ⟨true, greeting⟩)
          (invoke Act.apply env0 resetChat
            (invoke Act.apply env0 (sendMessage true (some "I like design"))
              offering))))).state.currentStage = "resume" ∧
    (fire Act.apply env0 0
      (deliver Act.apply env0 0 (.ok ⟨true, uploadReply⟩)
        (deliver Act.apply env0 1 (.ok ⟨true, greeting⟩)
          (invoke Act.apply env0 resetChat
            (invoke Act.apply env0 (sendMessage true (some "I like design"))
              offering))))).state.suggestions = ["Upload"] ∧
    escalationsOf (fire Act.apply env0 0 (fire Act.apply env0 0
      (deliver Act.apply env0 0 (.ok ⟨true, uploadReply⟩)
        (deliver Act.apply env0 1 (.ok ⟨true, greeting⟩)
          (invoke Act.apply env0 resetChat
            (invoke Act.apply env0 (sendMessage true (some "I like design"))
              offering)))))).log = 1 :=
  ⟨rfl, rfl, rfl, rfl, rfl⟩

end Chatbot

/-! ## Requests a program can issue: facts -/

section SendsFacts

variable {S W Q A : Type}

theorem issuedOf_append (l₁ l₂ : List (Event W Q A)) :
    issuedOf (l₁ ++ l₂) = issuedOf l₁ ++ issuedOf l₂ := by
  induction l₁ with
  | nil => rfl
  | cons e l ih => cases e <;> simp [issuedOf, ih]

theorem Prog.Sends.seq {P : Q → Prop} {p q : Prog W Q A} (hp : Prog.Sends P p)
    (hq : Prog.Sends P q) : Prog.Sends P (Prog.seq p q) := by
  induction hp with
  | done => exact hq
  | throw e => exact .throw e
  | write w _ ih => exact .write w ih
  | await hq' _ ih => exact .await hq' ih
  | awaitUp hq' hcb _ _ ih => exact .awaitUp hq' hcb ih
  | now _ ih => exact .now ih
  | random _ ih => exact .random ih
  | timer d hcb _ _ ih => exact .timer d hcb ih

theorem Prog.Sends.tryCatch {P : Q → Prop} {p : Prog W Q A} {h : AxiosError → Prog W Q A}
    (hp : Prog.Sends P p) (hh : ∀ e, Prog.Sends P (h e)) :
    Prog.Sends P (Prog.tryCatch p h) := by
  induction hp with
  | done => exact .done
  | throw e => exact hh e
  | write w _ ih => exact .write w ih
  | await hq' _ ih => exact .await hq' ih
  | awaitUp hq' hcb _ _ ih => exact .awaitUp hq' hcb ih
  | now _ ih => exact .now ih
  | random _ ih => exact .random ih
  | timer d hcb _ _ ih => exact .timer d hcb ih

theorem Prog.Sends.tryFinally {P : Q → Prop} {p f : Prog W Q A} (hp : Prog.Sends P p)
    (hf : Prog.Sends P f) : Prog.Sends P (Prog.tryFinally p f) := by
  induction hp with
  | done => exact hf
  | throw e => exact Prog.Sends.seq hf (.throw e)
  | write w _ ih => exact .write w ih
  | await hq' _ ih => exact .await hq' ih
  | awaitUp hq' hcb _ _ ih => exact .awaitUp hq' hcb ih
  | now _ ih => exact .now ih
  | random _ ih => exact .random ih
  | timer d hcb _ _ ih => exact .timer d hcb ih

theorem Prog.Sends.post {P : Q → Prop} {q : Q} {k : A → Prog W Q A} (hq : P q)
    (hk : ∀ a, Prog.Sends P (k a)) : Prog.Sends P (Prog.post q k) := by
  refine .await hq (fun x => ?_)
  cases x with
  | ok a => exact hk a
  | error e => exact .throw e

theorem runSync_sends (apply : W → S → S) (env : Env) {P : Q → Prop} {p : Prog W Q A}
    (hp : Prog.Sends P p) (c : Config S W Q A) (hc : c.Sends P) :
    (runSync apply env p c).Sends P := by
  induction hp generalizing c with
  | done => exact hc
  | throw e =>
    refine ⟨hc.1, hc.2.1, ?_⟩
    intro q hq
    simp only [runSync, issuedOf_append, issuedOf, List.append_nil] at hq
    exact hc.2.2 q hq
  | write w _ ih =>
    apply ih
    refine ⟨hc.1, hc.2.1, ?_⟩
    intro q hq
    simp only [issuedOf_append, issuedOf, List.append_nil] at hq
    exact hc.2.2 q hq
  | @await q k hq hk _ =>
    refine ⟨?_, hc.2.1, ?_⟩
    · intro p hp
      simp only [runSync, List.mem_append, List.mem_singleton] at hp
      rcases hp with hp | rfl
      · exact hc.1 p hp
      · exact ⟨hk, fun cb h => by simp at h⟩
    · intro q' hq'
      simp only [runSync, issuedOf_append, issuedOf, List.mem_append, List.mem_singleton] at hq'
      rcases hq' with h | rfl
      · exact hc.2.2 _ h
      · exact hq
  | @awaitUp q cb k hq hcb hk _ _ =>
    refine ⟨?_, hc.2.1, ?_⟩
    · intro p hp
      simp only [runSync, List.mem_append, List.mem_singleton] at hp
      rcases hp with hp | rfl
      · exact hc.1 p hp
      · refine ⟨hk, fun cb' h => ?_⟩
        simp only [Option.some.injEq] at h
        subst h
        exact hcb
    · intro q' hq'
      simp only [runSync, issuedOf_append, issuedOf, List.mem_append, List.mem_singleton] at hq'
      rcases hq' with h | rfl
      · exact hc.2.2 _ h
      · exact hq
  | now _ ih => exact ih _ _ hc
  | random _ ih => exact ih _ _ hc
  | timer d hcb _ _ ih =>
    apply ih
    refine ⟨hc.1, ?_, ?_⟩
    · intro t ht
      simp only [List.mem_append, List.mem_singleton] at ht
      rcases ht with ht | rfl
      · exact hc.2.1 t ht
      · exact hcb
    · intro q hq
      simp only [issuedOf_append, issuedOf, List.append_nil] at hq
      exact hc.2.2 q hq

theorem deliver_sends (apply : W → S → S) (env : Env) {P : Q → Prop} (i : Nat)
    (r : Except AxiosError A) (c : Config S W Q A) (hc : c.Sends P) :
    (deliver apply env i r c).Sends P := by
  unfold deliver
  cases h : c.awaiting.get? i with
  | none => exact hc
  | some p =>
    have hp : p ∈ c.awaiting := List.get?_mem h
    apply runSync_sends apply env ((hc.1 p hp).1 r)
    refine ⟨fun p' hp' => hc.1 p' (List.mem_of_mem_eraseIdx hp'), hc.2.1, ?_⟩
    intro q hq
    simp only [issuedOf_append, issuedOf, List.append_nil] at hq
    exact hc.2.2 q hq

theorem fire_sends (apply : W → S → S) (env : Env) {P : Q → Prop} (j : Nat)
    (c : Config S W Q A) (hc : c.Sends P) :
    (fire apply env j c).Sends P := by
  unfold fire
  cases h : c.timers.get? j with
  | none => exact hc
  | some t =>
    have ht : t ∈ c.timers := List.get?_mem h
    apply runSync_sends apply env (hc.2.1 t ht)
    refine ⟨hc.1, fun t' ht' => hc.2.1 t' (List.mem_of_mem_eraseIdx ht'), ?_⟩
    intro q hq
    simp only [issuedOf_append, issuedOf, List.append_nil] at hq
    exact hc.2.2 q hq

theorem runSync_keeps {β : Type} (apply : W → S → S) (env : Env) (proj : S → β)
    (hkeep : ∀ w s, proj (apply w s) = proj s) (p : Prog W Q A) (c : Config S W Q A) :
    proj (runSync apply env p c).state = proj c.state := by
  induction p generalizing c with
  | done => rfl
  | throw e => rfl
  | write w k ih => simp only [runSync]; rw [ih]; exact hkeep w c.state
  | await q k _ => rfl
  | awaitUp q cb k _ _ => rfl
  | now k ih => simp only [runSync]; rw [ih]
  | random k ih => simp only [runSync]; rw [ih]
  | timer d cb k _ ih => simp only [runSync]; rw [ih]

theorem deliver_keeps {β : Type} (apply : W → S → S) (env : Env) (proj : S → β)
    (hkeep : ∀ w s, proj (apply w s) = proj s) (i : Nat) (r : Except AxiosError A)
    (c : Config S W Q A) :
    proj (deliver apply env i r c).state = proj c.state := by
  unfold deliver
  cases c.awaiting.get? i with
  | none => rfl
  | some p => simp only; rw [runSync_keeps apply env proj hkeep]

theorem fire_keeps {β : Type} (apply : W → S → S) (env : Env) (proj : S → β)
    (hkeep : ∀ w s, proj (apply w s) = proj s) (j : Nat) (c : Config S W Q A) :
    proj (fire apply env j c).state = proj c.state := by
  unfold fire
  cases c.timers.get? j with
  | none => rfl
  | some t => simp only; rw [runSync_keeps apply env proj hkeep]

end SendsFacts

/-! ## `Chatbot.js`: the session identifier -/

namespace Chatbot

theorem act_keeps_userId (w : Act) (s : State) : (Act.apply w s).userId = s.userId := by
  cases w <;> rfl

theorem addMessage_sends {P : Request → Prop} (sender : Sender) (text : String)
    (metadata : Option BotResponse) {k : Prog Act Request ChatData} (hk : Prog.Sends P k) :
    Prog.Sends P (addMessage sender text metadata k) :=
  .now fun _ => .random fun _ => .now fun _ => .write _ hk

theorem escalation_sends {P : Request → Prop} (hc : Bool) : Prog.Sends P (escalation hc) := by
  cases hc
  · exact .done
  · exact .write _ .done

theorem replyCallback_sends {P : Request → Prop} (hc : Bool) (r : BotResponse) :
    Prog.Sends P (replyCallback hc r) := by
  unfold replyCallback
  refine .write _ (addMessage_sends _ _ _ (.write _ (.write _ (.write _ ?_))))
  split
  · exact .timer _ (escalation_sends hc) .done
  · exact .done

theorem startChatSession_sends (s : State) :
    Prog.Sends (fun q => q.userId = s.userId) (startChatSession s) := by
  unfold startChatSession
  refine Prog.Sends.tryFinally (Prog.Sends.tryCatch (.write _ (Prog.Sends.post rfl ?_)) ?_)
    (.write _ .done)
  · intro data
    split
    · exact addMessage_sends _ _ _ (.write _ (.write _ (.write _ .done)))
    · exact .done
  · intro e
    exact addMessage_sends _ _ _ .done

theorem sendMessage_sends (hc : Bool) (arg : Option String) (s : State) :
    Prog.Sends (fun q => q.userId = s.userId) (sendMessage hc arg s) := by
  unfold sendMessage
  simp only
  split
  · exact .done
  · refine addMessage_sends _ _ _ (.write _ (.write _ (.write _
      (Prog.Sends.tryFinally (Prog.Sends.tryCatch (Prog.Sends.post rfl ?_) ?_)
        (.write _ .done)))))
    · intro data
      split
      · exact .random fun _ => .timer _ (replyCallback_sends hc _) .done
      · exact .done
    · intro e
      exact .write _ (addMessage_sends _ _ _ .done)

theorem resetChat_sends (s : State) :
    Prog.Sends (fun q => q.userId = s.userId) (resetChat s) := by
  unfold resetChat
  refine Prog.Sends.tryCatch (Prog.Sends.post rfl ?_) ?_
  · intro _
    exact .write _ (.write _ (.write _ (.write _ (startChatSession_sends s))))
  · intro e
    exact .write _ .done

theorem invoke_sends (env : Env) (u : String) (handler : State → Prog Act Request ChatData)
    (hh : ∀ s, Prog.Sends (fun q => q.userId = s.userId) (handler s))
    (c : Config State Act Request ChatData) (hu : c.state.userId = u)
    (hc : c.Sends (fun q => q.userId = u)) :
    (invoke Act.apply env handler c).state.userId = u ∧
    (invoke Act.apply env handler c).Sends (fun q => q.userId = u) := by
  unfold invoke
  refine ⟨(runSync_keeps Act.apply env State.userId act_keeps_userId _ c).trans hu, ?_⟩
  have := hh c.state
  rw [hu] at this
  exact runSync_sends Act.apply env this c hc

theorem reach_userId (env : Env) (hc : Bool) (u : String) (pol : Policy)
    (c : Config State Act Request ChatData) (h : Reach env hc u pol c) :
    c.state.userId = u ∧ c.Sends (fun q => q.userId = u) := by
  induction h with
  | mount =>
    exact invoke_sends env u startChatSession startChatSession_sends _ rfl
      ⟨fun _ h => by simp [Config.init] at h, fun _ h => by simp [Config.init] at h,
       fun _ h => by simp [Config.init, issuedOf] at h⟩
  | send arg _ _ ih =>
    exact invoke_sends env u _ (sendMessage_sends hc arg) _ ih.1 ih.2
  | respond i r _ _ ih =>
    exact ⟨(deliver_keeps Act.apply env State.userId act_keeps_userId i r _).trans ih.1,
      deliver_sends Act.apply env i r _ ih.2⟩
  | tick j _ ih =>
    exact ⟨(fire_keeps Act.apply env State.userId act_keeps_userId j _).trans ih.1,
      fire_sends Act.apply env j _ ih.2⟩
  | reset _ _ ih =>
    exact invoke_sends env u _ resetChat_sends _ ih.1 ih.2

/-- C17, as the code has it: in every configuration a mounted chat reaches
by any calls of `sendMessage` and `resetChat`, requests resolving with any
outcome and timers firing, the `userId` in the state is the one generated at
the mount, and every request issued so far (`/chat/start`, `/chat/message`,
`/chat/reset`) carries it: `resetChat` does not replace it. -/
theorem C17_userId_never_changes (env : Env) (hasCallback : Bool) (userId : String)
    (c : Config State Act Request ChatData)
    (h : Reach env hasCallback userId anyPolicy c) :
    c.state.userId = userId ∧ ∀ q ∈ issuedOf c.log, q.userId = userId :=
  have h' := reach_userId env hasCallback userId anyPolicy c h
  ⟨h'.1, h'.2.2.2⟩

/-- C17 at a session with a turn, a reset and a turn after it. -/
theorem C17_userId_never_changes_witness :
    Reach env0 true "user_1" anyPolicy resetSession ∧
    resetSession.state.userId = "user_1" ∧
    ∀ q ∈ issuedOf resetSession.log, q.userId = "user_1" :=
  have h : Reach env0 true "user_1" anyPolicy resetSession :=
    .send _ (.respond _ _ (.respond _ _ (.reset (.tick _ (.respond _ _ (.send _
      (.respond _ _ .mount trivial) trivial) trivial)) trivial) trivial) trivial) trivial
  ⟨h, C17_userId_never_changes env0 true "user_1" resetSession h⟩

/-- C17 as stated fails: in a session mounted with the identifier "user_1",
with one turn, a `resetChat` whose request succeeds, the new greeting and a
message after it, the requests issued after the reset carry "user_1", the
identifier of the requests before it. -/
theorem C17_same_userId_after_reset :
    issuedOf resetSession.log =
      [.chatStart "user_1", .chatMessage "user_1" "Hi", .chatReset "user_1",
       .chatStart "user_1", .chatMessage "user_1" "Again"] ∧
    (issuedOf resetSession.log).map Request.userId =
      ["user_1", "user_1", "user_1", "user_1", "user_1"] :=
  ⟨rfl, rfl⟩

end Chatbot

/-! ## `Chatbot.js`: requests in flight -/

namespace Chatbot

theorem guard_cases (arg : Option String) (s : State) :
    ((∀ ch ∈ (arg.getD s.inputMessage).data, isJsSpace ch = true) ∨ s.isLoading = true) ∨
    ((∃ ch ∈ (arg.getD s.inputMessage).data, isJsSpace ch = false) ∧ s.isLoading = false) := by
  by_cases h : ∀ ch ∈ (arg.getD s.inputMessage).data, isJsSpace ch = true
  · exact .inl (.inl h)
  · cases hl : s.isLoading
    · right
      push_neg at h
      obtain ⟨ch, hch, hne⟩ := h
      exact ⟨⟨ch, hch, by simpa using hne⟩, rfl⟩
    · exact .inl (.inr rfl)

theorem invoke_sendMessage_blocked (env : Env) (hc : Bool) (arg : Option String)
    (c : Config State Act Request ChatData)
    (h : (∀ ch ∈ (arg.getD c.state.inputMessage).data, isJsSpace ch = true) ∨
      c.state.isLoading = true) :
    invoke Act.apply env (sendMessage hc arg) c = c := by
  rw [invoke, sendMessage_blocked hc arg c.state h]
  rfl

theorem runSync_known_resume (env : Env) (hc : Bool)
    (k : Except AxiosError ChatData → Prog Act Request ChatData)
    (hk : k = startChatResume ∨ k = sendMessageResume hc) (r : Except AxiosError ChatData)
    (c : Config State Act Request ChatData) :
    (runSync Act.apply env (k r) c).awaiting = c.awaiting ∧
    (runSync Act.apply env (k r) c).state.isLoading = false ∧
    (∀ t ∈ (runSync Act.apply env (k r) c).timers, t ∈ c.timers ∨ KnownTimer hc t.2) := by
  rcases hk with rfl | rfl
  · cases r with
    | error e => rw [runSync_startChatResume_error]; exact ⟨rfl, rfl, fun t ht => .inl ht⟩
    | ok d =>
      obtain ⟨success, g⟩ := d
      cases success
      · rw [runSync_startChatResume_unsuccessful]; exact ⟨rfl, rfl, fun t ht => .inl ht⟩
      · rw [runSync_startChatResume_ok]; exact ⟨rfl, rfl, fun t ht => .inl ht⟩
  · cases r with
    | error e => rw [runSync_sendMessageResume_error]; exact ⟨rfl, rfl, fun t ht => .inl ht⟩
    | ok d =>
      obtain ⟨success, g⟩ := d
      cases success
      · rw [runSync_sendMessageResume_unsuccessful]
        exact ⟨rfl, rfl, fun t ht => .inl ht⟩
      · rw [runSync_sendMessageResume_ok]
        refine ⟨rfl, rfl, fun t ht => ?_⟩
        simp only [List.mem_append, List.mem_singleton] at ht
        rcases ht with ht | rfl
        · exact .inl ht
        · exact .inr (.inr ⟨g, rfl⟩)

theorem runSync_known_timer (env : Env) (hc : Bool) (p : Prog Act Request ChatData)
    (hp : KnownTimer hc p) (c : Config State Act Request ChatData) :
    (runSync Act.apply env p c).awaiting = c.awaiting ∧
    (runSync Act.apply env p c).state.isLoading = c.state.isLoading ∧
    (∀ t ∈ (runSync Act.apply env p c).timers, t ∈ c.timers ∨ KnownTimer hc t.2) := by
  rcases hp with rfl | ⟨r, rfl⟩
  · rw [runSync_escalation]; exact ⟨rfl, rfl, fun t ht => .inl ht⟩
  · rw [runSync_replyCallback]
    refine ⟨rfl, rfl, fun t ht => ?_⟩
    simp only [List.mem_append] at ht
    rcases ht with ht | ht
    · exact .inl ht
    · split at ht
      · simp only [List.mem_singleton] at ht
        subst ht
        exact .inr (.inl rfl)
      · simp at ht

theorem reach_guarded (env : Env) (hc : Bool) (u : String)
    (c : Config State Act Request ChatData) (h : Reach env hc u noResetPolicy c) :
    Guarded hc c := by
  induction h with
  | mount =>
    rw [mounted, invoke_startChatSession]
    exact ⟨fun t ht => by simp [Config.init] at ht,
      .inr ⟨.chatStart u, startChatResume, rfl, rfl, .inl rfl⟩⟩
  | @send arg c _ _ ih =>
    rcases guard_cases arg c.state with hb | ⟨hmsg, hload⟩
    · rw [invoke_sendMessage_blocked env hc arg c hb]; exact ih
    · rw [invoke_sendMessage env hc arg c hmsg hload]
      refine ⟨ih.1, .inr ⟨.chatMessage c.state.userId (arg.getD c.state.inputMessage),
        sendMessageResume hc, ?_, rfl, .inr rfl⟩⟩
      rcases ih.2 with h0 | ⟨q, k, _, hl, _⟩
      · simp [h0]
      · rw [hload] at hl; cases hl
  | @respond i r c _ _ ih =>
    rcases ih.2 with h0 | ⟨q, k, hq, hl, hk⟩
    · rw [deliver_none Act.apply env c i r (by simp [h0])]; exact ih
    · cases i with
      | zero =>
        have hd := deliver_last Act.apply env c [] ⟨q, none, k⟩ r (by simpa using hq)
        simp only [List.length_nil] at hd
        rw [hd]
        obtain ⟨h1, _, h3⟩ := runSync_known_resume env hc k hk r
          { c with awaiting := [], log := c.log ++ [.resolve q r] }
        refine ⟨fun t ht => ?_, .inl h1⟩
        rcases h3 t ht with h | h
        · exact ih.1 t h
        · exact h
      | succ n =>
        rw [deliver_none Act.apply env c (n + 1) r (by simp [hq])]; exact ih
  | @tick j c _ ih =>
    unfold fire
    cases hj : c.timers.get? j with
    | none => exact ih
    | some t =>
      have ht : t ∈ c.timers := List.get?_mem hj
      obtain ⟨h1, h2, h3⟩ := runSync_known_timer env hc t.2 (ih.1 t ht)
        { c with timers := c.timers.eraseIdx j, log := c.log ++ [.timerFire t.1] }
      refine ⟨fun t' ht' => ?_, ?_⟩
      · rcases h3 t' ht' with h | h
        · exact ih.1 t' (List.mem_of_mem_eraseIdx h)
        · exact h
      · rcases ih.2 with h0 | ⟨q, k, hq, hl, hk⟩
        · exact .inl (h1.trans h0)
        · exact .inr ⟨q, k, h1.trans hq, h2.trans hl, hk⟩
  | reset _ hr _ => exact hr.elim

/-- C14, as the code has it: in every configuration a mounted chat reaches
by calls of `sendMessage`, requests resolving with any outcome and timers
firing, with no call of `resetChat`, at most one request is in flight, and
`isLoading` is true whenever one is. -/
theorem C14_one_request_in_flight_without_reset (env : Env) (hasCallback : Bool)
    (userId : String) (c : Config State Act Request ChatData)
    (h : Reach env hasCallback userId noResetPolicy c) :
    c.awaiting.length ≤ 1 ∧ (c.awaiting ≠ [] → c.state.isLoading = true) := by
  rcases (reach_guarded env hasCallback userId c h).2 with h0 | ⟨q, k, hq, hl, _⟩
  · simp [h0]
  · simp [hq, hl]

/-- C14 at a session with overlapping turns and no reset. -/
theorem C14_one_request_in_flight_without_reset_witness :
    Reach env0 true "user_1" noResetPolicy overlapping ∧
    overlapping.awaiting.length ≤ 1 ∧
    (overlapping.awaiting ≠ [] → overlapping.state.isLoading = true) :=
  have h : Reach env0 true "user_1" noResetPolicy overlapping :=
    .tick _ (.respond _ _ (.tick _ (.send _ (.respond _ _ (.send _
      (.respond _ _ .mount trivial) trivial) trivial) trivial)) trivial)
  ⟨h, C14_one_request_in_flight_without_reset env0 true "user_1" overlapping h⟩

/-- C14 as stated fails: `resetChat` called while the request of "Hi" is in
flight puts a second request in flight; and `resetChat` called on a chat at
rest has its request in flight with `isLoading` false. -/
theorem C14_reset_request_is_unguarded :
    Reach env0 true "user_1" anyPolicy resetWhileSending ∧
    resetWhileSending.awaiting.length = 2 ∧
    Reach env0 true "user_1" anyPolicy (invoke Act.apply env0 resetChat greeted) ∧
    (invoke Act.apply env0 resetChat greeted).awaiting.length = 1 ∧
    (invoke Act.apply env0 resetChat greeted).state.isLoading = false :=
  ⟨.reset (.send _ (.respond _ _ .mount trivial) trivial) trivial, rfl,
   .reset (.respond _ _ .mount trivial) trivial, rfl, rfl⟩

end Chatbot

/-! ## `Chatbot.js`: the order of the transcript -/

namespace Chatbot

theorem Turns.head_ne_user {l : List Sender} (h : Turns l) : l.head? ≠ some .user := by
  cases h <;> simp

theorem Turns.no_user_user {l : List Sender} (h : Turns l) :
    ¬ [Sender.user, .user] <:+: l ∧ ¬ [Sender.user, .user] <:+: .user :: l := by
  induction h with
  | nil => simp [List.infix_cons_iff]
  | greet => simp [List.infix_cons_iff]
  | turn _ ih => simp [List.infix_cons_iff, ih.1, ih.2]

theorem Turns.no_bot_bot_user {l : List Sender} (h : Turns l) :
    ¬ [Sender.bot, .bot, .user] <:+: l ∧ ¬ [Sender.bot, .bot, .user] <:+: .user :: l := by
  induction h with
  | nil => simp [List.infix_cons_iff]
  | greet => simp [List.infix_cons_iff]
  | turn _ ih => simp [List.infix_cons_iff, ih.1, ih.2]

theorem sendersOf_append_reverse (l : List Message) (m : Message) :
    (sendersOf (l ++ [m])).reverse = m.sender :: (sendersOf l).reverse := by
  simp [sendersOf]

theorem fire_cases (env : Env) (j : Nat) (c : Config State Act Request ChatData) :
    fire Act.apply env j c = c ∨
    ∃ l l' t, c.timers = l ++ t :: l' ∧
      fire Act.apply env j c =
        runSync Act.apply env t.2
          { c with timers := l ++ l', log := c.log ++ [.timerFire t.1] } := by
  by_cases hj : j < c.timers.length
  · right
    refine ⟨c.timers.take j, c.timers.drop (j + 1), c.timers[j], ?_, ?_⟩
    · simp
    · have := fire_at Act.apply env c (c.timers.take j) (c.timers.drop (j + 1)) c.timers[j]
        (by simp)
      rwa [List.length_take, Nat.min_eq_left (Nat.le_of_lt hj)] at this
  · left
    exact fire_none Act.apply env c j (Nat.le_of_not_lt hj)

theorem fire_all_escalation (env : Env) (hc : Bool) (j : Nat)
    (c : Config State Act Request ChatData)
    (ht : ∀ t ∈ c.timers, t.2 = escalation hc) :
    (fire Act.apply env j c).state = c.state ∧
    (fire Act.apply env j c).awaiting = c.awaiting ∧
    (∀ t ∈ (fire Act.apply env j c).timers, t.2 = escalation hc) := by
  rcases fire_cases env j c with h | ⟨l, l', t, hl, h⟩
  · rw [h]; exact ⟨rfl, rfl, ht⟩
  · rw [h, ht t (by simp [hl]), runSync_escalation]
    refine ⟨rfl, rfl, fun t' ht' => ht t' ?_⟩
    simp only [List.mem_append] at ht'
    rw [hl]
    simp only [List.mem_append, List.mem_cons]
    tauto

theorem reach_orderly (env : Env) (hc : Bool) (u : String)
    (c : Config State Act Request ChatData) (h : Reach env hc u (orderlyPolicy hc) c) :
    Orderly hc c := by
  induction h with
  | mount =>
    rw [mounted, invoke_startChatSession]
    exact .inr (.inl ⟨⟨u, rfl⟩, rfl, fun t ht => by simp [Config.init] at ht, rfl⟩)
  | @send arg c _ hok ih =>
    rcases guard_cases arg c.state with hb | ⟨hmsg, hload⟩
    · rw [invoke_sendMessage_blocked env hc arg c hb]; exact ih
    · rcases ih with ⟨h0, ht, hturns⟩ | ⟨_, hl, _⟩ | ⟨_, hl, _⟩ | ⟨_, ⟨l₁, l₂, d, r, htm, _⟩, _⟩
      · rw [invoke_sendMessage env hc arg c hmsg hload]
        refine .inr (.inr (.inl ⟨⟨.chatMessage c.state.userId (arg.getD c.state.inputMessage),
          by simp [h0]⟩, rfl, ht, _, hturns, ?_⟩))
        exact sendersOf_append_reverse _ _
      · rw [hload] at hl; cases hl
      · rw [hload] at hl; cases hl
      · exact absurd rfl (hok (d, replyCallback hc r) (by simp [htm]) r)
  | @respond i r c _ hok ih =>
    rcases ih with ⟨h0, ht, hturns⟩ | ⟨⟨u', hq⟩, hl, ht, hm⟩ | ⟨⟨q, hq⟩, hl, ht, l, hturns, hrev⟩ |
      ⟨h0, htm, hturns⟩
    · rw [deliver_none Act.apply env c i r (by simp [h0])]
      exact .inl ⟨h0, ht, hturns⟩
    · cases i with
      | succ n =>
        rw [deliver_none Act.apply env c (n + 1) r (by simp [hq])]
        exact .inr (.inl ⟨⟨u', hq⟩, hl, ht, hm⟩)
      | zero =>
        have hd := deliver_last Act.apply env c [] ⟨.chatStart u', none, startChatResume⟩ r
          (by simpa using hq)
        simp only [List.length_nil] at hd
        rw [hd]
        cases r with
        | error e =>
          rw [runSync_startChatResume_error]
          refine .inl ⟨rfl, ht, ?_⟩
          simp only [hm, List.nil_append, sendersOf, List.map_cons, List.map_nil,
            List.reverse_cons, List.reverse_nil]
          exact Turns.greet
        | ok data =>
          obtain ⟨success, g⟩ := data
          cases success
          · rw [runSync_startChatResume_unsuccessful]
            refine .inl ⟨rfl, ht, ?_⟩
            simp only [hm, sendersOf, List.map_nil, List.reverse_nil]
            exact Turns.nil
          · rw [runSync_startChatResume_ok]
            refine .inl ⟨rfl, ht, ?_⟩
            simp only [hm, List.nil_append, sendersOf, List.map_cons, List.map_nil,
              List.reverse_cons, List.reverse_nil]
            exact Turns.greet
    · cases i with
      | succ n =>
        rw [deliver_none Act.apply env c (n + 1) r (by simp [hq])]
        exact .inr (.inr (.inl ⟨⟨q, hq⟩, hl, ht, l, hturns, hrev⟩))
      | zero =>
        have hd := deliver_last Act.apply env c [] ⟨q, none, sendMessageResume hc⟩ r
          (by simpa using hq)
        simp only [List.length_nil] at hd
        rw [hd]
        cases r with
        | error e =>
          rw [runSync_sendMessageResume_error]
          refine .inl ⟨rfl, ht, ?_⟩
          show Turns (sendersOf (c.state.messages ++ [_])).reverse
          rw [sendersOf_append_reverse, hrev]
          exact Turns.turn hturns
        | ok data =>
          obtain ⟨success, g⟩ := data
          cases success
          · exact absurd rfl (hok g)
          · rw [runSync_sendMessageResume_ok]
            refine .inr (.inr (.inr ⟨rfl, ⟨c.timers, [], _, g, rfl, ?_⟩, l, hturns, hrev⟩))
            simpa using ht
    · rw [deliver_none Act.apply env c i r (by simp [h0])]
      exact .inr (.inr (.inr ⟨h0, htm, hturns⟩))
  | @tick j c _ ih =>
    rcases ih with ⟨h0, ht, hturns⟩ | ⟨hq, hl, ht, hm⟩ | ⟨hq, hl, ht, hturns⟩ |
      ⟨h0, ⟨l₁, l₂, d, r, htm, hesc⟩, l, hturns, hrev⟩
    · obtain ⟨hs, ha, ht'⟩ := fire_all_escalation env hc j c ht
      exact .inl ⟨ha.trans h0, ht', by rw [hs]; exact hturns⟩
    · obtain ⟨hs, ha, ht'⟩ := fire_all_escalation env hc j c ht
      exact .inr (.inl ⟨by rw [ha]; exact hq, by rw [hs]; exact hl, ht', by rw [hs]; exact hm⟩)
    · obtain ⟨hs, ha, ht'⟩ := fire_all_escalation env hc j c ht
      exact .inr (.inr (.inl ⟨by rw [ha]; exact hq, by rw [hs]; exact hl, ht',
        by rw [hs]; exact hturns⟩))
    · rcases fire_cases env j c with h | ⟨m₁, m₂, t, hl, h⟩
      · rw [h]; exact .inr (.inr (.inr ⟨h0, ⟨l₁, l₂, d, r, htm, hesc⟩, l, hturns, hrev⟩))
      · rw [h]
        have hreply : runSync Act.apply env (replyCallback hc r)
              { c with timers := l₁ ++ l₂, log := c.log ++ [.timerFire d] } |> Orderly hc := by
          rw [runSync_replyCallback]
          refine .inl ⟨h0, ?_, ?_⟩
          · intro t' ht'
            simp only [List.mem_append] at ht'
            rcases ht' with ht' | ht'
            · exact hesc t' (by simpa using ht')
            · split at ht'
              · simp only [List.mem_singleton] at ht'
                rw [ht']
              · simp at ht'
          · show Turns (sendersOf (c.state.messages ++ [_])).reverse
            rw [sendersOf_append_reverse, hrev]
            exact Turns.turn hturns
        have hsplit := htm.symm.trans hl
        rw [List.append_eq_append_iff] at hsplit
        rcases hsplit with ⟨a, hm₁, ha⟩ | ⟨a, hl₁, ha⟩
        · cases a with
          | nil =>
            simp only [List.nil_append, List.cons.injEq] at ha
            simp only [List.append_nil] at hm₁
            obtain ⟨rfl, rfl⟩ := ha
            subst hm₁
            exact hreply
          | cons y a =>
            simp only [List.cons_append, List.cons.injEq] at ha
            obtain ⟨rfl, rfl⟩ := ha
            subst hm₁
            rw [hesc t (by simp), runSync_escalation]
            refine .inr (.inr (.inr ⟨h0, ⟨l₁, a ++ m₂, d, r, by simp, ?_⟩, l, hturns, hrev⟩))
            intro t' ht'
            apply hesc t'
            simp only [List.mem_append, List.mem_cons] at ht' ⊢
            tauto
        · cases a with
          | nil =>
            simp only [List.nil_append, List.cons.injEq] at ha
            simp only [List.append_nil] at hl₁
            obtain ⟨rfl, rfl⟩ := ha
            subst hl₁
            exact hreply
          | cons y a =>
            simp only [List.cons_append, List.cons.injEq] at ha
            obtain ⟨rfl, rfl⟩ := ha
            subst hl₁
            rw [hesc t (by simp), runSync_escalation]
            refine .inr (.inr (.inr ⟨h0, ⟨m₁ ++ a, l₂, d, r, by simp, ?_⟩, l, hturns, hrev⟩))
            intro t' ht'
            apply hesc t'
            simp only [List.mem_append, List.mem_cons] at ht' ⊢
            tauto
  | reset _ hr _ => exact hr.elim

/-- C13, as the code has it: in every configuration a mounted chat reaches
by calls of `sendMessage`, requests resolving and timers firing, when
`sendMessage` is never called while a typing-delay timer is pending (and
leaving out responses whose `success` flag is unset and calls of
`resetChat`), the transcript has no two user messages next to each other and
no user message followed by two bot messages; and a user message is last in
it only while its turn is unresolved, its request in flight or its
typing-delay timer pending. -/
theorem C13_turns_alternate_without_overlap (env : Env) (hasCallback : Bool)
    (userId : String) (c : Config State Act Request ChatData)
    (h : Reach env hasCallback userId (orderlyPolicy hasCallback) c) :
    ¬ [Sender.user, .user] <:+: sendersOf c.state.messages ∧
    ¬ [Sender.user, .bot, .bot] <:+: sendersOf c.state.messages ∧
    ((sendersOf c.state.messages).getLast? = some .user →
      c.awaiting ≠ [] ∨ ∃ t ∈ c.timers, ∃ r, t.2 = replyCallback hasCallback r) := by
  have key : ∃ l, Turns l ∧
      (((sendersOf c.state.messages).reverse = l) ∨
       ((sendersOf c.state.messages).reverse = .user :: l ∧
        (c.awaiting ≠ [] ∨ ∃ t ∈ c.timers, ∃ r, t.2 = replyCallback hasCallback r))) := by
    rcases reach_orderly env hasCallback userId c h with ⟨_, _, ht⟩ | ⟨_, _, _, hm⟩ |
      ⟨⟨q, hq⟩, _, _, l, hl, hrev⟩ | ⟨_, ⟨l₁, l₂, d, r, htm, _⟩, l, hl, hrev⟩
    · exact ⟨_, ht, .inl rfl⟩
    · exact ⟨[], .nil, .inl (by simp [hm, sendersOf])⟩
    · exact ⟨l, hl, .inr ⟨hrev, .inl (by simp [hq])⟩⟩
    · exact ⟨l, hl, .inr ⟨hrev, .inr ⟨(d, replyCallback hasCallback r), by simp [htm], r, rfl⟩⟩⟩
  obtain ⟨l, hl, hshape⟩ := key
  have huu : ¬ [Sender.user, .user] <:+: (sendersOf c.state.messages).reverse := by
    rcases hshape with h1 | ⟨h1, _⟩ <;> rw [h1]
    · exact hl.no_user_user.1
    · exact hl.no_user_user.2
  have hbb : ¬ [Sender.bot, .bot, .user] <:+: (sendersOf c.state.messages).reverse := by
    rcases hshape with h1 | ⟨h1, _⟩ <;> rw [h1]
    · exact hl.no_bot_bot_user.1
    · exact hl.no_bot_bot_user.2
  refine ⟨fun hin => huu ?_, fun hin => hbb ?_, fun hlast => ?_⟩
  · have := List.reverse_infix.mpr hin
    simpa using this
  · have := List.reverse_infix.mpr hin
    simpa using this
  · rcases hshape with h1 | ⟨_, h2⟩
    · exfalso
      apply hl.head_ne_user
      rw [← h1, List.head?_reverse]
      exact hlast
    · exact h2

/-- C13 at a session with one turn: greeting, "Hi", reply. -/
theorem C13_turns_alternate_without_overlap_witness :
    Reach env0 true "user_1" (orderlyPolicy true) oneTurn ∧
    sendersOf oneTurn.state.messages = [.bot, .user, .bot] ∧
    ¬ [Sender.user, .user] <:+: sendersOf oneTurn.state.messages ∧
    ¬ [Sender.user, .bot, .bot] <:+: sendersOf oneTurn.state.messages :=
  have h : Reach env0 true "user_1" (orderlyPolicy true) oneTurn :=
    .tick _ (.respond _ _ (.send _ (.respond _ _ .mount (fun _ hb => by cases hb))
      (fun _ ht => (List.not_mem_nil _ ht).elim)) (fun _ hb => by cases hb))
  have hc := C13_turns_alternate_without_overlap env0 true "user_1" oneTurn h
  ⟨h, rfl, hc.1, hc.2.1⟩

/-- C13 as stated fails: when "And design?" is sent during the typing delay
of "Hi" (every request succeeding and no reset), the session ends, with
nothing in flight and no timer pending, on the transcript bot, user, user,
bot, bot: two user messages are next to each other and a user message is
followed by two bot messages. -/
theorem C13_overlapping_turns_interleave :
    Reach env0 true "user_1" noResetPolicy overlapping ∧
    sendersOf overlapping.state.messages = [.bot, .user, .user, .bot, .bot] ∧
    textsOf overlapping.state.messages =
      [(.bot, "Hello! What interests you?"), (.user, "Hi"), (.user, "And design?"),
       (.bot, "**Design** suits you.\nWant details?"),
       (.bot, "**Design** suits you.\nWant details?")] ∧
    overlapping.awaiting.length = 0 ∧ overlapping.timers.length = 0 ∧
    [Sender.user, .user] <:+: sendersOf overlapping.state.messages ∧
    [Sender.user, .bot, .bot] <:+: sendersOf overlapping.state.messages :=
  ⟨.tick _ (.respond _ _ (.tick _ (.send _ (.respond _ _ (.send _
      (.respond _ _ .mount trivial) trivial) trivial) trivial)) trivial),
   rfl, rfl, rfl, rfl, ⟨[.bot], [.bot, .bot], rfl⟩, ⟨[.bot, .user], [], rfl⟩⟩

end Chatbot

/-! ## `App_clean.js`: file selection, properties -/

theorem jsEndsWith_iff (s suffix : String) :
    AppClean.jsEndsWith s suffix = true ↔ EndsWith s suffix := by
  unfold AppClean.jsEndsWith EndsWith
  rw [List.isSuffixOf_iff_suffix]
  constructor
  · rintro ⟨t, ht⟩
    exact ⟨⟨t⟩, String.ext (by simp [ht])⟩
  · rintro ⟨front, rfl⟩
    exact ⟨front.data, by simp⟩

namespace AppClean

theorem select_rejected (file : Option File) (s : State) (h : accepts file = false) :
    select file s = { s with uploadStatus := "Please select a PDF or DOCX file" } := by
  simp [select, invoke, handleFileSelect, h, runSync, Config.init, Act.apply]

/-- C22, as the code has it: `handleFileSelect` accepts a file if and only if
a file is given and its MIME type is `application/pdf` or its name ends in
`.docx`; it then stores the file in `selectedFile`.  Every other file (a
`.doc` file, a file named `.pdf` whose MIME type is not `application/pdf`)
and the absence of a file is rejected, and `selectedFile` stays as it was. -/
theorem C22_accepts_pdf_type_or_docx_name (file : Option File) (s : State) :
    (accepts file = true ↔
      ∃ f, file = some f ∧ (f.type = "application/pdf" ∨ EndsWith f.name ".docx")) ∧
    (accepts file = true → (select file s).selectedFile = file) ∧
    (accepts file = false → (select file s).selectedFile = s.selectedFile) := by
  refine ⟨?_, ?_, ?_⟩
  · cases file with
    | none => simp [accepts]
    | some f => simp [accepts, jsEndsWith_iff]
  · intro h
    cases file with
    | none => simp [accepts] at h
    | some f => rw [select_accepted f s h]
  · intro h
    rw [select_rejected file s h]

/-- C22 as stated fails: a file named `resume.doc` with MIME type
`application/msword`, and a file named `resume.pdf` with no MIME type, are
both rejected: `selectedFile` stays empty and the advisory message is set. -/
theorem C22_doc_and_untyped_pdf_rejected :
    EndsWith legacyDoc.name ".doc" ∧ accepts (some legacyDoc) = false ∧
    (select (some legacyDoc) State.initial).selectedFile = none ∧
    (select (some legacyDoc) State.initial).uploadStatus
      = "Please select a PDF or DOCX file" ∧
    EndsWith untypedPdf.name ".pdf" ∧ accepts (some untypedPdf) = false ∧
    (select (some untypedPdf) State.initial).selectedFile = none :=
  ⟨⟨"resume", rfl⟩, rfl, rfl, rfl, ⟨"resume", rfl⟩, rfl, rfl⟩

/-- C23: for every configuration and every file `handleFileSelect` rejects
(no file included), the handler runs to its end at once and writes only
`uploadStatus`, which becomes "Please select a PDF or DOCX file":
`selectedFile`, `parsedData`, `careerSuggestions`, `currentStep`, `loading`
and `appMode` are unchanged, nothing is put in flight and no request is
issued. -/
theorem C23_rejection_only_sets_message (file : Option File)
    (c : Config State Act Request Json) (h : accepts file = false) :
    invoke Act.apply env (handleFileSelect file) c =
      { c with state := { c.state with uploadStatus := "Please select a PDF or DOCX file" },
               log := c.log ++ [.act (.setUploadStatus "Please select a PDF or DOCX file")] } ∧
    (invoke Act.apply env (handleFileSelect file) c).state.selectedFile
      = c.state.selectedFile ∧
    (invoke Act.apply env (handleFileSelect file) c).state.parsedData
      = c.state.parsedData ∧
    (invoke Act.apply env (handleFileSelect file) c).state.careerSuggestions
      = c.state.careerSuggestions ∧
    (invoke Act.apply env (handleFileSelect file) c).state.currentStep
      = c.state.currentStep ∧
    (invoke Act.apply env (handleFileSelect file) c).state.loading = c.state.loading ∧
    (invoke Act.apply env (handleFileSelect file) c).awaiting = c.awaiting ∧
    issuedOf (invoke Act.apply env (handleFileSelect file) c).log = issuedOf c.log := by
  have hc : invoke Act.apply env (handleFileSelect file) c =
      { c with state := { c.state with uploadStatus := "Please select a PDF or DOCX file" },
               log := c.log ++ [.act (.setUploadStatus "Please select a PDF or DOCX file")] } := by
    simp [invoke, handleFileSelect, h, runSync, Act.apply]
  rw [hc]
  refine ⟨rfl, rfl, rfl, rfl, rfl, rfl, rfl, ?_⟩
  simp [issuedOf_append, issuedOf]

/-- C23 at a `.doc` file offered while a `.docx` file is selected and its
pipeline has completed: only the message changes. -/
theorem C23_rejection_only_sets_message_witness :
    accepts (some legacyDoc) = false ∧
    (invoke Act.apply env (handleFileSelect (some legacyDoc))
      (run stubRemote 3 (select (some docx) State.initial))).state.uploadStatus
      = "Please select a PDF or DOCX file" ∧
    (invoke Act.apply env (handleFileSelect (some legacyDoc))
      (run stubRemote 3 (select (some docx) State.initial))).state.selectedFile
      = some docx ∧
    (invoke Act.apply env (handleFileSelect (some legacyDoc))
      (run stubRemote 3 (select (some docx) State.initial))).state.currentStep = 4 :=
  have h := C23_rejection_only_sets_message (some legacyDoc)
    (run stubRemote 3 (select (some docx) State.initial)) rfl
  ⟨rfl, by rw [h.1], h.2.1, h.2.2.2.2.1⟩

end AppClean

/-! ## `Chatbot.js`: a failed start, escalation, the indicators -/

namespace Chatbot

theorem escalationsOf_append (l₁ l₂ : List (Event Act Request ChatData)) :
    escalationsOf (l₁ ++ l₂) = escalationsOf l₁ + escalationsOf l₂ := by
  induction l₁ with
  | nil => simp [escalationsOf]
  | cons e l ih =>
    cases e with
    | act w =>
      have h := ih
      cases w
      all_goals simp only [List.cons_append, escalationsOf]
      all_goals simp only [HAppend.hAppend, Append.append] at h ⊢
      all_goals omega
    | _ => simp [escalationsOf, ih]

theorem start_resolved_error (env : Env) (e : AxiosError)
    (c : Config State Act Request ChatData) :
    deliver Act.apply env c.awaiting.length (.error e)
        (invoke Act.apply env startChatSession c) =
      { state := { c.state with
                    messages := c.state.messages ++
                      [noticeMessage env c.nNow c.nRandom "Connection error! Please try again."],
                    isLoading := false },
        awaiting := c.awaiting, timers := c.timers,
        nNow := c.nNow + 2, nRandom := c.nRandom + 1,
        log := c.log ++ [.act (.setIsLoading true), .issue (.chatStart c.state.userId),
          .resolve (.chatStart c.state.userId) (.error e),
          .act (.setMessages fun prev => prev ++
            [noticeMessage env c.nNow c.nRandom "Connection error! Please try again."]),
          .act (.setIsLoading false)] } := by
  rw [invoke_startChatSession,
    deliver_last Act.apply env _ c.awaiting
      ⟨.chatStart c.state.userId, none, startChatResume⟩ (.error e) rfl,
    runSync_startChatResume_error]
  simp

/-- C27: for every chat state, when the request of `startChatSession` fails,
one bot message "Connection error! Please try again." is appended to the
transcript; the stage, the progress and the suggestions are unchanged;
`isLoading` is false and the request is no longer in flight; and a
`sendMessage` that follows with a text that is not blank passes the guard:
it issues its request. -/
theorem C27_failed_start_leaves_chat_usable (env : Env) (hasCallback : Bool)
    (e : AxiosError) (text : String) (c : Config State Act Request ChatData)
    (htext : ∃ ch ∈ text.data, isJsSpace ch = false) :
    let c2 := deliver Act.apply env c.awaiting.length (.error e)
      (invoke Act.apply env startChatSession c)
    let c3 := invoke Act.apply env (sendMessage hasCallback (some text)) c2
    (∃ m, c2.state.messages = c.state.messages ++ [m] ∧ m.sender = .bot ∧
      m.text = "Connection error! Please try again.") ∧
    c2.state.currentStage = c.state.currentStage ∧
    c2.state.progress = c.state.progress ∧
    c2.state.suggestions = c.state.suggestions ∧
    c2.state.isLoading = false ∧
    c2.awaiting = c.awaiting ∧
    issuedOf c3.log = issuedOf c2.log ++ [.chatMessage c.state.userId text] ∧
    (∃ p, c3.awaiting = c.awaiting ++ [p] ∧ p.q = .chatMessage c.state.userId text) := by
  intro c2 c3
  have h2 : c2 = _ := start_resolved_error env e c
  have hmsg : ∃ ch ∈ (Option.getD (some text) c2.state.inputMessage).data,
      isJsSpace ch = false := htext
  have hload : c2.state.isLoading = false := by rw [h2]
  have h3 : c3 = _ := invoke_sendMessage env hasCallback (some text) c2 hmsg hload
  have hu : c2.state.userId = c.state.userId := by rw [h2]
  have ha : c2.awaiting = c.awaiting := by rw [h2]
  refine ⟨⟨_, by rw [h2], rfl, rfl⟩, by rw [h2], by rw [h2], by rw [h2], hload, ha, ?_,
    ⟨⟨.chatMessage c.state.userId text, none, sendMessageResume hasCallback⟩, ?_, rfl⟩⟩
  · rw [h3]
    simp only [issuedOf_append, issuedOf, List.append_nil, Option.getD_some, hu]
  · rw [h3]
    simp only [Option.getD_some, hu, ha]

/-- C27 at the mount of the component, with a network error. -/
theorem C27_failed_start_leaves_chat_usable_witness :
    (∃ ch ∈ "I like design".data, isJsSpace ch = false) ∧
    textsOf (deliver Act.apply env0 0 (.error (AppClean.plainError "Network Error"))
      (mounted env0 "user_1")).state.messages
      = [(.bot, "Connection error! Please try again.")] ∧
    (deliver Act.apply env0 0 (.error (AppClean.plainError "Network Error"))
      (mounted env0 "user_1")).state.isLoading = false ∧
    issuedOf (invoke Act.apply env0 (sendMessage true (some "I like design"))
      (deliver Act.apply env0 0 (.error (AppClean.plainError "Network Error"))
        (mounted env0 "user_1"))).log
      = [.chatStart "user_1", .chatMessage "user_1" "I like design"] := by
  have htext : ∃ ch ∈ "I like design".data, isJsSpace ch = false :=
    ⟨'I', by decide, by decide⟩
  have h := C27_failed_start_leaves_chat_usable env0 true
    (AppClean.plainError "Network Error") "I like design"
    (Config.init (State.initial "user_1")) htext
  exact ⟨htext, rfl, h.2.2.2.2.1, h.2.2.2.2.2.2.1⟩

theorem send_resolved_unsuccessful (env : Env) (hc : Bool) (arg : Option String)
    (r : BotResponse) (c : Config State Act Request ChatData)
    (hmsg : ∃ ch ∈ (arg.getD c.state.inputMessage).data, isJsSpace ch = false)
    (hload : c.state.isLoading = false) :
    deliver Act.apply env c.awaiting.length (.ok ⟨false, r⟩)
        (invoke Act.apply env (sendMessage hc arg) c) =
      { state := { c.state with
                    messages := c.state.messages ++
                      [userMessage env c.nNow c.nRandom (arg.getD c.state.inputMessage)],
                    inputMessage := "", isLoading := false, isTyping := true },
        awaiting := c.awaiting, timers := c.timers,
        nNow := c.nNow + 2, nRandom := c.nRandom + 1,
        log := c.log ++ [.act (.setMessages fun prev => prev ++
            [userMessage env c.nNow c.nRandom (arg.getD c.state.inputMessage)]),
          .act (.setInputMessage ""), .act (.setIsLoading true),
          .act (.setIsTyping true),
          .issue (.chatMessage c.state.userId (arg.getD c.state.inputMessage)),
          .resolve (.chatMessage c.state.userId (arg.getD c.state.inputMessage))
            (.ok ⟨false, r⟩),
          .act (.setIsLoading false)] } := by
  rw [invoke_sendMessage env hc arg c hmsg hload,
    deliver_last Act.apply env _ c.awaiting
      ⟨.chatMessage c.state.userId (arg.getD c.state.inputMessage), none,
        sendMessageResume hc⟩ (.ok ⟨false, r⟩) rfl,
    runSync_sendMessageResume_unsuccessful]
  simp

/-- C28: in every turn of `sendMessage`, the call of `onResumeUploadRequest`
is scheduled exactly when the request succeeded with `success` set and the
`action` of the response is "redirect_to_resume_upload": the 1500 ms timer is
set once, by the delayed reply, after it has appended the bot message.  When
that timer fires the chat state does not change, and the callback is called
once if it was supplied and not at all otherwise.  With any other action or
none, no such timer is set; on a response with `success` unset and on a
failure, no timer is set at all and the callback is not called. -/
theorem C28_escalation_only_on_sentinel (env : Env) (hasCallback : Bool)
    (arg : Option String) (r : BotResponse) (e : AxiosError)
    (c : Config State Act Request ChatData)
    (hmsg : ∃ ch ∈ (arg.getD c.state.inputMessage).data, isJsSpace ch = false)
    (hload : c.state.isLoading = false) :
    let c1 := invoke Act.apply env (sendMessage hasCallback arg) c
    let ok2 := deliver Act.apply env c.awaiting.length (.ok ⟨true, r⟩) c1
    let ok3 := fire Act.apply env c.timers.length ok2
    let ok4 := fire Act.apply env c.timers.length ok3
    let un2 := deliver Act.apply env c.awaiting.length (.ok ⟨false, r⟩) c1
    let er2 := deliver Act.apply env c.awaiting.length (.error e) c1
    (ok2.timers = c.timers ++
        [(1000 + env.random (c.nRandom + 1) * 1000, replyCallback hasCallback r)] ∧
      escalationsOf ok2.log = escalationsOf c.log) ∧
    ((∃ m, ok3.state.messages = ok2.state.messages ++ [m] ∧ m.sender = .bot) ∧
      escalationsOf ok3.log = escalationsOf c.log) ∧
    (r.action = some "redirect_to_resume_upload" →
      ok3.timers = c.timers ++ [(1500, escalation hasCallback)] ∧
      ok4.state = ok3.state ∧ ok4.timers = c.timers ∧
      escalationsOf ok4.log = escalationsOf c.log + (if hasCallback then 1 else 0)) ∧
    (r.action ≠ some "redirect_to_resume_upload" → ok3.timers = c.timers) ∧
    (un2.timers = c.timers ∧ escalationsOf un2.log = escalationsOf c.log) ∧
    (er2.timers = c.timers ∧ escalationsOf er2.log = escalationsOf c.log) := by
  intro c1 ok2 ok3 ok4 un2 er2
  have h2 : ok2 = _ := send_resolved_ok env hasCallback arg r c hmsg hload
  have h3 : ok3 = _ := fire_last Act.apply env ok2 c.timers
    (1000 + env.random (c.nRandom + 1) * 1000, replyCallback hasCallback r) (by rw [h2])
  rw [runSync_replyCallback, h2] at h3
  have hu : un2 = _ := send_resolved_unsuccessful env hasCallback arg r c hmsg hload
  have he : er2 = _ := send_resolved_error env hasCallback arg e c hmsg hload
  refine ⟨⟨by rw [h2], ?_⟩, ⟨⟨_, by rw [h3, h2], rfl⟩, ?_⟩, ?_, ?_, ⟨by rw [hu], ?_⟩,
    ⟨by rw [he], ?_⟩⟩
  · rw [h2]
    simp [escalationsOf_append, escalationsOf]
  · rw [h3]
    by_cases ha : r.action = some "redirect_to_resume_upload" <;>
      simp [escalationsOf_append, escalationsOf, ha]
  · intro ha
    have h3t : ok3.timers = c.timers ++ [(1500, escalation hasCallback)] := by
      rw [h3]; simp [ha]
    have h4 : ok4 = _ := fire_last Act.apply env ok3 c.timers (1500, escalation hasCallback) h3t
    rw [runSync_escalation] at h4
    refine ⟨h3t, by rw [h4], by rw [h4], ?_⟩
    rw [h4]
    simp only [escalationsOf_append]
    rw [h3]
    cases hasCallback <;> simp [escalationsOf_append, escalationsOf, ha]
  · intro ha
    rw [h3]
    simp [ha]
  · rw [hu]
    simp [escalationsOf_append, escalationsOf]
  · rw [he]
    simp [escalationsOf_append, escalationsOf]

/-- C28 at a reply that asks for the resume upload, in a chat given the
callback: the callback is called once, after the second timer. -/
theorem C28_escalation_only_on_sentinel_witness :
    ((∃ ch ∈ (Option.getD (some "Analyse my resume") greeted.state.inputMessage).data,
        isJsSpace ch = false) ∧
     greeted.state.isLoading = false) ∧
    escalationsOf (fire Act.apply env0 greeted.timers.length
      (deliver Act.apply env0 greeted.awaiting.length (.ok ⟨true, uploadReply⟩)
        (invoke Act.apply env0 (sendMessage true (some "Analyse my resume"))
          greeted))).log = 0 ∧
    escalationsOf (fire Act.apply env0 greeted.timers.length
      (fire Act.apply env0 greeted.timers.length
        (deliver Act.apply env0 greeted.awaiting.length (.ok ⟨true, uploadReply⟩)
          (invoke Act.apply env0 (sendMessage true (some "Analyse my resume"))
            greeted)))).log = 1 := by
  have hmsg : ∃ ch ∈ (Option.getD (some "Analyse my resume")
      greeted.state.inputMessage).data, isJsSpace ch = false :=
    ⟨'A', by decide, by decide⟩
  have h := C28_escalation_only_on_sentinel env0 true (some "Analyse my resume") uploadReply
    (AppClean.plainError "Network Error") greeted hmsg rfl
  exact ⟨⟨hmsg, rfl⟩, h.2.1.2, (h.2.2.1 rfl).2.2.2⟩

/-- C29 fails at a response whose `success` flag is false: after "Hi" is sent
in a greeted chat and the request resolves with such a response, nothing is
in flight and no timer is set, `isLoading` is false, and the typing indicator
is still on.  On the two other paths it is off: after a failure, and after a
successful reply once its timer has fired. -/
theorem C29_typing_indicator_left_on :
    (deliver Act.apply env0 0 (.ok ⟨false, designReply⟩)
      (invoke Act.apply env0 (sendMessage true (some "Hi")) greeted)).awaiting.length = 0 ∧
    (deliver Act.apply env0 0 (.ok ⟨false, designReply⟩)
      (invoke Act.apply env0 (sendMessage true (some "Hi")) greeted)).timers.length = 0 ∧
    (deliver Act.apply env0 0 (.ok ⟨false, designReply⟩)
      (invoke Act.apply env0 (sendMessage true (some "Hi")) greeted)).state.isLoading
      = false ∧
    (deliver Act.apply env0 0 (.ok ⟨false, designReply⟩)
      (invoke Act.apply env0 (sendMessage true (some "Hi")) greeted)).state.isTyping
      = true ∧
    (deliver Act.apply env0 0 (.error (AppClean.plainError "Network Error"))
      (invoke Act.apply env0 (sendMessage true (some "Hi")) greeted)).state.isTyping
      = false ∧
    oneTurn.state.isTyping = false ∧ oneTurn.state.isLoading = false :=
  ⟨rfl, rfl, rfl, rfl, rfl, rfl, rfl⟩

end Chatbot

/-! ## `App.js`: the percentage -/

namespace App

theorem jsRound_mono {x y : ℚ} (h : x ≤ y) : jsRound x ≤ jsRound y :=
  Int.floor_mono (by linarith)

theorem jsRound_eq (x : ℚ) (p : Int) (h1 : (p : ℚ) ≤ x + 1 / 2) (h2 : x + 1 / 2 < p + 1) :
    jsRound x = p :=
  Int.floor_eq_iff.mpr ⟨h1, h2⟩

theorem jsRound_between (x a b : ℚ) (p : Int) (ha : a ≤ x) (hb : x ≤ b)
    (h1 : (p : ℚ) ≤ a + 1 / 2) (h2 : b + 1 / 2 < p + 1) : jsRound x = p :=
  jsRound_eq x p (by linarith) (by linarith)

theorem jsRound_nonneg {x : ℚ} (h : 0 ≤ x) : 0 ≤ jsRound x :=
  Int.floor_nonneg.mpr (by linarith)

theorem jsRound_le_hundred {x : ℚ} (h : x ≤ 401 / 4) : jsRound x ≤ 100 := by
  have : jsRound x < 101 := Int.floor_lt.mpr (by push_cast; linarith)
  omega

theorem percent_of_ne_zero (ev : ProgressEvent) (h : ev.total ≠ 0) :
    percent ev = some (jsRound (jsDiv (jsMul ev.loaded 100) ev.total)) := by
  simp [percent, h]

/-- The quotient of the percentage does not decrease with `loaded`. -/
theorem quotient_mono (loaded loaded' total : Int) (ht : 0 < total) (h : loaded ≤ loaded') :
    jsDiv (jsMul loaded 100) total ≤ jsDiv (jsMul loaded' 100) total := by
  have ht' : (0 : ℚ) < total := by exact_mod_cast ht
  have hl : (loaded : ℚ) ≤ loaded' := by exact_mod_cast h
  unfold jsDiv jsMul
  apply binary64_monotone
  apply div_le_div_of_nonneg_right _ ht'.le
  apply binary64_monotone
  linarith

theorem quotient_zero (total : Int) : jsDiv (jsMul 0 100) total = 0 := by
  unfold jsDiv jsMul
  rw [zero_mul, binary64_zero, zero_div, binary64_zero]

/-- The quotient of the percentage at `loaded = total`: within a quarter of
100. -/
theorem quotient_full (total : Int) (ht : 0 < total) :
    399 / 4 ≤ jsDiv (jsMul total 100) total ∧ jsDiv (jsMul total 100) total ≤ 401 / 4 := by
  have ht' : (1 : ℚ) ≤ total := by exact_mod_cast ht
  have hpos : (0 : ℚ) < total := by linarith
  have hn := binary64_near ((total : ℚ) * 100) (by linarith)
  have e : (total : ℚ) * 100 / total = 100 := by field_simp
  have hlo : (399 : ℚ) / 4 ≤ binary64 ((total : ℚ) * 100) / total := by
    rw [le_div_iff₀ hpos]
    have := hn.1
    have h2 : (total : ℚ) * 100 / 2 ^ 52 ≤ (total : ℚ) / 4 := by
      have e3 : (total : ℚ) * 100 / 2 ^ 52 = (total : ℚ) * (100 / 2 ^ 52) := by ring
      rw [e3]
      nlinarith
    linarith
  have hhi : binary64 ((total : ℚ) * 100) / total ≤ (401 : ℚ) / 4 := by
    rw [div_le_iff₀ hpos]
    have := hn.2
    have h2 : (total : ℚ) * 100 / 2 ^ 52 ≤ (total : ℚ) / 4 := by
      have e3 : (total : ℚ) * 100 / 2 ^ 52 = (total : ℚ) * (100 / 2 ^ 52) := by ring
      rw [e3]
      nlinarith
    linarith
  have habs : |binary64 ((total : ℚ) * 100) / total| < (2 : ℚ) ^ ((-2 : Int) + 53) := by
    rw [abs_lt]
    constructor
    · have : (0 : ℚ) < (2 : ℚ) ^ ((-2 : Int) + 53) := zpow_pos (by norm_num) _
      linarith
    · have : (2 : ℚ) ^ ((-2 : Int) + 53) = 2251799813685248 := by norm_num
      rw [this]
      linarith
  unfold jsDiv jsMul
  constructor
  · have := dyadic_le_binary64 _ 399 (-2) (by norm_num) habs (by
      have : ((399 : Int) : ℚ) * (2 : ℚ) ^ (-2 : Int) = 399 / 4 := by norm_num
      rw [this]
      exact hlo)
    have e2 : ((399 : Int) : ℚ) * (2 : ℚ) ^ (-2 : Int) = 399 / 4 := by norm_num
    rw [e2] at this
    exact this
  · have := binary64_le_dyadic _ 401 (-2) (by norm_num) habs (by
      have : ((401 : Int) : ℚ) * (2 : ℚ) ^ (-2 : Int) = 401 / 4 := by norm_num
      rw [this]
      exact hhi)
    have e2 : ((401 : Int) : ℚ) * (2 : ℚ) ^ (-2 : Int) = 401 / 4 := by norm_num
    rw [e2] at this
    exact this

theorem percent_range (loaded total : Int) (ht : 0 < total) (h0 : 0 ≤ loaded)
    (h1 : loaded ≤ total) :
    ∃ p, percent ⟨loaded, total⟩ = some p ∧ 0 ≤ p ∧ p ≤ 100 := by
  refine ⟨_, percent_of_ne_zero ⟨loaded, total⟩ (ne_of_gt ht), jsRound_nonneg ?_,
    jsRound_le_hundred ?_⟩
  · have := quotient_mono 0 loaded total ht h0
    rw [Int.cast_zero, quotient_zero] at this
    exact this
  · exact le_trans (quotient_mono loaded total total ht h1) (quotient_full total ht).2

theorem percent_mono (loaded loaded' total : Int) (ht : 0 < total) (h : loaded ≤ loaded') :
    ∃ p q, percent ⟨loaded, total⟩ = some p ∧ percent ⟨loaded', total⟩ = some q ∧ p ≤ q :=
  ⟨_, _, percent_of_ne_zero ⟨loaded, total⟩ (ne_of_gt ht),
    percent_of_ne_zero ⟨loaded', total⟩ (ne_of_gt ht),
    jsRound_mono (quotient_mono loaded loaded' total ht h)⟩

/-- The percentage of an event, from the product when it is a safe integer
and from two dyadic numbers around the quotient. -/
theorem percent_val (ev : ProgressEvent) (p a b j : Int) (h : ev.total ≠ 0)
    (hz : |((ev.loaded * 100 : Int) : ℚ)| < (2 : ℚ) ^ (53 : Int)) (hj : -1074 ≤ j)
    (hx : |((ev.loaded * 100 : Int) : ℚ) / (ev.total : ℚ)| < (2 : ℚ) ^ (j + 53))
    (ha : (a : ℚ) * (2 : ℚ) ^ j ≤ ((ev.loaded * 100 : Int) : ℚ) / (ev.total : ℚ))
    (hb : ((ev.loaded * 100 : Int) : ℚ) / (ev.total : ℚ) ≤ (b : ℚ) * (2 : ℚ) ^ j)
    (h1 : (p : ℚ) ≤ (a : ℚ) * (2 : ℚ) ^ j + 1 / 2)
    (h2 : (b : ℚ) * (2 : ℚ) ^ j + 1 / 2 < p + 1) :
    percent ev = some p := by
  rw [percent_of_ne_zero ev h]
  congr 1
  have e : jsMul (ev.loaded : ℚ) 100 = ((ev.loaded * 100 : Int) : ℚ) := by
    have := jsMul_intCast ev.loaded 100 hz
    simpa using this
  rw [e]
  unfold jsDiv
  exact jsRound_between _ _ _ p (dyadic_le_binary64 _ a j hj hx ha)
    (binary64_le_dyadic _ b j hj hx hb) h1 h2

/-- C30: for all integers with `total > 0` and `0 ≤ loaded ≤ total`, the
percentage `Math.round(loaded * 100 / total)` is an integer between 0 and
100; it is 100 when `loaded = total` and 0 when `loaded = 0`; and for
`loaded ≤ loaded'` with the same total, the percentage of `loaded` is at most
that of `loaded'`. -/
theorem C30_percent_in_range_and_monotone (loaded loaded' total : Int) (ht : 0 < total)
    (h0 : 0 ≤ loaded) (h1 : loaded ≤ loaded') (h2 : loaded' ≤ total) :
    (∃ p, percent ⟨loaded, total⟩ = some p ∧ 0 ≤ p ∧ p ≤ 100) ∧
    percent ⟨total, total⟩ = some 100 ∧
    percent ⟨0, total⟩ = some 0 ∧
    (∃ p q, percent ⟨loaded, total⟩ = some p ∧ percent ⟨loaded', total⟩ = some q ∧
      p ≤ q) := by
  refine ⟨percent_range loaded total ht h0 (le_trans h1 h2), ?_, ?_,
    percent_mono loaded loaded' total ht h1⟩
  · rw [percent_of_ne_zero ⟨total, total⟩ (ne_of_gt ht)]
    congr 1
    have hq := quotient_full total ht
    exact jsRound_between _ _ _ 100 hq.1 hq.2 (by norm_num) (by norm_num)
  · rw [percent_of_ne_zero ⟨0, total⟩ (ne_of_gt ht)]
    congr 1
    have := quotient_zero total
    simp only [Int.cast_zero]
    rw [this]
    exact jsRound_eq 0 0 (by norm_num) (by norm_num)

/-- C30 at 1 byte then 2 bytes of 3: 33 then 67. -/
theorem C30_percent_in_range_and_monotone_witness :
    ((0 : Int) < 3 ∧ (0 : Int) ≤ 1 ∧ (1 : Int) ≤ 2 ∧ (2 : Int) ≤ 3) ∧
    percent ⟨1, 3⟩ = some 33 ∧ percent ⟨2, 3⟩ = some 67 ∧
    percent ⟨3, 3⟩ = some 100 ∧ percent ⟨0, 3⟩ = some 0 := by
  have h := C30_percent_in_range_and_monotone 1 2 3 (by norm_num) (by norm_num)
    (by norm_num) (by norm_num)
  refine ⟨⟨by norm_num, by norm_num, by norm_num, by norm_num⟩, ?_, ?_, h.2.1, h.2.2.1⟩
  · exact percent_val ⟨1, 3⟩ 33 266 267 (-3) (by decide) (by norm_num) (by norm_num)
      (by norm_num [abs_lt]) (by norm_num) (by norm_num) (by norm_num) (by norm_num)
  · exact percent_val ⟨2, 3⟩ 67 533 534 (-3) (by decide) (by norm_num) (by norm_num)
      (by norm_num [abs_lt]) (by norm_num) (by norm_num) (by norm_num) (by norm_num)

end App

/-! ## `App.js`: the upload, step by step -/

namespace App

theorem uploadResume_eq_oneCall (s : State) (f : File) (hs : s.uploadedFile = some f) :
    uploadResume s =
      .write (.setIsUploading true)
        (.awaitUp (.uploadResume f) onUploadProgress uploadResumeResume) := by
  simp only [uploadResume, hs, Prog.postUp, Prog.tryCatch, Prog.tryFinally]
  unfold onUploadProgress
  congr 2
  funext x
  cases x <;> rfl

theorem uploadResume_no_file_oneCall (s : State) (hs : s.uploadedFile = none) :
    uploadResume s = .done := by
  simp only [uploadResume, hs]

theorem runSync_uploadResume_oneCall (s : State) (f : File) (hs : s.uploadedFile = some f)
    (c : Config State Act Request Json) :
    runSync Act.apply env (uploadResume s) c =
      { c with state := { c.state with isUploading := true },
               awaiting := c.awaiting ++ [uploadFlight f],
               log := c.log ++ [.act (.setIsUploading true), .issue (.uploadResume f)] } := by
  rw [uploadResume_eq_oneCall s f hs]
  simp [runSync, Act.apply, uploadFlight]

theorem start_eq_oneCall (s : State) (f : File) (hs : s.uploadedFile = some f) :
    start s =
      { state := { s with isUploading := true }, awaiting := [uploadFlight f], timers := [],
        nNow := 0, nRandom := 0,
        log := [.act (.setIsUploading true), .issue (.uploadResume f)] } := by
  unfold start invoke
  rw [runSync_uploadResume_oneCall (Config.init s).state f hs]
  rfl

theorem notify_upload (f : File) (ev : ProgressEvent) (c : Config State Act Request Json)
    (hc : c.awaiting = [uploadFlight f]) :
    notify Act.apply env 0 ev c =
      { c with state := { c.state with uploadProgress := percent ev },
               log := c.log ++ [.progress (.uploadResume f) ev,
                 .act (.setUploadProgress (percent ev))] } := by
  unfold notify
  simp [hc, uploadFlight, onUploadProgress, runSync, Act.apply]

theorem notify_all_upload (f : File) (evs : List ProgressEvent)
    (c : Config State Act Request Json) (hc : c.awaiting = [uploadFlight f]) :
    (evs.foldl (fun c ev => notify Act.apply env 0 ev c) c).awaiting = [uploadFlight f] ∧
    (evs.foldl (fun c ev => notify Act.apply env 0 ev c) c).state.isUploading
      = c.state.isUploading ∧
    (evs = [] →
      (evs.foldl (fun c ev => notify Act.apply env 0 ev c) c).state.uploadProgress
        = c.state.uploadProgress) := by
  induction evs generalizing c with
  | nil => exact ⟨hc, rfl, fun _ => rfl⟩
  | cons ev evs ih =>
    have h := ih (notify Act.apply env 0 ev c) (by rw [notify_upload f ev c hc]; exact hc)
    refine ⟨h.1, ?_, fun hnil => absurd hnil (List.cons_ne_nil _ _)⟩
    rw [List.foldl_cons, h.2.1, notify_upload f ev c hc]

theorem deliver_upload (f : File) (r : Except AxiosError Json)
    (c : Config State Act Request Json) (hc : c.awaiting = [uploadFlight f]) :
    (deliver Act.apply env 0 r c).awaiting = [] ∧
    (deliver Act.apply env 0 r c).state.isUploading = false ∧
    (deliver Act.apply env 0 r c).state.uploadProgress = some 0 ∧
    (deliver Act.apply env 0 r c).state.uploadedFile = c.state.uploadedFile ∧
    (deliver Act.apply env 0 r c).state.parsedData =
      (match r with
        | .ok response => some response
        | .error _ => c.state.parsedData) := by
  unfold deliver
  cases r <;>
    simp [hc, uploadFlight, uploadResumeResume, Prog.tryFinally, Prog.tryCatch, Prog.seq,
      runSync, Act.apply]

/-- On an event with a safe integer `loaded` and a `total` other than 0, the
product and the quotient of the percentage stay below `2 ^ 60` in magnitude,
far from the largest double. -/
theorem quotient_finite (ev : ProgressEvent) (hl : SafeInteger ev.loaded)
    (h : ev.total ≠ 0) :
    |jsMul ev.loaded 100| ≤ 2 ^ 60 ∧ |jsDiv (jsMul ev.loaded 100) ev.total| ≤ 2 ^ 60 := by
  have hl' : |(ev.loaded : ℚ)| < 2 ^ 53 := by
    unfold SafeInteger at hl
    exact_mod_cast hl
  have e60 : (2 : ℚ) ^ (60 : Int) = 2 ^ 60 := by norm_num
  have hx : |(ev.loaded : ℚ) * 100| ≤ (2 : ℚ) ^ (60 : Int) := by
    rw [abs_mul, e60]
    have : |(100 : ℚ)| = 100 := by norm_num
    rw [this]
    nlinarith [abs_nonneg (ev.loaded : ℚ)]
  have hz := binary64_abs_le _ 60 (by norm_num) hx
  have ht : (1 : ℚ) ≤ |(ev.total : ℚ)| := by
    have : (1 : Int) ≤ |ev.total| := Int.one_le_abs h
    exact_mod_cast this
  have hq : |binary64 ((ev.loaded : ℚ) * 100) / (ev.total : ℚ)| ≤ (2 : ℚ) ^ (60 : Int) := by
    rw [abs_div, div_le_iff₀ (by linarith)]
    have := abs_nonneg (binary64 ((ev.loaded : ℚ) * 100))
    nlinarith
  have hd := binary64_abs_le _ 60 (by norm_num) hq
  rw [e60] at hz hd
  exact ⟨hz, hd⟩

/-- The percentage of an event, from the double product and the double
quotient. -/
theorem percent_steps (ev : ProgressEvent) (p : Int) (z q : ℚ) (h : ev.total ≠ 0)
    (hz : jsMul ev.loaded 100 = z) (hq : jsDiv z ev.total = q) (hp : jsRound q = p) :
    percent ev = some p := by
  rw [percent_of_ne_zero ev h, hz, hq, hp]

/-- The event 6079859496453601 of 9007199254005336 bytes: the product is
rounded up to 607985949645360128, the quotient to 67.5, and 68 is the
percentage, one more than the exact quotient rounds to. -/
theorem percent_rounded_twice :
    percent ⟨6079859496453601, 9007199254005336⟩ = some 68 ∧
    Int.floor (((6079859496453601 * 100 : Int) : ℚ) / (9007199254005336 : Int) + 1 / 2) = 67 := by
  constructor
  · apply percent_steps _ 68 607985949645360128 (135 / 2) (by decide)
    · have hu : ulp ((6079859496453601 : Int) * 100 : ℚ) = (2 : ℚ) ^ ((59 : Int) - 52) :=
        ulp_eq _ 59 (by norm_num) (by norm_num) (by norm_num)
      unfold jsMul
      apply binary64_eq_of_near _ _ 4749890231604376
      · rw [hu]
        norm_num
      · rw [hu]
        norm_num
    · have hu : ulp ((607985949645360128 : ℚ) / ((9007199254005336 : Int) : ℚ))
          = (2 : ℚ) ^ ((6 : Int) - 52) :=
        ulp_eq _ 6 (by norm_num) (by norm_num [abs_of_pos]) (by norm_num [abs_of_pos])
      unfold jsDiv
      apply binary64_eq_of_near _ _ 4749890231992320
      · rw [hu]
        norm_num
      · rw [hu]
        norm_num [abs_lt]
    · exact jsRound_eq _ 68 (by norm_num) (by norm_num)
  · exact Int.floor_eq_iff.mpr ⟨by norm_num, by norm_num⟩

/-- C25 (amended): while the upload of `App.js` is in flight, a progress
event whose `loaded` and `total` are safe integers stores
`Math.round((loaded * 100) / total)` of that event in `uploadProgress`, the
product and the quotient each rounded to the nearest double and, for a
`total` other than 0, both of magnitude at most `2 ^ 60`: the value is not
clamped and is not compared with the value stored before.  The stored value
is an integer between 0 and 100 when `total > 0` and `0 ≤ loaded ≤ total`,
and from one event to the next it does not decrease when both events have the
same positive total and `loaded` does not decrease. -/
theorem C25_stored_progress_is_double_percent_of_event (s : State) (f : File)
    (evs : List ProgressEvent) (ev ev' : ProgressEvent) (hs : s.uploadedFile = some f)
    (hev : SafeEvent ev) (hev' : SafeEvent ev') :
    let c0 := evs.foldl (fun c ev => notify Act.apply env 0 ev c) (start s)
    let c1 := notify Act.apply env 0 ev c0
    let c2 := notify Act.apply env 0 ev' c1
    c1.state.uploadProgress = percent ev ∧
    c2.state.uploadProgress = percent ev' ∧
    (ev.total ≠ 0 →
      percent ev = some (jsRound (jsDiv (jsMul ev.loaded 100) ev.total)) ∧
      |jsMul ev.loaded 100| ≤ 2 ^ 60 ∧
      |jsDiv (jsMul ev.loaded 100) ev.total| ≤ 2 ^ 60) ∧
    (ev'.total ≠ 0 →
      percent ev' = some (jsRound (jsDiv (jsMul ev'.loaded 100) ev'.total)) ∧
      |jsMul ev'.loaded 100| ≤ 2 ^ 60 ∧
      |jsDiv (jsMul ev'.loaded 100) ev'.total| ≤ 2 ^ 60) ∧
    (0 < ev.total → 0 ≤ ev.loaded → ev.loaded ≤ ev.total →
      ∃ p, c1.state.uploadProgress = some p ∧ 0 ≤ p ∧ p ≤ 100) ∧
    (0 < ev.total → ev'.total = ev.total → ev.loaded ≤ ev'.loaded →
      ∃ p q, c1.state.uploadProgress = some p ∧ c2.state.uploadProgress = some q ∧
        p ≤ q) := by
  intro c0 c1 c2
  have h0 : c0.awaiting = [uploadFlight f] :=
    (notify_all_upload f evs (start s) (by rw [start_eq_oneCall s f hs])).1
  have h1 : c1 = _ := notify_upload f ev c0 h0
  have h1a : c1.awaiting = [uploadFlight f] := by rw [h1]; exact h0
  have h2 : c2 = _ := notify_upload f ev' c1 h1a
  have e1 : c1.state.uploadProgress = percent ev := by rw [h1]
  have e2 : c2.state.uploadProgress = percent ev' := by rw [h2]
  refine ⟨e1, e2, ?_, ?_, ?_, ?_⟩
  · intro hne
    exact ⟨percent_of_ne_zero ev hne, quotient_finite ev hev.1 hne⟩
  · intro hne
    exact ⟨percent_of_ne_zero ev' hne, quotient_finite ev' hev'.1 hne⟩
  · intro ht hl hu
    rw [e1]
    exact percent_range ev.loaded ev.total ht hl hu
  · intro ht he hl
    rw [e1, e2]
    have h := percent_mono ev.loaded ev'.loaded ev.total ht hl
    have e : (⟨ev'.loaded, ev.total⟩ : ProgressEvent) = ev' := by rw [← he]
    rw [e] at h
    exact h

/-- C25 at a chosen file and the events 1 of 3 bytes, then 2 of 3 bytes: 33 is
stored, then 67; and at the event 6079859496453601 of 9007199254005336 bytes:
68 is stored. -/
theorem C25_stored_progress_is_double_percent_of_event_witness :
    (chosen.uploadedFile = some AppClean.docx ∧ SafeEvent ⟨1, 3⟩ ∧ SafeEvent ⟨2, 3⟩ ∧
      SafeEvent ⟨6079859496453601, 9007199254005336⟩) ∧
    (notify Act.apply env 0 ⟨1, 3⟩ (start chosen)).state.uploadProgress = some 33 ∧
    (notify Act.apply env 0 ⟨2, 3⟩
      (notify Act.apply env 0 ⟨1, 3⟩ (start chosen))).state.uploadProgress = some 67 ∧
    (notify Act.apply env 0 ⟨6079859496453601, 9007199254005336⟩
      (start chosen)).state.uploadProgress = some 68 := by
  have s1 : SafeEvent ⟨1, 3⟩ := by norm_num [SafeEvent, SafeInteger]
  have s2 : SafeEvent ⟨2, 3⟩ := by norm_num [SafeEvent, SafeInteger]
  have s3 : SafeEvent ⟨6079859496453601, 9007199254005336⟩ := by
    norm_num [SafeEvent, SafeInteger]
  have h := C25_stored_progress_is_double_percent_of_event chosen AppClean.docx []
    ⟨1, 3⟩ ⟨2, 3⟩ rfl s1 s2
  have k := C25_stored_progress_is_double_percent_of_event chosen AppClean.docx []
    ⟨6079859496453601, 9007199254005336⟩ ⟨6079859496453601, 9007199254005336⟩ rfl s3 s3
  refine ⟨⟨rfl, s1, s2, s3⟩, h.1.trans ?_, h.2.1.trans ?_,
    k.1.trans percent_rounded_twice.1⟩
  · exact percent_val ⟨1, 3⟩ 33 266 267 (-3) (by decide) (by norm_num) (by norm_num)
      (by norm_num [abs_lt]) (by norm_num) (by norm_num) (by norm_num) (by norm_num)
  · exact percent_val ⟨2, 3⟩ 67 533 534 (-3) (by decide) (by norm_num) (by norm_num)
      (by norm_num [abs_lt]) (by norm_num) (by norm_num) (by norm_num) (by norm_num)

/-- C25 fails at events that are not well formed, and at a `loaded` that goes
down: with the upload of a chosen file in flight, the event 200 of 100 bytes
stores 200; the event -1 of 100 bytes stores -1; an event with `total = 0`
stores no finite number; and after the event 50 of 100 bytes has stored 50,
the event 10 of 100 bytes stores 10. -/
theorem C25_progress_unclamped_and_decreasing :
    (notify Act.apply env 0 ⟨200, 100⟩ (start chosen)).state.uploadProgress = some 200 ∧
    (notify Act.apply env 0 ⟨-1, 100⟩ (start chosen)).state.uploadProgress = some (-1) ∧
    (notify Act.apply env 0 ⟨5, 0⟩ (start chosen)).state.uploadProgress = none ∧
    (notify Act.apply env 0 ⟨50, 100⟩ (start chosen)).state.uploadProgress = some 50 ∧
    (notify Act.apply env 0 ⟨10, 100⟩
      (notify Act.apply env 0 ⟨50, 100⟩ (start chosen))).state.uploadProgress = some 10 := by
  have hs : start chosen = _ := start_eq_oneCall chosen AppClean.docx rfl
  have ha : (start chosen).awaiting = [uploadFlight AppClean.docx] := by rw [hs]
  have hn : ∀ ev, (notify Act.apply env 0 ev (start chosen)).state.uploadProgress
      = percent ev := fun ev => by rw [notify_upload AppClean.docx ev _ ha]
  have hb : (notify Act.apply env 0 ⟨50, 100⟩ (start chosen)).awaiting
      = [uploadFlight AppClean.docx] := by
    rw [notify_upload AppClean.docx _ _ ha]; exact ha
  refine ⟨(hn _).trans ?_, (hn _).trans ?_, (hn _).trans ?_, (hn _).trans ?_, ?_⟩
  · exact percent_val ⟨200, 100⟩ 200 200 200 0 (by decide) (by norm_num) (by norm_num)
      (by norm_num [abs_lt]) (by norm_num) (by norm_num) (by norm_num) (by norm_num)
  · exact percent_val ⟨-1, 100⟩ (-1) (-1) (-1) 0 (by decide) (by norm_num) (by norm_num)
      (by norm_num [abs_lt]) (by norm_num) (by norm_num) (by norm_num) (by norm_num)
  · simp [percent]
  · exact percent_val ⟨50, 100⟩ 50 50 50 0 (by decide) (by norm_num) (by norm_num)
      (by norm_num [abs_lt]) (by norm_num) (by norm_num) (by norm_num) (by norm_num)
  · rw [notify_upload AppClean.docx _ _ hb]
    exact percent_val ⟨10, 100⟩ 10 10 10 0 (by decide) (by norm_num) (by norm_num)
      (by norm_num [abs_lt]) (by norm_num) (by norm_num) (by norm_num) (by norm_num)

/-- C26 (amended): in the upload of `App.js`, beginning an attempt writes
`isUploading` only and leaves `uploadProgress` as it was; while the request is
in flight `uploadProgress` holds what the last progress event stored; and
when the request resolves, with a response or with a failure, the `finally`
block sets `uploadProgress` to 0, so that after every attempt, also one that
succeeded, `uploadProgress` is 0 and no request is in flight. -/
theorem C26_progress_zeroed_when_attempt_ends (s : State) (f : File)
    (evs : List ProgressEvent) (ev : ProgressEvent) (r : Except AxiosError Json)
    (hs : s.uploadedFile = some f) :
    (actsOf (start s).log = [.setIsUploading true] ∧
      (start s).state.uploadProgress = s.uploadProgress) ∧
    ((evs ++ [ev]).foldl (fun c ev => notify Act.apply env 0 ev c)
      (start s)).state.uploadProgress = percent ev ∧
    (run evs r s).state.uploadProgress = some 0 ∧
    (run (evs ++ [ev]) r s).state.uploadProgress = some 0 ∧
    (run evs r s).awaiting = [] := by
  have h0 : (start s).awaiting = [uploadFlight f] := by rw [start_eq_oneCall s f hs]
  have h1 := (notify_all_upload f evs (start s) h0).1
  have h2 := (notify_all_upload f (evs ++ [ev]) (start s) h0).1
  refine ⟨⟨?_, ?_⟩, ?_, (deliver_upload f r _ h1).2.2.1, (deliver_upload f r _ h2).2.2.1,
    (deliver_upload f r _ h1).1⟩
  · rw [start_eq_oneCall s f hs]; rfl
  · rw [start_eq_oneCall s f hs]
  · rw [List.foldl_append, List.foldl_cons, List.foldl_nil, notify_upload f ev _ h1]

/-- C26 at a chosen file, the events 40 of 100 and 100 of 100 bytes, and a
successful response. -/
theorem C26_progress_zeroed_when_attempt_ends_witness :
    chosen.uploadedFile = some AppClean.docx ∧
    (run [⟨40, 100⟩, ⟨100, 100⟩] (.ok AppClean.stubParsed) chosen).state.uploadProgress
      = some 0 :=
  ⟨rfl, (C26_progress_zeroed_when_attempt_ends chosen AppClean.docx [⟨40, 100⟩] ⟨100, 100⟩
    (.ok AppClean.stubParsed) rfl).2.2.2.1⟩

/-- C26 fails after an upload that succeeded: with a chosen file, the events
40 of 100 and 100 of 100 bytes store 100 while the request is in flight, and
when the request then resolves with a response, the parsed data is stored and
`uploadProgress` is 0, not 100, with no new attempt begun. -/
theorem C26_progress_zero_after_success :
    ([⟨40, 100⟩, ⟨100, 100⟩].foldl (fun c ev => notify Act.apply env 0 ev c)
      (start chosen)).state.uploadProgress = some 100 ∧
    (run [⟨40, 100⟩, ⟨100, 100⟩] (.ok AppClean.stubParsed) chosen).state.parsedData
      = some AppClean.stubParsed ∧
    (run [⟨40, 100⟩, ⟨100, 100⟩] (.ok AppClean.stubParsed) chosen).state.uploadProgress
      = some 0 ∧
    issuedOf (run [⟨40, 100⟩, ⟨100, 100⟩] (.ok AppClean.stubParsed) chosen).log
      = [.uploadResume AppClean.docx] := by
  have hs : start chosen = _ := start_eq_oneCall chosen AppClean.docx rfl
  have ha : (start chosen).awaiting = [uploadFlight AppClean.docx] := by rw [hs]
  have hb : (notify Act.apply env 0 ⟨40, 100⟩ (start chosen)).awaiting
      = [uploadFlight AppClean.docx] := by
    rw [notify_upload AppClean.docx _ _ ha]; exact ha
  refine ⟨?_, rfl, rfl, rfl⟩
  rw [List.foldl_cons, List.foldl_cons, List.foldl_nil, notify_upload AppClean.docx _ _ hb]
  exact percent_val ⟨100, 100⟩ 100 100 100 0 (by decide) (by norm_num) (by norm_num)
    (by norm_num [abs_lt]) (by norm_num) (by norm_num) (by norm_num) (by norm_num)

end App

/-! ## `App_clean.js`: the pipeline, step by step -/

namespace AppClean

theorem uploadResume_eq (s : State) (f : File) (hs : s.selectedFile = some f) :
    uploadResume s =
      .write (.setLoading true) (.await (.uploadResume f) (uploadResumeResume f)) := by
  simp only [uploadResume, hs, Prog.post, Prog.tryCatch, Prog.tryFinally]
  congr 2
  funext x
  cases x <;> rfl

theorem uploadResume_no_file (s : State) (hs : s.selectedFile = none) :
    uploadResume s = .done := by
  simp only [uploadResume, hs]

theorem uploadResumeResume_ok (f : File) (u : Json) :
    uploadResumeResume f (.ok u) =
      .write (.setUploadStatus "Resume uploaded successfully!")
        (.write (.setCurrentStep 2)
          (.write (.setLoading true)
            (.await (.parseResume f.name) (parseResumeResume f.name)))) := by
  simp only [uploadResumeResume, parseResume, Prog.post, Prog.tryCatch, Prog.tryFinally]
  congr 4
  funext x
  cases x <;> rfl

theorem uploadResumeResume_error (f : File) (e : AxiosError) :
    uploadResumeResume f (.error e) =
      .write (.setUploadStatus ("Upload failed: " ++ causeText e))
        (.write (.setLoading false) .done) := by
  simp only [uploadResumeResume, Prog.tryCatch, Prog.tryFinally]

theorem parseResumeResume_ok (filename : String) (P : Json) :
    parseResumeResume filename (.ok P) =
      .write (.setParsedData (some P))
        (.write (.setCurrentStep 3)
          (.write (.setLoading true)
            (.await (.suggestCareers filename) getCareerSuggestionsResume))) := by
  simp only [parseResumeResume, getCareerSuggestions, Prog.post, Prog.tryCatch,
    Prog.tryFinally]
  congr 4
  funext x
  cases x <;> rfl

theorem parseResumeResume_error (filename : String) (e : AxiosError) :
    parseResumeResume filename (.error e) =
      .write (.setUploadStatus ("Parsing failed: " ++ causeText e))
        (.write (.setLoading false) (.write (.setLoading false) .done)) := by
  simp only [parseResumeResume, Prog.tryCatch, Prog.tryFinally]

theorem getCareerSuggestionsResume_ok (R : Json) :
    getCareerSuggestionsResume (.ok R) =
      .write (.setCareerSuggestions (some R))
        (.write (.setCurrentStep 4)
          (.write (.setLoading false)
            (.write (.setLoading false) (.write (.setLoading false) .done)))) := by
  simp only [getCareerSuggestionsResume, Prog.tryCatch, Prog.tryFinally]

theorem getCareerSuggestionsResume_error (e : AxiosError) :
    getCareerSuggestionsResume (.error e) =
      .write (.setUploadStatus ("Career suggestion failed: " ++ causeText e))
        (.write (.setLoading false)
          (.write (.setLoading false) (.write (.setLoading false) .done))) := by
  simp only [getCareerSuggestionsResume, Prog.tryCatch, Prog.tryFinally]

theorem runSync_uploadResume (s : State) (f : File) (hs : s.selectedFile = some f)
    (c : Config State Act Request Json) :
    runSync Act.apply env (uploadResume s) c =
      { c with state := { c.state with loading := true },
               awaiting := c.awaiting ++ [uploadFlight f],
               log := c.log ++ [.act (.setLoading true), .issue (.uploadResume f)] } := by
  rw [uploadResume_eq s f hs]
  simp [runSync, Act.apply, uploadFlight]

theorem start_eq (s : State) (f : File) (hs : s.selectedFile = some f) :
    start s =
      { state := { s with loading := true }, awaiting := [uploadFlight f], timers := [],
        nNow := 0, nRandom := 0,
        log := [.act (.setLoading true), .issue (.uploadResume f)] } := by
  unfold start invoke
  rw [runSync_uploadResume (Config.init s).state f hs]
  rfl

theorem invoke_resetApp (c : Config State Act Request Json) :
    invoke Act.apply env resetApp c =
      { c with state := { c.state with selectedFile := none, uploadStatus := "",
                                       parsedData := none, careerSuggestions := none,
                                       currentStep := 1 },
               log := c.log ++ [.act (.setSelectedFile none), .act (.setUploadStatus ""),
                 .act (.setParsedData none), .act (.setCareerSuggestions none),
                 .act (.setCurrentStep 1)] } := by
  simp [invoke, resetApp, runSync, Act.apply]

theorem deliver_upload_ok (f : File) (u : Json) (c : Config State Act Request Json)
    (hc : c.awaiting = [uploadFlight f]) :
    deliver Act.apply env 0 (.ok u) c =
      { c with state := { c.state with uploadStatus := "Resume uploaded successfully!",
                                       currentStep := 2, loading := true },
               awaiting := [parseFlight f.name],
               log := c.log ++ [.resolve (.uploadResume f) (.ok u),
                 .act (.setUploadStatus "Resume uploaded successfully!"),
                 .act (.setCurrentStep 2), .act (.setLoading true),
                 .issue (.parseResume f.name)] } := by
  unfold deliver
  simp only [hc, List.get?_cons_zero, uploadFlight, uploadResumeResume_ok]
  simp [runSync, Act.apply, parseFlight]

theorem deliver_upload_error (f : File) (e : AxiosError)
    (c : Config State Act Request Json) (hc : c.awaiting = [uploadFlight f]) :
    deliver Act.apply env 0 (.error e) c =
      { c with state := { c.state with uploadStatus := "Upload failed: " ++ causeText e,
                                       loading := false },
               awaiting := [],
               log := c.log ++ [.resolve (.uploadResume f) (.error e),
                 .act (.setUploadStatus ("Upload failed: " ++ causeText e)),
                 .act (.setLoading false)] } := by
  unfold deliver
  simp only [hc, List.get?_cons_zero, uploadFlight, uploadResumeResume_error]
  simp [runSync, Act.apply]

theorem deliver_parse_ok (filename : String) (P : Json) (c : Config State Act Request Json)
    (hc : c.awaiting = [parseFlight filename]) :
    deliver Act.apply env 0 (.ok P) c =
      { c with state := { c.state with parsedData := some P, currentStep := 3,
                                       loading := true },
               awaiting := [suggestFlight filename],
               log := c.log ++ [.resolve (.parseResume filename) (.ok P),
                 .act (.setParsedData (some P)), .act (.setCurrentStep 3),
                 .act (.setLoading true), .issue (.suggestCareers filename)] } := by
  unfold deliver
  simp only [hc, List.get?_cons_zero, parseFlight, parseResumeResume_ok]
  simp [runSync, Act.apply, suggestFlight]

theorem deliver_parse_error (filename : String) (e : AxiosError)
    (c : Config State Act Request Json) (hc : c.awaiting = [parseFlight filename]) :
    deliver Act.apply env 0 (.error e) c =
      { c with state := { c.state with uploadStatus := "Parsing failed: " ++ causeText e,
                                       loading := false },
               awaiting := [],
               log := c.log ++ [.resolve (.parseResume filename) (.error e),
                 .act (.setUploadStatus ("Parsing failed: " ++ causeText e)),
                 .act (.setLoading false), .act (.setLoading false)] } := by
  unfold deliver
  simp only [hc, List.get?_cons_zero, parseFlight, parseResumeResume_error]
  simp [runSync, Act.apply]

theorem deliver_suggest_ok (filename : String) (R : Json)
    (c : Config State Act Request Json) (hc : c.awaiting = [suggestFlight filename]) :
    deliver Act.apply env 0 (.ok R) c =
      { c with state := { c.state with careerSuggestions := some R, currentStep := 4,
                                       loading := false },
               awaiting := [],
               log := c.log ++ [.resolve (.suggestCareers filename) (.ok R),
                 .act (.setCareerSuggestions (some R)), .act (.setCurrentStep 4),
                 .act (.setLoading false), .act (.setLoading false),
                 .act (.setLoading false)] } := by
  unfold deliver
  simp only [hc, List.get?_cons_zero, suggestFlight, getCareerSuggestionsResume_ok]
  simp [runSync, Act.apply]

theorem deliver_suggest_error (filename : String) (e : AxiosError)
    (c : Config State Act Request Json) (hc : c.awaiting = [suggestFlight filename]) :
    deliver Act.apply env 0 (.error e) c =
      { c with state := { c.state with
                            uploadStatus := "Career suggestion failed: " ++ causeText e,
                            loading := false },
               awaiting := [],
               log := c.log ++ [.resolve (.suggestCareers filename) (.error e),
                 .act (.setUploadStatus ("Career suggestion failed: " ++ causeText e)),
                 .act (.setLoading false), .act (.setLoading false),
                 .act (.setLoading false)] } := by
  unfold deliver
  simp only [hc, List.get?_cons_zero, suggestFlight, getCareerSuggestionsResume_error]
  simp [runSync, Act.apply]

theorem invoke_handleFileSelect (file : Option File) (c : Config State Act Request Json) :
    (invoke Act.apply env (handleFileSelect file) c).awaiting = c.awaiting ∧
    (invoke Act.apply env (handleFileSelect file) c).state.loading = c.state.loading ∧
    ((invoke Act.apply env (handleFileSelect file) c).state.careerSuggestions = none ∨
      ((invoke Act.apply env (handleFileSelect file) c).state.careerSuggestions
          = c.state.careerSuggestions ∧
        (invoke Act.apply env (handleFileSelect file) c).state.currentStep
          = c.state.currentStep)) := by
  unfold invoke handleFileSelect
  split <;> simp [runSync, Act.apply]

theorem phase_of_same (c d : Config State Act Request Json) (h : Phase c)
    (ha : d.awaiting = c.awaiting) (hl : d.state.loading = c.state.loading)
    (hs : d.state.careerSuggestions = none ∨
      (d.state.careerSuggestions = c.state.careerSuggestions ∧
        d.state.currentStep = c.state.currentStep)) : Phase d := by
  rcases h with ⟨h1, h2, h3⟩ | ⟨p, h1, h2, h3, h4⟩
  · refine Or.inl ⟨ha.trans h1, hl.trans h2, fun hstep => ?_⟩
    rcases hs with hs | ⟨hs, hc⟩
    · exact hs
    · exact hs.trans (h3 (hc.symm.trans hstep))
  · refine Or.inr ⟨p, ha.trans h1, h2, hl.trans h3, ?_⟩
    rcases hs with hs | ⟨hs, _⟩
    · exact hs
    · exact hs.trans h4

theorem phase_resetButton (c : Config State Act Request Json) (h : Phase c) :
    Phase (invoke Act.apply env resetButton c) := by
  unfold invoke resetButton
  split
  · have e := invoke_resetApp c
    unfold invoke at e
    rw [e]
    exact phase_of_same c _ h rfl rfl (Or.inl rfl)
  · exact h

theorem phase_fileInput (file : Option File) (c : Config State Act Request Json)
    (h : Phase c) : Phase (invoke Act.apply env (fileInput file) c) := by
  have e := invoke_handleFileSelect file c
  unfold invoke at e ⊢
  unfold fileInput
  split
  · exact phase_of_same c _ h e.1 e.2.1 e.2.2
  · exact h

theorem phase_uploadButton (c : Config State Act Request Json) (h : Phase c) :
    Phase (invoke Act.apply env uploadButton c) := by
  unfold invoke uploadButton
  split
  · rename_i hb
    simp only [Bool.and_eq_true, beq_iff_eq, Bool.not_eq_true', Option.isSome_iff_exists]
      at hb
    obtain ⟨⟨⟨_, hstep⟩, f, hf⟩, hload⟩ := hb
    rw [runSync_uploadResume c.state f hf c]
    rcases h with ⟨h1, _, h3⟩ | ⟨p, _, _, h3, _⟩
    · exact Or.inr ⟨uploadFlight f, by simp [h1], Or.inl ⟨f, rfl⟩, rfl, h3 hstep⟩
    · rw [hload] at h3
      exact absurd h3 (by decide)
  · exact h

theorem phase_deliver (i : Nat) (r : Except AxiosError Json)
    (c : Config State Act Request Json) (h : Phase c) :
    Phase (deliver Act.apply env i r c) := by
  rcases h with ⟨h1, h2, h3⟩ | ⟨p, h1, h2, h3, h4⟩
  · rw [deliver_none Act.apply env c i r (by rw [h1]; exact Nat.zero_le _)]
    exact Or.inl ⟨h1, h2, h3⟩
  · cases i with
    | succ i =>
      rw [deliver_none Act.apply env c (i + 1) r (by rw [h1]; simp)]
      exact Or.inr ⟨p, h1, h2, h3, h4⟩
    | zero =>
      rcases h2 with ⟨f, hp⟩ | ⟨n, hp⟩ | ⟨n, hp⟩
      · rw [hp] at h1
        cases r with
        | ok u =>
          rw [deliver_upload_ok f u c h1]
          exact Or.inr ⟨parseFlight f.name, rfl, Or.inr (Or.inl ⟨_, rfl⟩), rfl, h4⟩
        | error e =>
          rw [deliver_upload_error f e c h1]
          exact Or.inl ⟨rfl, rfl, fun _ => h4⟩
      · rw [hp] at h1
        cases r with
        | ok u =>
          rw [deliver_parse_ok n u c h1]
          exact Or.inr ⟨suggestFlight n, rfl, Or.inr (Or.inr ⟨_, rfl⟩), rfl, h4⟩
        | error e =>
          rw [deliver_parse_error n e c h1]
          exact Or.inl ⟨rfl, rfl, fun _ => h4⟩
      · rw [hp] at h1
        cases r with
        | ok u =>
          rw [deliver_suggest_ok n u c h1]
          exact Or.inl ⟨rfl, rfl, fun hstep => absurd (show (4 : Nat) = 1 from hstep) (by decide)⟩
        | error e =>
          rw [deliver_suggest_error n e c h1]
          exact Or.inl ⟨rfl, rfl, fun _ => h4⟩

theorem reach_phase (c : Config State Act Request Json) (h : Reach c) : Phase c := by
  induction h with
  | init => exact Or.inl ⟨rfl, rfl, fun _ => rfl⟩
  | navigate m _ ih => exact phase_of_same _ _ ih rfl rfl (Or.inr ⟨rfl, rfl⟩)
  | choose file _ ih => exact phase_fileInput file _ ih
  | click _ ih => exact phase_uploadButton _ ih
  | reset _ ih => exact phase_resetButton _ ih
  | respond i r _ ih => exact phase_deliver i r _ ih

theorem phase_buttons_off (c : Config State Act Request Json) (h : Phase c)
    (hne : c.awaiting ≠ []) :
    c.awaiting.length = 1 ∧ c.state.loading = true ∧
    invoke Act.apply env uploadButton c = c ∧ invoke Act.apply env resetButton c = c := by
  rcases h with ⟨h1, _, _⟩ | ⟨p, h1, _, h3, h4⟩
  · exact absurd h1 hne
  · refine ⟨by rw [h1]; rfl, h3, ?_, ?_⟩
    · simp [invoke, uploadButton, h3, runSync]
    · simp [invoke, resetButton, h4, runSync]

end AppClean

namespace App

theorem phase_of_same_oneCall (c d : Config State Act Request Json) (h : Phase c)
    (ha : d.awaiting = c.awaiting) (hl : d.state.isUploading = c.state.isUploading) :
    Phase d := by
  rcases h with ⟨h1, h2⟩ | ⟨f, h1, h2⟩
  · exact Or.inl ⟨ha.trans h1, hl.trans h2⟩
  · exact Or.inr ⟨f, ha.trans h1, hl.trans h2⟩

theorem phase_fileInput_oneCall (file : Option File) (c : Config State Act Request Json)
    (h : Phase c) : Phase (invoke Act.apply env (fileInput file) c) := by
  unfold invoke fileInput
  split
  · exact phase_of_same_oneCall c _ h rfl rfl
  · exact h

theorem phase_uploadButton_oneCall (c : Config State Act Request Json) (h : Phase c) :
    Phase (invoke Act.apply env uploadButton c) := by
  unfold invoke uploadButton
  split
  · rename_i hb
    simp only [Bool.and_eq_true, beq_iff_eq, Bool.not_eq_true', Bool.or_eq_false_iff,
      Option.isNone_eq_false_iff, Option.isSome_iff_exists] at hb
    obtain ⟨_, ⟨f, hf⟩, hload⟩ := hb
    rw [runSync_uploadResume_oneCall c.state f hf c]
    rcases h with ⟨h1, _⟩ | ⟨g, _, h3⟩
    · exact Or.inr ⟨f, by simp [h1], rfl⟩
    · rw [hload] at h3
      exact absurd h3 (by decide)
  · exact h

theorem phase_notify (i : Nat) (ev : ProgressEvent) (c : Config State Act Request Json)
    (h : Phase c) : Phase (notify Act.apply env i ev c) := by
  rcases h with ⟨h1, h2⟩ | ⟨f, h1, h2⟩
  · have e : notify Act.apply env i ev c = c := by
      unfold notify
      simp [h1]
    rw [e]
    exact Or.inl ⟨h1, h2⟩
  · cases i with
    | zero =>
      rw [notify_upload f ev c h1]
      exact Or.inr ⟨f, h1, h2⟩
    | succ i =>
      have e : notify Act.apply env (i + 1) ev c = c := by
        unfold notify
        simp [h1]
      rw [e]
      exact Or.inr ⟨f, h1, h2⟩

theorem phase_deliver_oneCall (i : Nat) (r : Except AxiosError Json)
    (c : Config State Act Request Json) (h : Phase c) :
    Phase (deliver Act.apply env i r c) := by
  rcases h with ⟨h1, h2⟩ | ⟨f, h1, h2⟩
  · rw [deliver_none Act.apply env c i r (by rw [h1]; exact Nat.zero_le _)]
    exact Or.inl ⟨h1, h2⟩
  · cases i with
    | zero => exact Or.inl ⟨(deliver_upload f r c h1).1, (deliver_upload f r c h1).2.1⟩
    | succ i =>
      rw [deliver_none Act.apply env c (i + 1) r (by rw [h1]; simp)]
      exact Or.inr ⟨f, h1, h2⟩

theorem reach_phase_oneCall (c : Config State Act Request Json) (h : Reach c) : Phase c := by
  induction h with
  | init => exact Or.inl ⟨rfl, rfl⟩
  | navigate m _ ih => exact phase_of_same_oneCall _ _ ih rfl rfl
  | chat b _ ih => exact phase_of_same_oneCall _ _ ih rfl rfl
  | choose file _ ih => exact phase_fileInput_oneCall file _ ih
  | click _ ih => exact phase_uploadButton_oneCall _ ih
  | progress i ev _ ih => exact phase_notify i ev _ ih
  | respond i r _ ih => exact phase_deliver_oneCall i r _ ih

theorem phase_buttons_off_oneCall (c : Config State Act Request Json) (h : Phase c)
    (hne : c.awaiting ≠ []) :
    c.awaiting.length = 1 ∧ c.state.isUploading = true ∧
    invoke Act.apply env uploadButton c = c ∧
    ∀ file, invoke Act.apply env (fileInput file) c = c := by
  rcases h with ⟨h1, _⟩ | ⟨f, h1, h3⟩
  · exact absurd h1 hne
  · refine ⟨by rw [h1]; rfl, h3, ?_, fun file => ?_⟩
    · simp [invoke, uploadButton, h3, runSync]
    · simp [invoke, fileInput, h3, runSync]

end App

/-! ## The reset and the upload guard of the pages -/

namespace AppClean

/-- C21 (amended): `resetApp` does not cancel a request in flight and does
not mark it stale: it writes its five fields and leaves the request in flight
and `loading` as they are, and the response that later arrives is applied to
the reset state.  After a reset while the upload is in flight, a response
sets `uploadStatus` to "Resume uploaded successfully!" and `currentStep` to 2
and the parse call is issued for the name of the uploaded file, and a failure
writes the "Upload failed: " line; after a reset while the parse call is in
flight, a response is stored in `parsedData`, `currentStep` becomes 3 and the
suggest call is issued; after a reset while the suggest call is in flight, a
response is stored in `careerSuggestions` and `currentStep` becomes 4.  In the
rendered page the button that calls `resetApp` is not offered while a request
is in flight: a click on it then changes nothing. -/
theorem C21_reset_keeps_request_in_flight (s : State) (f : File) (u P R : Json)
    (e : AxiosError) (c : Config State Act Request Json) (hs : s.selectedFile = some f) :
    ((invoke Act.apply env resetApp (start s)).awaiting = (start s).awaiting ∧
      (invoke Act.apply env resetApp (start s)).state =
        { selectedFile := none, uploadStatus := "", parsedData := none,
          careerSuggestions := none, loading := true, currentStep := 1,
          appMode := s.appMode }) ∧
    ((deliver Act.apply env 0 (.ok u) (invoke Act.apply env resetApp (start s))).state =
        { selectedFile := none, uploadStatus := "Resume uploaded successfully!",
          parsedData := none, careerSuggestions := none, loading := true,
          currentStep := 2, appMode := s.appMode } ∧
      issuedOf (deliver Act.apply env 0 (.ok u)
          (invoke Act.apply env resetApp (start s))).log =
        [.uploadResume f, .parseResume f.name]) ∧
    ((deliver Act.apply env 0 (.error e) (invoke Act.apply env resetApp (start s))).state =
        { selectedFile := none, uploadStatus := "Upload failed: " ++ causeText e,
          parsedData := none, careerSuggestions := none, loading := false,
          currentStep := 1, appMode := s.appMode }) ∧
    ((deliver Act.apply env 0 (.ok P) (invoke Act.apply env resetApp
        (deliver Act.apply env 0 (.ok u) (start s)))).state =
        { selectedFile := none, uploadStatus := "", parsedData := some P,
          careerSuggestions := none, loading := true, currentStep := 3,
          appMode := s.appMode } ∧
      issuedOf (deliver Act.apply env 0 (.ok P) (invoke Act.apply env resetApp
          (deliver Act.apply env 0 (.ok u) (start s)))).log =
        [.uploadResume f, .parseResume f.name, .suggestCareers f.name]) ∧
    ((deliver Act.apply env 0 (.ok R) (invoke Act.apply env resetApp
        (deliver Act.apply env 0 (.ok P) (deliver Act.apply env 0 (.ok u) (start s))))).state =
        { selectedFile := none, uploadStatus := "", parsedData := none,
          careerSuggestions := some R, loading := false, currentStep := 4,
          appMode := s.appMode }) ∧
    (Reach c → c.awaiting ≠ [] → invoke Act.apply env resetButton c = c) := by
  have h1 := start_eq s f hs
  have a1 : (start s).awaiting = [uploadFlight f] := by rw [h1]
  have r1 := invoke_resetApp (start s)
  have ra1 : (invoke Act.apply env resetApp (start s)).awaiting = [uploadFlight f] := by
    rw [r1]; exact a1
  have h2 := deliver_upload_ok f u (start s) a1
  have a2 : (deliver Act.apply env 0 (.ok u) (start s)).awaiting = [parseFlight f.name] := by
    rw [h2]
  have r2 := invoke_resetApp (deliver Act.apply env 0 (.ok u) (start s))
  have ra2 : (invoke Act.apply env resetApp
      (deliver Act.apply env 0 (.ok u) (start s))).awaiting = [parseFlight f.name] := by
    rw [r2]; exact a2
  have h3 := deliver_parse_ok f.name P (deliver Act.apply env 0 (.ok u) (start s)) a2
  have a3 : (deliver Act.apply env 0 (.ok P)
      (deliver Act.apply env 0 (.ok u) (start s))).awaiting = [suggestFlight f.name] := by
    rw [h3]
  have r3 := invoke_resetApp (deliver Act.apply env 0 (.ok P)
    (deliver Act.apply env 0 (.ok u) (start s)))
  have ra3 : (invoke Act.apply env resetApp (deliver Act.apply env 0 (.ok P)
      (deliver Act.apply env 0 (.ok u) (start s)))).awaiting = [suggestFlight f.name] := by
    rw [r3]; exact a3
  refine ⟨⟨by rw [r1], ?_⟩, ⟨?_, ?_⟩, ?_, ⟨?_, ?_⟩, ?_, ?_⟩
  · rw [r1, h1]
  · rw [deliver_upload_ok f u _ ra1, r1, h1]
  · rw [deliver_upload_ok f u _ ra1, r1, h1]
    rfl
  · rw [deliver_upload_error f e _ ra1, r1, h1]
  · rw [deliver_parse_ok f.name P _ ra2, r2, h2, h1]
  · rw [deliver_parse_ok f.name P _ ra2, r2, h2, h1]
    rfl
  · rw [deliver_suggest_ok f.name R _ ra3, r3, h3, h2, h1]
  · intro hr hne
    exact (phase_buttons_off c (reach_phase c hr) hne).2.2.2

/-- C21 at `resume.docx` selected and the stubbed responses, with the reset
arriving while the upload is in flight. -/
theorem C21_reset_keeps_request_in_flight_witness :
    selected.selectedFile = some docx ∧
    (deliver Act.apply env 0 (.ok .null)
      (invoke Act.apply env resetApp (start selected))).state.currentStep = 2 ∧
    issuedOf (deliver Act.apply env 0 (.ok .null)
      (invoke Act.apply env resetApp (start selected))).log =
        [.uploadResume docx, .parseResume "resume.docx"] ∧
    invoke Act.apply env resetButton (invoke Act.apply env uploadButton ready)
      = invoke Act.apply env uploadButton ready := by
  have h := C21_reset_keeps_request_in_flight selected docx .null stubParsed stubSuggested
    (plainError "Network Error") (invoke Act.apply env uploadButton ready) rfl
  refine ⟨rfl, congrArg State.currentStep h.2.1.1, h.2.1.2, ?_⟩
  exact h.2.2.2.2.2 (Reach.click (Reach.choose _ (Reach.navigate _ Reach.init)))
    (fun hnil => by cases hnil)

/-- C21 fails at a reset while the upload is in flight: `resume.docx` is
selected, "Analyze Resume" is clicked, `resetApp` runs, and the three calls
then succeed with the stubbed responses.  The parse and suggest calls are
issued for the abandoned attempt, and the state at the end is not the reset
state: `currentStep` is 4, `uploadStatus` is "Resume uploaded successfully!",
and `parsedData` and `careerSuggestions` hold the responses, with no file
selected. -/
theorem C21_late_responses_applied_after_reset :
    issuedOf (settle Act.apply env stubRemote 3
        (invoke Act.apply env resetApp (start selected))).log =
      [.uploadResume docx, .parseResume "resume.docx", .suggestCareers "resume.docx"] ∧
    (settle Act.apply env stubRemote 3
        (invoke Act.apply env resetApp (start selected))).state =
      { selectedFile := none, uploadStatus := "Resume uploaded successfully!",
        parsedData := some stubParsed, careerSuggestions := some stubSuggested,
        loading := false, currentStep := 4, appMode := "home" } :=
  ⟨rfl, rfl⟩

end AppClean

/-- C24 (amended): `uploadResume` is a no-op when no file is selected: it
changes no state field and issues no call, in `App_clean.js` and in `App.js`.
It does not test `loading` or `isUploading`; the guard against a second
upload is the button that calls it, which is disabled while `loading`
(`isUploading`) is true.  In every configuration the page reaches through its
controls, at most one request is in flight, and while one is in flight
`loading` (`isUploading`) is true and a click on the upload button changes
nothing. -/
theorem C24_upload_guarded_by_button
    (c : Config AppClean.State AppClean.Act AppClean.Request Json)
    (d : Config App.State App.Act App.Request Json)
    (hc : AppClean.Reach c) (hd : App.Reach d) :
    ((∀ c0 : Config AppClean.State AppClean.Act AppClean.Request Json,
        c0.state.selectedFile = none →
        invoke AppClean.Act.apply AppClean.env AppClean.uploadResume c0 = c0) ∧
      c.awaiting.length ≤ 1 ∧
      (c.awaiting ≠ [] → c.state.loading = true ∧
        invoke AppClean.Act.apply AppClean.env AppClean.uploadButton c = c)) ∧
    ((∀ d0 : Config App.State App.Act App.Request Json,
        d0.state.uploadedFile = none →
        invoke App.Act.apply App.env App.uploadResume d0 = d0) ∧
      d.awaiting.length ≤ 1 ∧
      (d.awaiting ≠ [] → d.state.isUploading = true ∧
        invoke App.Act.apply App.env App.uploadButton d = d)) := by
  refine ⟨⟨fun c0 h0 => ?_, ?_, fun hne => ?_⟩, ⟨fun d0 h0 => ?_, ?_, fun hne => ?_⟩⟩
  · unfold invoke
    rw [AppClean.uploadResume_no_file c0.state h0]
    rfl
  · rcases AppClean.reach_phase c hc with ⟨h1, _, _⟩ | ⟨p, h1, _, _, _⟩ <;> simp [h1]
  · have h := AppClean.phase_buttons_off c (AppClean.reach_phase c hc) hne
    exact ⟨h.2.1, h.2.2.1⟩
  · unfold invoke
    rw [App.uploadResume_no_file_oneCall d0.state h0]
    rfl
  · rcases App.reach_phase_oneCall d hd with ⟨h1, _⟩ | ⟨p, h1, _⟩ <;> simp [h1]
  · have h := App.phase_buttons_off_oneCall d (App.reach_phase_oneCall d hd) hne
    exact ⟨h.2.1, h.2.2.1⟩

/-- C24 at the two pages with `resume.docx` chosen and the upload button
clicked once: one request is in flight, and a second click changes
nothing. -/
theorem C24_upload_guarded_by_button_witness :
    (AppClean.Reach (invoke AppClean.Act.apply AppClean.env AppClean.uploadButton
        AppClean.ready) ∧
      App.Reach (invoke App.Act.apply App.env App.uploadButton App.ready)) ∧
    (invoke AppClean.Act.apply AppClean.env AppClean.uploadButton
      AppClean.ready).awaiting.length = 1 ∧
    invoke AppClean.Act.apply AppClean.env AppClean.uploadButton
        (invoke AppClean.Act.apply AppClean.env AppClean.uploadButton AppClean.ready)
      = invoke AppClean.Act.apply AppClean.env AppClean.uploadButton AppClean.ready ∧
    (invoke App.Act.apply App.env App.uploadButton App.ready).awaiting.length = 1 ∧
    invoke App.Act.apply App.env App.uploadButton
        (invoke App.Act.apply App.env App.uploadButton App.ready)
      = invoke App.Act.apply App.env App.uploadButton App.ready := by
  have hc : AppClean.Reach (invoke AppClean.Act.apply AppClean.env AppClean.uploadButton
      AppClean.ready) :=
    AppClean.Reach.click (AppClean.Reach.choose _ (AppClean.Reach.navigate _ AppClean.Reach.init))
  have hd : App.Reach (invoke App.Act.apply App.env App.uploadButton App.ready) :=
    App.Reach.click (App.Reach.choose _ (App.Reach.navigate _ App.Reach.init))
  have h := C24_upload_guarded_by_button _ _ hc hd
  exact ⟨⟨hc, hd⟩, rfl, (h.1.2.2 (fun hnil => by cases hnil)).2, rfl,
    (h.2.2.2 (fun hnil => by cases hnil)).2⟩

/-- C24 fails at a call of `uploadResume` while an earlier call is in flight:
with `resume.docx` selected and the upload in flight (`loading`, in `App.js`
`isUploading`, is true), `uploadResume` issues a second upload of the same
file, and two requests are in flight. -/
theorem C24_uploadResume_runs_while_in_flight :
    ((AppClean.start AppClean.selected).state.loading = true ∧
      (AppClean.start AppClean.selected).awaiting.length = 1 ∧
      issuedOf (invoke AppClean.Act.apply AppClean.env AppClean.uploadResume
          (AppClean.start AppClean.selected)).log =
        [.uploadResume AppClean.docx, .uploadResume AppClean.docx] ∧
      (invoke AppClean.Act.apply AppClean.env AppClean.uploadResume
          (AppClean.start AppClean.selected)).awaiting.length = 2) ∧
    ((App.start App.chosen).state.isUploading = true ∧
      (App.start App.chosen).awaiting.length = 1 ∧
      issuedOf (invoke App.Act.apply App.env App.uploadResume
          (App.start App.chosen)).log =
        [.uploadResume AppClean.docx, .uploadResume AppClean.docx] ∧
      (invoke App.Act.apply App.env App.uploadResume
          (App.start App.chosen)).awaiting.length = 2) :=
  ⟨⟨rfl, rfl, rfl, rfl⟩, ⟨rfl, rfl, rfl, rfl⟩⟩

end Careerly
